import Mathlib

/-!
Verification development for the flashforge 2D-to-3D conversion core.

The definitions below are shallow embeddings of the mesh-synthesis and
mesh-repair code in `src/src/flashforge_convert_mcp/converters.py` and
`src/flashforge/scripts/` (`heightmap_to_stl.py`, `fix_model.py`,
`utils.py`, `png_to_stl.py`).  Geometry is modelled over `ℚ` (the Python
code uses IEEE floats; all claims under scrutiny are exact algebraic
facts, so rationals are the faithful idealisation), and meshes are
modelled as lists of vertices and lists of index triangles, exactly as
the sources build them.
-/

namespace FlashForge

/-! ## Generic list max / min helpers

`trimesh` bounds are componentwise maxima / minima over the vertex
array; we model them with `listMax` / `listMin` over nonempty lists. -/

/-- Maximum of a list (junk value `0` on the empty list; every use below
is on a provably nonempty list). -/
def listMax {α : Type} [LinearOrder α] [Zero α] : List α → α
  | [] => 0
  | [x] => x
  | x :: y :: t => max x (listMax (y :: t))

/-- Minimum of a list (junk value `0` on the empty list). -/
def listMin {α : Type} [LinearOrder α] [Zero α] : List α → α
  | [] => 0
  | [x] => x
  | x :: y :: t => min x (listMin (y :: t))

theorem listMax_cons {α : Type} [LinearOrder α] [Zero α] (x : α) (l : List α)
    (h : l ≠ []) : listMax (x :: l) = max x (listMax l) := by
  cases l with
  | nil => exact absurd rfl h
  | cons y t => rfl

theorem listMin_cons {α : Type} [LinearOrder α] [Zero α] (x : α) (l : List α)
    (h : l ≠ []) : listMin (x :: l) = min x (listMin l) := by
  cases l with
  | nil => exact absurd rfl h
  | cons y t => rfl

theorem le_listMax {α : Type} [LinearOrder α] [Zero α] {x : α} {l : List α}
    (h : x ∈ l) : x ≤ listMax l := by
  induction l with
  | nil => cases h
  | cons y t ih =>
    cases t with
    | nil =>
      rcases List.mem_singleton.mp h with rfl
      exact le_rfl
    | cons z s =>
      rw [listMax_cons y (z :: s) (by simp)]
      rcases List.mem_cons.mp h with rfl | hmem
      · exact le_max_left _ _
      · exact le_trans (ih hmem) (le_max_right _ _)

theorem listMin_le {α : Type} [LinearOrder α] [Zero α] {x : α} {l : List α}
    (h : x ∈ l) : listMin l ≤ x := by
  induction l with
  | nil => cases h
  | cons y t ih =>
    cases t with
    | nil =>
      rcases List.mem_singleton.mp h with rfl
      exact le_rfl
    | cons z s =>
      rw [listMin_cons y (z :: s) (by simp)]
      rcases List.mem_cons.mp h with rfl | hmem
      · exact min_le_left _ _
      · exact le_trans (min_le_right _ _) (ih hmem)

theorem listMax_mem {α : Type} [LinearOrder α] [Zero α] {l : List α}
    (h : l ≠ []) : listMax l ∈ l := by
  induction l with
  | nil => exact absurd rfl h
  | cons y t ih =>
    cases t with
    | nil => simp [listMax]
    | cons z s =>
      rw [listMax_cons y (z :: s) (by simp)]
      rcases max_choice y (listMax (z :: s)) with hm | hm
      · rw [hm]; exact List.mem_cons_self _ _
      · rw [hm]; exact List.mem_cons_of_mem _ (ih (by simp))

theorem listMin_mem {α : Type} [LinearOrder α] [Zero α] {l : List α}
    (h : l ≠ []) : listMin l ∈ l := by
  induction l with
  | nil => exact absurd rfl h
  | cons y t ih =>
    cases t with
    | nil => simp [listMin]
    | cons z s =>
      rw [listMin_cons y (z :: s) (by simp)]
      rcases min_choice y (listMin (z :: s)) with hm | hm
      · rw [hm]; exact List.mem_cons_self _ _
      · rw [hm]; exact List.mem_cons_of_mem _ (ih (by simp))

theorem listMax_le {α : Type} [LinearOrder α] [Zero α] {l : List α} {c : α}
    (hne : l ≠ []) (h : ∀ x ∈ l, x ≤ c) : listMax l ≤ c :=
  h _ (listMax_mem hne)

theorem le_listMin {α : Type} [LinearOrder α] [Zero α] {l : List α} {c : α}
    (hne : l ≠ []) (h : ∀ x ∈ l, c ≤ x) : c ≤ listMin l :=
  h _ (listMin_mem hne)

theorem listMin_le_listMax {α : Type} [LinearOrder α] [Zero α] {l : List α}
    (h : l ≠ []) : listMin l ≤ listMax l :=
  le_trans (listMin_le (listMax_mem h)) le_rfl

theorem listMax_append {α : Type} [LinearOrder α] [Zero α] {l₁ l₂ : List α}
    (h₁ : l₁ ≠ []) (h₂ : l₂ ≠ []) :
    listMax (l₁ ++ l₂) = max (listMax l₁) (listMax l₂) := by
  induction l₁ with
  | nil => exact absurd rfl h₁
  | cons x t ih =>
    cases t with
    | nil =>
      cases l₂ with
      | nil => exact absurd rfl h₂
      | cons y s => simp [listMax_cons x (y :: s) (by simp), listMax]
    | cons z s =>
      rw [List.cons_append, listMax_cons x ((z :: s) ++ l₂) (by simp),
        ih (by simp), listMax_cons x (z :: s) (by simp), max_assoc]

theorem listMin_append {α : Type} [LinearOrder α] [Zero α] {l₁ l₂ : List α}
    (h₁ : l₁ ≠ []) (h₂ : l₂ ≠ []) :
    listMin (l₁ ++ l₂) = min (listMin l₁) (listMin l₂) := by
  induction l₁ with
  | nil => exact absurd rfl h₁
  | cons x t ih =>
    cases t with
    | nil =>
      cases l₂ with
      | nil => exact absurd rfl h₂
      | cons y s => simp [listMin_cons x (y :: s) (by simp), listMin]
    | cons z s =>
      rw [List.cons_append, listMin_cons x ((z :: s) ++ l₂) (by simp),
        ih (by simp), listMin_cons x (z :: s) (by simp), min_assoc]

theorem listMax_map_hom {α β : Type} [LinearOrder α] [Zero α] [LinearOrder β]
    [Zero β] (f : α → β) (hf : ∀ a b, f (max a b) = max (f a) (f b))
    {l : List α} (h : l ≠ []) : listMax (l.map f) = f (listMax l) := by
  induction l with
  | nil => exact absurd rfl h
  | cons x t ih =>
    cases t with
    | nil => simp [listMax]
    | cons z s =>
      rw [List.map_cons, listMax_cons (f x) _ (by simp),
        listMax_cons x (z :: s) (by simp), ih (by simp), hf]

theorem listMin_map_hom {α β : Type} [LinearOrder α] [Zero α] [LinearOrder β]
    [Zero β] (f : α → β) (hf : ∀ a b, f (min a b) = min (f a) (f b))
    {l : List α} (h : l ≠ []) : listMin (l.map f) = f (listMin l) := by
  induction l with
  | nil => exact absurd rfl h
  | cons x t ih =>
    cases t with
    | nil => simp [listMin]
    | cons z s =>
      rw [List.map_cons, listMin_cons (f x) _ (by simp),
        listMin_cons x (z :: s) (by simp), ih (by simp), hf]

/-! ## Generic counting machinery for directed-edge multisets -/

/-- Directed edges of a triangle list: each triangle `(a, b, c)`
contributes the ordered edges `(a, b)`, `(b, c)`, `(c, a)`. -/
def dirEdges {α : Type} (fs : List (α × α × α)) : List (α × α) :=
  fs.flatMap fun f => [(f.1, f.2.1), (f.2.1, f.2.2), (f.2.2, f.1)]

theorem count_flatMap_cons_split {α β : Type} [BEq β] [LawfulBEq β] (l : List α)
    (g : α → β) (h : α → List β) (b : β) :
    ((l.flatMap fun a => g a :: h a).count b)
      = ((l.map g).count b) + ((l.flatMap h).count b) := by
  induction l with
  | nil => rfl
  | cons x xs ih =>
    simp only [List.flatMap_cons, List.map_cons, List.count_append,
      List.count_cons, ih]
    ring

theorem count_flatMap_nil_inner {α β : Type} [BEq β] [LawfulBEq β] (l : List α)
    (b : β) : ((l.flatMap fun _ => ([] : List β)).count b) = 0 := by
  induction l with
  | nil => rfl
  | cons x xs ih => simpa using ih

theorem count_flatMap2_cons_split {α γ β : Type} [BEq β] [LawfulBEq β]
    (l₁ : List α) (l₂ : List γ) (g : α → γ → β) (h : α → γ → List β)
    (b : β) :
    ((l₁.flatMap fun a => l₂.flatMap fun c => g a c :: h a c).count b)
      = ((l₁.flatMap fun a => l₂.map (g a)).count b)
        + ((l₁.flatMap fun a => l₂.flatMap fun c => h a c).count b) := by
  induction l₁ with
  | nil => rfl
  | cons x xs ih =>
    simp only [List.flatMap_cons, List.count_append, ih,
      count_flatMap_cons_split l₂ (g x) (h x) b]
    ring

theorem count_flatMap2_nil_inner {α γ β : Type} [BEq β] [LawfulBEq β]
    (l₁ : List α) (l₂ : List γ) (b : β) :
    ((l₁.flatMap fun _ => l₂.flatMap fun _ => ([] : List β)).count b)
      = 0 := by
  induction l₁ with
  | nil => rfl
  | cons x xs ih =>
    simpa [count_flatMap_nil_inner] using ih

open Classical in
theorem count_map_range_inj {β : Type} [BEq β] [LawfulBEq β] (n : ℕ) (p : ℕ → β)
    (hp : ∀ i j, p i = p j → i = j) (b : β) :
    (((List.range n).map p).count b)
      = if ∃ i, i < n ∧ p i = b then 1 else 0 := by
  induction n with
  | zero => simp
  | succ m ih =>
    rw [List.range_succ, List.map_append, List.count_append, ih]
    by_cases hm : p m = b
    · have h1 : ∃ i, i < m + 1 ∧ p i = b := ⟨m, by omega, hm⟩
      have h2 : ¬∃ i, i < m ∧ p i = b := by
        rintro ⟨i, hi, he⟩
        have := hp i m (he.trans hm.symm)
        omega
      simp [h1, h2, hm]
    · have h2 : (∃ i, i < m ∧ p i = b) ↔ ∃ i, i < m + 1 ∧ p i = b := by
        constructor
        · rintro ⟨i, hi, he⟩
          exact ⟨i, by omega, he⟩
        · rintro ⟨i, hi, he⟩
          rcases Nat.lt_or_ge i m with hlt | hge
          · exact ⟨i, hlt, he⟩
          · have : i = m := by omega
            subst this
            exact absurd he hm
      rw [if_congr h2 rfl rfl]
      simp [List.count_singleton, hm]

open Classical in
theorem count_flatMap_range_map_inj {β : Type} [BEq β] [LawfulBEq β] (n m : ℕ)
    (p : ℕ → ℕ → β) (hp : ∀ i j k l, p i j = p k l → i = k ∧ j = l)
    (b : β) :
    (((List.range n).flatMap fun i => (List.range m).map (p i)).count b)
      = if ∃ i j, i < n ∧ j < m ∧ p i j = b then 1 else 0 := by
  induction n with
  | zero => simp
  | succ k ih =>
    rw [List.range_succ, List.flatMap_append, List.count_append, ih]
    have hrow := count_map_range_inj m (p k)
      (fun i j hij => (hp k i k j hij).2) b
    simp only [List.flatMap_cons, List.flatMap_nil, List.append_nil]
    rw [hrow]
    by_cases hk : ∃ j, j < m ∧ p k j = b
    · have h1 : ∃ i j, i < k + 1 ∧ j < m ∧ p i j = b := by
        rcases hk with ⟨j, hj, he⟩
        exact ⟨k, j, by omega, hj, he⟩
      have h2 : ¬∃ i j, i < k ∧ j < m ∧ p i j = b := by
        rintro ⟨i, j, hi, hj, he⟩
        rcases hk with ⟨j0, hj0, he0⟩
        have := hp i j k j0 (he.trans he0.symm)
        omega
      rw [if_neg h2, if_pos hk, if_pos h1]
    · have h2 : (∃ i j, i < k ∧ j < m ∧ p i j = b)
          ↔ ∃ i j, i < k + 1 ∧ j < m ∧ p i j = b := by
        constructor
        · rintro ⟨i, j, hi, hj, he⟩
          exact ⟨i, j, by omega, hj, he⟩
        · rintro ⟨i, j, hi, hj, he⟩
          rcases Nat.lt_or_ge i k with hlt | hge
          · exact ⟨i, j, hlt, hj, he⟩
          · have : i = k := by omega
            subst this
            exact absurd ⟨j, hj, he⟩ hk
      rw [if_congr h2 rfl rfl]
      simp [hk]

theorem indicator_add_indicator {a b : Prop} [Decidable a] [Decidable b]
    (h : ¬(a ∧ b)) :
    ((if a then 1 else 0) + (if b then 1 else 0) : ℕ)
      = if a ∨ b then 1 else 0 := by
  by_cases ha : a
  · by_cases hb : b
    · exact absurd ⟨ha, hb⟩ h
    · simp [ha, hb]
  · by_cases hb : b <;> simp [ha, hb]

/-! ## The heightmap grid mesh builders

Both `image_to_stl_heightmap` (converters.py) and `create_heightmap_mesh`
(heightmap_to_stl.py) build a closed grid solid over a `H × W` raster:
one top vertex and one bottom vertex per pixel (flat indices
`idx(i,j) = i*W + j` for the top block and `W*H + idx(i,j)` for the
bottom block), quad faces for top and bottom surfaces, and ruled wall
strips along the four perimeter edges. -/

/-- Row-major flat vertex index `idx(i, j) = i * width + j`, as defined
inside both grid mesh builders. -/
def idx (W i j : ℕ) : ℕ := i * W + j

/-- Triangle (face) list of the grid mesh built by
`image_to_stl_heightmap` (src/src/flashforge_convert_mcp/converters.py,
lines 296-336), in source emission order: top surface, bottom surface,
the `j`-loop wall strips (rows `0` and `H-1`), the `i`-loop wall strips
(columns `0` and `W-1`). -/
def heightmapFaces (W H : ℕ) : List (ℕ × ℕ × ℕ) :=
  ((List.range (H - 1)).flatMap fun i => (List.range (W - 1)).flatMap fun j =>
    [(idx W i j, idx W (i+1) j, idx W (i+1) (j+1)),
     (idx W i j, idx W (i+1) (j+1), idx W i (j+1))])
  ++ ((List.range (H - 1)).flatMap fun i => (List.range (W - 1)).flatMap fun j =>
    [(W * H + idx W i j, W * H + idx W i (j+1), W * H + idx W (i+1) (j+1)),
     (W * H + idx W i j, W * H + idx W (i+1) (j+1), W * H + idx W (i+1) j)])
  ++ ((List.range (W - 1)).flatMap fun j =>
    [(idx W 0 j, idx W 0 (j+1), W * H + idx W 0 (j+1)),
     (idx W 0 j, W * H + idx W 0 (j+1), W * H + idx W 0 j),
     (idx W (H-1) j, W * H + idx W (H-1) j, W * H + idx W (H-1) (j+1)),
     (idx W (H-1) j, W * H + idx W (H-1) (j+1), idx W (H-1) (j+1))])
  ++ ((List.range (H - 1)).flatMap fun i =>
    [(idx W i 0, W * H + idx W i 0, W * H + idx W (i+1) 0),
     (idx W i 0, W * H + idx W (i+1) 0, idx W (i+1) 0),
     (idx W i (W-1), idx W (i+1) (W-1), W * H + idx W (i+1) (W-1)),
     (idx W i (W-1), W * H + idx W (i+1) (W-1), W * H + idx W i (W-1))])

/-- Triangle (face) list of the grid mesh built by
`create_heightmap_mesh` (src/flashforge/scripts/heightmap_to_stl.py,
lines 76-137), in source emission order: top surface, bottom surface,
left edge (`j = 0`), right edge (`j = W-1`), top edge (`i = 0`), bottom
edge (`i = H-1`).  `n_top = W * H`. -/
def createHeightmapFaces (W H : ℕ) : List (ℕ × ℕ × ℕ) :=
  ((List.range (H - 1)).flatMap fun i => (List.range (W - 1)).flatMap fun j =>
    [(idx W i j, idx W (i+1) j, idx W i (j+1)),
     (idx W i (j+1), idx W (i+1) j, idx W (i+1) (j+1))])
  ++ ((List.range (H - 1)).flatMap fun i => (List.range (W - 1)).flatMap fun j =>
    [(W * H + idx W i j, W * H + idx W i (j+1), W * H + idx W (i+1) j),
     (W * H + idx W i (j+1), W * H + idx W (i+1) (j+1), W * H + idx W (i+1) j)])
  ++ ((List.range (H - 1)).flatMap fun i =>
    [(idx W i 0, W * H + idx W i 0, idx W (i+1) 0),
     (idx W (i+1) 0, W * H + idx W i 0, W * H + idx W (i+1) 0)])
  ++ ((List.range (H - 1)).flatMap fun i =>
    [(idx W i (W-1), idx W (i+1) (W-1), W * H + idx W i (W-1)),
     (idx W (i+1) (W-1), W * H + idx W (i+1) (W-1), W * H + idx W i (W-1))])
  ++ ((List.range (W - 1)).flatMap fun j =>
    [(idx W 0 j, idx W 0 (j+1), W * H + idx W 0 j),
     (idx W 0 (j+1), W * H + idx W 0 (j+1), W * H + idx W 0 j)])
  ++ ((List.range (W - 1)).flatMap fun j =>
    [(idx W (H-1) j, W * H + idx W (H-1) j, idx W (H-1) (j+1)),
     (idx W (H-1) (j+1), W * H + idx W (H-1) j, W * H + idx W (H-1) (j+1))])

/-- Grid-coordinate vertex `(layer, i, j)`: layer `0` is the top
surface, layer `1` the bottom surface.  Proof-side recoding of the flat
vertex indices. -/
abbrev GVert : Type := ℕ × ℕ × ℕ

/-- Top-surface vertex at grid position `(i, j)`. -/
def tv (i j : ℕ) : GVert := (0, i, j)

/-- Bottom-surface vertex at grid position `(i, j)`. -/
def bv (i j : ℕ) : GVert := (1, i, j)

/-- Flat index of a grid-coordinate vertex. -/
def encV (W H : ℕ) (v : GVert) : ℕ := v.1 * (W * H) + idx W v.2.1 v.2.2

/-- Flat encoding of a grid-coordinate face. -/
def encF (W H : ℕ) (f : GVert × GVert × GVert) : ℕ × ℕ × ℕ :=
  (encV W H f.1, encV W H f.2.1, encV W H f.2.2)

/-- Flat encoding of a grid-coordinate directed edge. -/
def encE (W H : ℕ) (e : GVert × GVert) : ℕ × ℕ :=
  (encV W H e.1, encV W H e.2)

/-- `heightmapFaces` in grid coordinates. -/
def gridFaces (W H : ℕ) : List (GVert × GVert × GVert) :=
  ((List.range (H - 1)).flatMap fun i => (List.range (W - 1)).flatMap fun j =>
    [(tv i j, tv (i+1) j, tv (i+1) (j+1)),
     (tv i j, tv (i+1) (j+1), tv i (j+1))])
  ++ ((List.range (H - 1)).flatMap fun i => (List.range (W - 1)).flatMap fun j =>
    [(bv i j, bv i (j+1), bv (i+1) (j+1)),
     (bv i j, bv (i+1) (j+1), bv (i+1) j)])
  ++ ((List.range (W - 1)).flatMap fun j =>
    [(tv 0 j, tv 0 (j+1), bv 0 (j+1)),
     (tv 0 j, bv 0 (j+1), bv 0 j),
     (tv (H-1) j, bv (H-1) j, bv (H-1) (j+1)),
     (tv (H-1) j, bv (H-1) (j+1), tv (H-1) (j+1))])
  ++ ((List.range (H - 1)).flatMap fun i =>
    [(tv i 0, bv i 0, bv (i+1) 0),
     (tv i 0, bv (i+1) 0, tv (i+1) 0),
     (tv i (W-1), tv (i+1) (W-1), bv (i+1) (W-1)),
     (tv i (W-1), bv (i+1) (W-1), bv i (W-1))])

/-- `createHeightmapFaces` in grid coordinates. -/
def gridFaces2 (W H : ℕ) : List (GVert × GVert × GVert) :=
  ((List.range (H - 1)).flatMap fun i => (List.range (W - 1)).flatMap fun j =>
    [(tv i j, tv (i+1) j, tv i (j+1)),
     (tv i (j+1), tv (i+1) j, tv (i+1) (j+1))])
  ++ ((List.range (H - 1)).flatMap fun i => (List.range (W - 1)).flatMap fun j =>
    [(bv i j, bv i (j+1), bv (i+1) j),
     (bv i (j+1), bv (i+1) (j+1), bv (i+1) j)])
  ++ ((List.range (H - 1)).flatMap fun i =>
    [(tv i 0, bv i 0, tv (i+1) 0),
     (tv (i+1) 0, bv i 0, bv (i+1) 0)])
  ++ ((List.range (H - 1)).flatMap fun i =>
    [(tv i (W-1), tv (i+1) (W-1), bv i (W-1)),
     (tv (i+1) (W-1), bv (i+1) (W-1), bv i (W-1))])
  ++ ((List.range (W - 1)).flatMap fun j =>
    [(tv 0 j, tv 0 (j+1), bv 0 j),
     (tv 0 (j+1), bv 0 (j+1), bv 0 j)])
  ++ ((List.range (W - 1)).flatMap fun j =>
    [(tv (H-1) j, bv (H-1) j, tv (H-1) (j+1)),
     (tv (H-1) (j+1), bv (H-1) j, bv (H-1) (j+1))])

theorem heightmapFaces_eq_map (W H : ℕ) :
    heightmapFaces W H = (gridFaces W H).map (encF W H) := by
  simp [heightmapFaces, gridFaces, encF, encV, tv, bv, List.map_flatMap]

theorem createHeightmapFaces_eq_map (W H : ℕ) :
    createHeightmapFaces W H = (gridFaces2 W H).map (encF W H) := by
  simp [createHeightmapFaces, gridFaces2, encF, encV, tv, bv, List.map_flatMap]

/-! ## Triangle counts (claim C2) -/

theorem length_flatMap_const {α β : Type} (l : List α) (f : α → List β)
    (c : ℕ) (h : ∀ a ∈ l, (f a).length = c) :
    (l.flatMap f).length = l.length * c := by
  induction l with
  | nil => simp
  | cons x xs ih =>
    simp only [List.flatMap_cons, List.length_append, List.length_cons,
      h x (by simp), ih (fun a ha => h a (by simp [ha]))]
    ring

/-- C2: both grid mesh builders emit `2·(W-1)·(H-1)·2` top-plus-bottom
triangles plus `2·2·((W-1)+(H-1))` wall triangles, i.e.
`4·(W-1)·(H-1) + 4·(W-1) + 4·(H-1)` triangles in total. -/
theorem heightmap_triangle_count (W H : ℕ) (hW : 2 ≤ W) (hH : 2 ≤ H) :
    (heightmapFaces W H).length
        = 2 * (W - 1) * (H - 1) * 2 + 2 * 2 * ((W - 1) + (H - 1))
    ∧ (heightmapFaces W H).length
        = 4 * (W - 1) * (H - 1) + 4 * (W - 1) + 4 * (H - 1)
    ∧ (createHeightmapFaces W H).length
        = 4 * (W - 1) * (H - 1) + 4 * (W - 1) + 4 * (H - 1) := by
  refine ⟨?_, ?_, ?_⟩
  · simp [heightmapFaces, List.length_flatMap, Function.comp_def]
    ring
  · simp [heightmapFaces, List.length_flatMap, Function.comp_def]
    ring
  · simp [createHeightmapFaces, List.length_flatMap, Function.comp_def]
    ring

/-! ## Watertightness of the grid meshes (claim C1)

Strategy: we compute, for an arbitrary directed edge, its exact
multiplicity in the directed-edge list of the mesh, as an indicator of
an explicit adjacency predicate `IsEdgeV`.  Watertightness (every
undirected edge lies in exactly two triangles, once in each direction)
follows because the multiplicity is never `2` or more and because
`IsEdgeV` is symmetric under edge reversal. -/

theorem dirEdges_append {α : Type} (A B : List (α × α × α)) :
    dirEdges (A ++ B) = dirEdges A ++ dirEdges B :=
  List.flatMap_append A B _

theorem count_block6_single {γ β : Type} [BEq β] [LawfulBEq β] (l : List γ)
    (q₁ q₂ q₃ q₄ q₅ q₆ : γ → β) (b : β) :
    ((l.flatMap fun c => [q₁ c, q₂ c, q₃ c, q₄ c, q₅ c, q₆ c]).count b)
      = ((l.map q₁).count b) + ((l.map q₂).count b) + ((l.map q₃).count b)
        + ((l.map q₄).count b) + ((l.map q₅).count b)
        + ((l.map q₆).count b) := by
  induction l with
  | nil => rfl
  | cons y ys ih =>
    simp only [List.flatMap_cons, List.map_cons, List.count_append,
      List.count_cons, List.count_nil, ih]
    ring

theorem count_block12_single {γ β : Type} [BEq β] [LawfulBEq β] (l : List γ)
    (q₁ q₂ q₃ q₄ q₅ q₆ q₇ q₈ q₉ q₁₀ q₁₁ q₁₂ : γ → β) (b : β) :
    ((l.flatMap fun c => [q₁ c, q₂ c, q₃ c, q₄ c, q₅ c, q₆ c,
        q₇ c, q₈ c, q₉ c, q₁₀ c, q₁₁ c, q₁₂ c]).count b)
      = ((l.map q₁).count b) + ((l.map q₂).count b) + ((l.map q₃).count b)
        + ((l.map q₄).count b) + ((l.map q₅).count b) + ((l.map q₆).count b)
        + ((l.map q₇).count b) + ((l.map q₈).count b) + ((l.map q₉).count b)
        + ((l.map q₁₀).count b) + ((l.map q₁₁).count b)
        + ((l.map q₁₂).count b) := by
  induction l with
  | nil => rfl
  | cons y ys ih =>
    simp only [List.flatMap_cons, List.map_cons, List.count_append,
      List.count_cons, List.count_nil, ih]
    ring

theorem count_block6 {α γ β : Type} [BEq β] [LawfulBEq β] (l₁ : List α)
    (l₂ : List γ) (p₁ p₂ p₃ p₄ p₅ p₆ : α → γ → β) (b : β) :
    ((l₁.flatMap fun a => l₂.flatMap fun c =>
        [p₁ a c, p₂ a c, p₃ a c, p₄ a c, p₅ a c, p₆ a c]).count b)
      = ((l₁.flatMap fun a => l₂.map (p₁ a)).count b)
        + ((l₁.flatMap fun a => l₂.map (p₂ a)).count b)
        + ((l₁.flatMap fun a => l₂.map (p₃ a)).count b)
        + ((l₁.flatMap fun a => l₂.map (p₄ a)).count b)
        + ((l₁.flatMap fun a => l₂.map (p₅ a)).count b)
        + ((l₁.flatMap fun a => l₂.map (p₆ a)).count b) := by
  induction l₁ with
  | nil => rfl
  | cons x xs ih =>
    simp only [List.flatMap_cons, List.count_append, ih,
      count_block6_single l₂ (p₁ x) (p₂ x) (p₃ x) (p₄ x) (p₅ x) (p₆ x) b]
    ring

open Classical in
theorem count_slot2 {β : Type} [BEq β] [LawfulBEq β] (n m : ℕ) (p : ℕ → ℕ → β)
    (b : β) (C : Bool)
    (hp : ∀ i j k l, p i j = p k l → i = k ∧ j = l)
    (hC : (∃ i j, i < n ∧ j < m ∧ p i j = b) ↔ C = true) :
    (((List.range n).flatMap fun i => (List.range m).map (p i)).count b)
      = if C = true then 1 else 0 := by
  rw [count_flatMap_range_map_inj n m p hp b, if_congr hC rfl rfl]

open Classical in
theorem count_slot1 {β : Type} [BEq β] [LawfulBEq β] (n : ℕ) (p : ℕ → β)
    (b : β) (C : Bool) (hp : ∀ i j, p i = p j → i = j)
    (hC : (∃ i, i < n ∧ p i = b) ↔ C = true) :
    (((List.range n).map p).count b) = if C = true then 1 else 0 := by
  rw [count_map_range_inj n p hp b, if_congr hC rfl rfl]

theorem indicator_bool_or {a b : Bool} (h : ¬(a = true ∧ b = true)) :
    ((if a = true then 1 else 0) + (if b = true then 1 else 0) : ℕ)
      = if (a || b) = true then 1 else 0 := by
  cases a
  · cases b <;> simp
  · cases b
    · simp
    · exact absurd ⟨rfl, rfl⟩ h

/-- Witness for `heightmap_triangle_count` at `W = H = 3`. -/
theorem heightmap_triangle_count_witness :
    (heightmapFaces 3 3).length = 2 * 2 * 2 * 2 + 2 * 2 * (2 + 2)
    ∧ (heightmapFaces 3 3).length = 4 * 2 * 2 + 4 * 2 + 4 * 2
    ∧ (createHeightmapFaces 3 3).length = 4 * 2 * 2 + 4 * 2 + 4 * 2 :=
  heightmap_triangle_count 3 3 (by decide) (by decide)

/-! ## Directed-edge counts for the grid meshes

`isEdgeB1` / `isEdgeB2` are the explicit adjacency predicates of the two
builders: `isEdgeB1 W H l1 i1 j1 l2 i2 j2` holds exactly when the
directed edge from grid vertex `(l1, i1, j1)` to `(l2, i2, j2)` occurs
in `gridFaces W H` (similarly `isEdgeB2` for `gridFaces2`).  The
`count_*Chunk*` lemmas compute the multiplicity of an arbitrary directed
edge in each emission chunk, and the `count_gridDirEdges*` lemmas sum
them up: every directed edge occurs at most once, and exactly once when
the adjacency predicate holds. -/

abbrev isEdgeB1 (W H l₁ i₁ j₁ l₂ i₂ j₂ : ℕ) : Bool :=
  ((((((((decide (l₁ = 0 ∧ l₂ = 0 ∧ i₂ = i₁ + 1 ∧ j₂ = j₁ ∧ i₁ < H - 1 ∧ j₁ < W - 1) || decide (l₁ = 0 ∧ l₂ = 0 ∧ i₂ = i₁ ∧ j₂ = j₁ + 1 ∧ 1 ≤ i₁ ∧ i₁ < H ∧ j₁ < W - 1)) || decide (l₁ = 0 ∧ l₂ = 0 ∧ i₁ = i₂ + 1 ∧ j₁ = j₂ + 1 ∧ i₂ < H - 1 ∧ j₂ < W - 1)) || decide (l₁ = 0 ∧ l₂ = 0 ∧ i₂ = i₁ + 1 ∧ j₂ = j₁ + 1 ∧ i₁ < H - 1 ∧ j₁ < W - 1)) || decide (l₁ = 0 ∧ l₂ = 0 ∧ i₁ = i₂ + 1 ∧ j₁ = j₂ ∧ i₂ < H - 1 ∧ 1 ≤ j₁ ∧ j₁ < W)) || decide (l₁ = 0 ∧ l₂ = 0 ∧ i₁ = i₂ ∧ j₁ = j₂ + 1 ∧ i₁ < H - 1 ∧ j₂ < W - 1)) || ((((((decide (l₁ = 1 ∧ l₂ = 1 ∧ i₂ = i₁ ∧ j₂ = j₁ + 1 ∧ i₁ < H - 1 ∧ j₁ < W - 1) || decide (l₁ = 1 ∧ l₂ = 1 ∧ i₂ = i₁ + 1 ∧ j₂ = j₁ ∧ i₁ < H - 1 ∧ 1 ≤ j₁ ∧ j₁ < W)) || decide (l₁ = 1 ∧ l₂ = 1 ∧ i₁ = i₂ + 1 ∧ j₁ = j₂ + 1 ∧ i₂ < H - 1 ∧ j₂ < W - 1)) || decide (l₁ = 1 ∧ l₂ = 1 ∧ i₂ = i₁ + 1 ∧ j₂ = j₁ + 1 ∧ i₁ < H - 1 ∧ j₁ < W - 1)) || decide (l₁ = 1 ∧ l₂ = 1 ∧ i₁ = i₂ ∧ j₁ = j₂ + 1 ∧ 1 ≤ i₁ ∧ i₁ < H ∧ j₂ < W - 1)) || decide (l₁ = 1 ∧ l₂ = 1 ∧ i₁ = i₂ + 1 ∧ j₁ = j₂ ∧ i₂ < H - 1 ∧ j₁ < W - 1)))) || ((((((((((((decide (l₁ = 0 ∧ l₂ = 0 ∧ i₁ = 0 ∧ i₂ = 0 ∧ j₂ = j₁ + 1 ∧ j₁ < W - 1) || decide (l₁ = 0 ∧ l₂ = 1 ∧ i₁ = 0 ∧ i₂ = 0 ∧ j₂ = j₁ ∧ 1 ≤ j₁ ∧ j₁ < W)) || decide (l₁ = 1 ∧ l₂ = 0 ∧ i₁ = 0 ∧ i₂ = 0 ∧ j₁ = j₂ + 1 ∧ j₂ < W - 1)) || decide (l₁ = 0 ∧ l₂ = 1 ∧ i₁ = 0 ∧ i₂ = 0 ∧ j₂ = j₁ + 1 ∧ j₁ < W - 1)) || decide (l₁ = 1 ∧ l₂ = 1 ∧ i₁ = 0 ∧ i₂ = 0 ∧ j₁ = j₂ + 1 ∧ j₂ < W - 1)) || decide (l₁ = 1 ∧ l₂ = 0 ∧ i₁ = 0 ∧ i₂ = 0 ∧ j₁ = j₂ ∧ j₁ < W - 1)) || decide (l₁ = 0 ∧ l₂ = 1 ∧ i₁ = H - 1 ∧ i₂ = H - 1 ∧ j₁ = j₂ ∧ j₁ < W - 1)) || decide (l₁ = 1 ∧ l₂ = 1 ∧ i₁ = H - 1 ∧ i₂ = H - 1 ∧ j₂ = j₁ + 1 ∧ j₁ < W - 1)) || decide (l₁ = 1 ∧ l₂ = 0 ∧ i₁ = H - 1 ∧ i₂ = H - 1 ∧ j₁ = j₂ + 1 ∧ j₂ < W - 1)) || decide (l₁ = 0 ∧ l₂ = 1 ∧ i₁ = H - 1 ∧ i₂ = H - 1 ∧ j₂ = j₁ + 1 ∧ j₁ < W - 1)) || decide (l₁ = 1 ∧ l₂ = 0 ∧ i₁ = H - 1 ∧ i₂ = H - 1 ∧ j₁ = j₂ ∧ 1 ≤ j₁ ∧ j₁ < W)) || decide (l₁ = 0 ∧ l₂ = 0 ∧ i₁ = H - 1 ∧ i₂ = H - 1 ∧ j₁ = j₂ + 1 ∧ j₂ < W - 1)))) || ((((((((((((decide (l₁ = 0 ∧ l₂ = 1 ∧ j₁ = 0 ∧ j₂ = 0 ∧ i₁ = i₂ ∧ i₁ < H - 1) || decide (l₁ = 1 ∧ l₂ = 1 ∧ j₁ = 0 ∧ j₂ = 0 ∧ i₂ = i₁ + 1 ∧ i₁ < H - 1)) || decide (l₁ = 1 ∧ l₂ = 0 ∧ j₁ = 0 ∧ j₂ = 0 ∧ i₁ = i₂ + 1 ∧ i₂ < H - 1)) || decide (l₁ = 0 ∧ l₂ = 1 ∧ j₁ = 0 ∧ j₂ = 0 ∧ i₂ = i₁ + 1 ∧ i₁ < H - 1)) || decide (l₁ = 1 ∧ l₂ = 0 ∧ j₁ = 0 ∧ j₂ = 0 ∧ i₁ = i₂ ∧ 1 ≤ i₁ ∧ i₁ < H)) || decide (l₁ = 0 ∧ l₂ = 0 ∧ j₁ = 0 ∧ j₂ = 0 ∧ i₁ = i₂ + 1 ∧ i₂ < H - 1)) || decide (l₁ = 0 ∧ l₂ = 0 ∧ j₁ = W - 1 ∧ j₂ = W - 1 ∧ i₂ = i₁ + 1 ∧ i₁ < H - 1)) || decide (l₁ = 0 ∧ l₂ = 1 ∧ j₁ = W - 1 ∧ j₂ = W - 1 ∧ i₁ = i₂ ∧ 1 ≤ i₁ ∧ i₁ < H)) || decide (l₁ = 1 ∧ l₂ = 0 ∧ j₁ = W - 1 ∧ j₂ = W - 1 ∧ i₁ = i₂ + 1 ∧ i₂ < H - 1)) || decide (l₁ = 0 ∧ l₂ = 1 ∧ j₁ = W - 1 ∧ j₂ = W - 1 ∧ i₂ = i₁ + 1 ∧ i₁ < H - 1)) || decide (l₁ = 1 ∧ l₂ = 1 ∧ j₁ = W - 1 ∧ j₂ = W - 1 ∧ i₁ = i₂ + 1 ∧ i₂ < H - 1)) || decide (l₁ = 1 ∧ l₂ = 0 ∧ j₁ = W - 1 ∧ j₂ = W - 1 ∧ i₁ = i₂ ∧ i₁ < H - 1))))

abbrev isEdgeB2 (W H l₁ i₁ j₁ l₂ i₂ j₂ : ℕ) : Bool :=
  ((((((((((decide (l₁ = 0 ∧ l₂ = 0 ∧ i₂ = i₁ + 1 ∧ j₂ = j₁ ∧ i₁ < H - 1 ∧ j₁ < W - 1) || decide (l₁ = 0 ∧ l₂ = 0 ∧ i₁ = i₂ + 1 ∧ j₂ = j₁ + 1 ∧ i₂ < H - 1 ∧ j₁ < W - 1)) || decide (l₁ = 0 ∧ l₂ = 0 ∧ i₁ = i₂ ∧ j₁ = j₂ + 1 ∧ i₁ < H - 1 ∧ j₂ < W - 1)) || decide (l₁ = 0 ∧ l₂ = 0 ∧ i₂ = i₁ + 1 ∧ j₁ = j₂ + 1 ∧ i₁ < H - 1 ∧ j₂ < W - 1)) || decide (l₁ = 0 ∧ l₂ = 0 ∧ i₁ = i₂ ∧ 1 ≤ i₁ ∧ i₁ < H ∧ j₂ = j₁ + 1 ∧ j₁ < W - 1)) || decide (l₁ = 0 ∧ l₂ = 0 ∧ i₁ = i₂ + 1 ∧ j₁ = j₂ ∧ i₂ < H - 1 ∧ 1 ≤ j₁ ∧ j₁ < W)) || ((((((decide (l₁ = 1 ∧ l₂ = 1 ∧ i₁ = i₂ ∧ j₂ = j₁ + 1 ∧ i₁ < H - 1 ∧ j₁ < W - 1) || decide (l₁ = 1 ∧ l₂ = 1 ∧ i₂ = i₁ + 1 ∧ j₁ = j₂ + 1 ∧ i₁ < H - 1 ∧ j₂ < W - 1)) || decide (l₁ = 1 ∧ l₂ = 1 ∧ i₁ = i₂ + 1 ∧ j₁ = j₂ ∧ i₂ < H - 1 ∧ j₁ < W - 1)) || decide (l₁ = 1 ∧ l₂ = 1 ∧ i₂ = i₁ + 1 ∧ j₁ = j₂ ∧ i₁ < H - 1 ∧ 1 ≤ j₁ ∧ j₁ < W)) || decide (l₁ = 1 ∧ l₂ = 1 ∧ i₁ = i₂ ∧ 1 ≤ i₁ ∧ i₁ < H ∧ j₁ = j₂ + 1 ∧ j₂ < W - 1)) || decide (l₁ = 1 ∧ l₂ = 1 ∧ i₁ = i₂ + 1 ∧ j₂ = j₁ + 1 ∧ i₂ < H - 1 ∧ j₁ < W - 1)))) || ((((((decide (l₁ = 0 ∧ l₂ = 1 ∧ j₁ = 0 ∧ j₂ = 0 ∧ i₁ = i₂ ∧ i₁ < H - 1) || decide (l₁ = 1 ∧ l₂ = 0 ∧ j₁ = 0 ∧ j₂ = 0 ∧ i₂ = i₁ + 1 ∧ i₁ < H - 1)) || decide (l₁ = 0 ∧ l₂ = 0 ∧ j₁ = 0 ∧ j₂ = 0 ∧ i₁ = i₂ + 1 ∧ i₂ < H - 1)) || decide (l₁ = 0 ∧ l₂ = 1 ∧ j₁ = 0 ∧ j₂ = 0 ∧ i₁ = i₂ + 1 ∧ i₂ < H - 1)) || decide (l₁ = 1 ∧ l₂ = 1 ∧ j₁ = 0 ∧ j₂ = 0 ∧ i₂ = i₁ + 1 ∧ i₁ < H - 1)) || decide (l₁ = 1 ∧ l₂ = 0 ∧ j₁ = 0 ∧ j₂ = 0 ∧ i₁ = i₂ ∧ 1 ≤ i₁ ∧ i₁ < H)))) || ((((((decide (l₁ = 0 ∧ l₂ = 0 ∧ j₁ = W - 1 ∧ j₂ = W - 1 ∧ i₂ = i₁ + 1 ∧ i₁ < H - 1) || decide (l₁ = 0 ∧ l₂ = 1 ∧ j₁ = W - 1 ∧ j₂ = W - 1 ∧ i₁ = i₂ + 1 ∧ i₂ < H - 1)) || decide (l₁ = 1 ∧ l₂ = 0 ∧ j₁ = W - 1 ∧ j₂ = W - 1 ∧ i₁ = i₂ ∧ i₁ < H - 1)) || decide (l₁ = 0 ∧ l₂ = 1 ∧ j₁ = W - 1 ∧ j₂ = W - 1 ∧ i₁ = i₂ ∧ 1 ≤ i₁ ∧ i₁ < H)) || decide (l₁ = 1 ∧ l₂ = 1 ∧ j₁ = W - 1 ∧ j₂ = W - 1 ∧ i₁ = i₂ + 1 ∧ i₂ < H - 1)) || decide (l₁ = 1 ∧ l₂ = 0 ∧ j₁ = W - 1 ∧ j₂ = W - 1 ∧ i₂ = i₁ + 1 ∧ i₁ < H - 1)))) || ((((((decide (l₁ = 0 ∧ l₂ = 0 ∧ i₁ = 0 ∧ i₂ = 0 ∧ j₂ = j₁ + 1 ∧ j₁ < W - 1) || decide (l₁ = 0 ∧ l₂ = 1 ∧ i₁ = 0 ∧ i₂ = 0 ∧ j₁ = j₂ + 1 ∧ j₂ < W - 1)) || decide (l₁ = 1 ∧ l₂ = 0 ∧ i₁ = 0 ∧ i₂ = 0 ∧ j₁ = j₂ ∧ j₁ < W - 1)) || decide (l₁ = 0 ∧ l₂ = 1 ∧ i₁ = 0 ∧ i₂ = 0 ∧ j₁ = j₂ ∧ 1 ≤ j₁ ∧ j₁ < W)) || decide (l₁ = 1 ∧ l₂ = 1 ∧ i₁ = 0 ∧ i₂ = 0 ∧ j₁ = j₂ + 1 ∧ j₂ < W - 1)) || decide (l₁ = 1 ∧ l₂ = 0 ∧ i₁ = 0 ∧ i₂ = 0 ∧ j₂ = j₁ + 1 ∧ j₁ < W - 1)))) || ((((((decide (l₁ = 0 ∧ l₂ = 1 ∧ i₁ = H - 1 ∧ i₂ = H - 1 ∧ j₁ = j₂ ∧ j₁ < W - 1) || decide (l₁ = 1 ∧ l₂ = 0 ∧ i₁ = H - 1 ∧ i₂ = H - 1 ∧ j₂ = j₁ + 1 ∧ j₁ < W - 1)) || decide (l₁ = 0 ∧ l₂ = 0 ∧ i₁ = H - 1 ∧ i₂ = H - 1 ∧ j₁ = j₂ + 1 ∧ j₂ < W - 1)) || decide (l₁ = 0 ∧ l₂ = 1 ∧ i₁ = H - 1 ∧ i₂ = H - 1 ∧ j₁ = j₂ + 1 ∧ j₂ < W - 1)) || decide (l₁ = 1 ∧ l₂ = 1 ∧ i₁ = H - 1 ∧ i₂ = H - 1 ∧ j₂ = j₁ + 1 ∧ j₁ < W - 1)) || decide (l₁ = 1 ∧ l₂ = 0 ∧ i₁ = H - 1 ∧ i₂ = H - 1 ∧ j₁ = j₂ ∧ 1 ≤ j₁ ∧ j₁ < W))))

theorem count_topChunk1 (W H l₁ i₁ j₁ l₂ i₂ j₂ : ℕ) :
    ((dirEdges ((List.range (H - 1)).flatMap fun i => (List.range (W - 1)).flatMap fun j =>
      [(tv i j, tv (i + 1) j, tv (i + 1) (j + 1)),
       (tv i j, tv (i + 1) (j + 1), tv i (j + 1))])).count
        ((l₁, i₁, j₁), (l₂, i₂, j₂)))
      = (if decide (l₁ = 0 ∧ l₂ = 0 ∧ i₂ = i₁ + 1 ∧ j₂ = j₁ ∧ i₁ < H - 1 ∧ j₁ < W - 1) = true then 1 else 0)
        + (if decide (l₁ = 0 ∧ l₂ = 0 ∧ i₂ = i₁ ∧ j₂ = j₁ + 1 ∧ 1 ≤ i₁ ∧ i₁ < H ∧ j₁ < W - 1) = true then 1 else 0)
        + (if decide (l₁ = 0 ∧ l₂ = 0 ∧ i₁ = i₂ + 1 ∧ j₁ = j₂ + 1 ∧ i₂ < H - 1 ∧ j₂ < W - 1) = true then 1 else 0)
        + (if decide (l₁ = 0 ∧ l₂ = 0 ∧ i₂ = i₁ + 1 ∧ j₂ = j₁ + 1 ∧ i₁ < H - 1 ∧ j₁ < W - 1) = true then 1 else 0)
        + (if decide (l₁ = 0 ∧ l₂ = 0 ∧ i₁ = i₂ + 1 ∧ j₁ = j₂ ∧ i₂ < H - 1 ∧ 1 ≤ j₁ ∧ j₁ < W) = true then 1 else 0)
        + (if decide (l₁ = 0 ∧ l₂ = 0 ∧ i₁ = i₂ ∧ j₁ = j₂ + 1 ∧ i₁ < H - 1 ∧ j₂ < W - 1) = true then 1 else 0) := by
  have hsplit : dirEdges ((List.range (H - 1)).flatMap fun i => (List.range (W - 1)).flatMap fun j =>
      [(tv i j, tv (i + 1) j, tv (i + 1) (j + 1)),
       (tv i j, tv (i + 1) (j + 1), tv i (j + 1))])
      = (List.range (H - 1)).flatMap fun i => (List.range (W - 1)).flatMap fun j =>
      [(tv i j, tv (i + 1) j),
       (tv (i + 1) j, tv (i + 1) (j + 1)),
       (tv (i + 1) (j + 1), tv i j),
       (tv i j, tv (i + 1) (j + 1)),
       (tv (i + 1) (j + 1), tv i (j + 1)),
       (tv i (j + 1), tv i j)] := by
    simp [dirEdges, List.flatMap_assoc]
  rw [hsplit, count_block6 (List.range (H - 1)) (List.range (W - 1))
      (fun i j => (tv i j, tv (i + 1) j))
      (fun i j => (tv (i + 1) j, tv (i + 1) (j + 1)))
      (fun i j => (tv (i + 1) (j + 1), tv i j))
      (fun i j => (tv i j, tv (i + 1) (j + 1)))
      (fun i j => (tv (i + 1) (j + 1), tv i (j + 1)))
      (fun i j => (tv i (j + 1), tv i j))
      ((l₁, i₁, j₁), (l₂, i₂, j₂))]
  rw [count_slot2 (H - 1) (W - 1) (fun i j => (tv i j, tv (i + 1) j))
      ((l₁, i₁, j₁), (l₂, i₂, j₂))
      (decide (l₁ = 0 ∧ l₂ = 0 ∧ i₂ = i₁ + 1 ∧ j₂ = j₁ ∧ i₁ < H - 1 ∧ j₁ < W - 1))
      (by intro a b c d h; simp [tv, bv, Prod.mk.injEq] at h; omega)
      (by
        simp only [tv, bv, Prod.mk.injEq, decide_eq_true_eq]
        constructor
        · rintro ⟨i, j, h⟩; omega
        · intro h; exact ⟨i₁, j₁, by omega⟩)]
  rw [count_slot2 (H - 1) (W - 1) (fun i j => (tv (i + 1) j, tv (i + 1) (j + 1)))
      ((l₁, i₁, j₁), (l₂, i₂, j₂))
      (decide (l₁ = 0 ∧ l₂ = 0 ∧ i₂ = i₁ ∧ j₂ = j₁ + 1 ∧ 1 ≤ i₁ ∧ i₁ < H ∧ j₁ < W - 1))
      (by intro a b c d h; simp [tv, bv, Prod.mk.injEq] at h; omega)
      (by
        simp only [tv, bv, Prod.mk.injEq, decide_eq_true_eq]
        constructor
        · rintro ⟨i, j, h⟩; omega
        · intro h; exact ⟨i₁ - 1, j₁, by omega⟩)]
  rw [count_slot2 (H - 1) (W - 1) (fun i j => (tv (i + 1) (j + 1), tv i j))
      ((l₁, i₁, j₁), (l₂, i₂, j₂))
      (decide (l₁ = 0 ∧ l₂ = 0 ∧ i₁ = i₂ + 1 ∧ j₁ = j₂ + 1 ∧ i₂ < H - 1 ∧ j₂ < W - 1))
      (by intro a b c d h; simp [tv, bv, Prod.mk.injEq] at h; omega)
      (by
        simp only [tv, bv, Prod.mk.injEq, decide_eq_true_eq]
        constructor
        · rintro ⟨i, j, h⟩; omega
        · intro h; exact ⟨i₂, j₂, by omega⟩)]
  rw [count_slot2 (H - 1) (W - 1) (fun i j => (tv i j, tv (i + 1) (j + 1)))
      ((l₁, i₁, j₁), (l₂, i₂, j₂))
      (decide (l₁ = 0 ∧ l₂ = 0 ∧ i₂ = i₁ + 1 ∧ j₂ = j₁ + 1 ∧ i₁ < H - 1 ∧ j₁ < W - 1))
      (by intro a b c d h; simp [tv, bv, Prod.mk.injEq] at h; omega)
      (by
        simp only [tv, bv, Prod.mk.injEq, decide_eq_true_eq]
        constructor
        · rintro ⟨i, j, h⟩; omega
        · intro h; exact ⟨i₁, j₁, by omega⟩)]
  rw [count_slot2 (H - 1) (W - 1) (fun i j => (tv (i + 1) (j + 1), tv i (j + 1)))
      ((l₁, i₁, j₁), (l₂, i₂, j₂))
      (decide (l₁ = 0 ∧ l₂ = 0 ∧ i₁ = i₂ + 1 ∧ j₁ = j₂ ∧ i₂ < H - 1 ∧ 1 ≤ j₁ ∧ j₁ < W))
      (by intro a b c d h; simp [tv, bv, Prod.mk.injEq] at h; omega)
      (by
        simp only [tv, bv, Prod.mk.injEq, decide_eq_true_eq]
        constructor
        · rintro ⟨i, j, h⟩; omega
        · intro h; exact ⟨i₂, j₁ - 1, by omega⟩)]
  rw [count_slot2 (H - 1) (W - 1) (fun i j => (tv i (j + 1), tv i j))
      ((l₁, i₁, j₁), (l₂, i₂, j₂))
      (decide (l₁ = 0 ∧ l₂ = 0 ∧ i₁ = i₂ ∧ j₁ = j₂ + 1 ∧ i₁ < H - 1 ∧ j₂ < W - 1))
      (by intro a b c d h; simp [tv, bv, Prod.mk.injEq] at h; omega)
      (by
        simp only [tv, bv, Prod.mk.injEq, decide_eq_true_eq]
        constructor
        · rintro ⟨i, j, h⟩; omega
        · intro h; exact ⟨i₁, j₂, by omega⟩)]

theorem count_botChunk1 (W H l₁ i₁ j₁ l₂ i₂ j₂ : ℕ) :
    ((dirEdges ((List.range (H - 1)).flatMap fun i => (List.range (W - 1)).flatMap fun j =>
      [(bv i j, bv i (j + 1), bv (i + 1) (j + 1)),
       (bv i j, bv (i + 1) (j + 1), bv (i + 1) j)])).count
        ((l₁, i₁, j₁), (l₂, i₂, j₂)))
      = (if decide (l₁ = 1 ∧ l₂ = 1 ∧ i₂ = i₁ ∧ j₂ = j₁ + 1 ∧ i₁ < H - 1 ∧ j₁ < W - 1) = true then 1 else 0)
        + (if decide (l₁ = 1 ∧ l₂ = 1 ∧ i₂ = i₁ + 1 ∧ j₂ = j₁ ∧ i₁ < H - 1 ∧ 1 ≤ j₁ ∧ j₁ < W) = true then 1 else 0)
        + (if decide (l₁ = 1 ∧ l₂ = 1 ∧ i₁ = i₂ + 1 ∧ j₁ = j₂ + 1 ∧ i₂ < H - 1 ∧ j₂ < W - 1) = true then 1 else 0)
        + (if decide (l₁ = 1 ∧ l₂ = 1 ∧ i₂ = i₁ + 1 ∧ j₂ = j₁ + 1 ∧ i₁ < H - 1 ∧ j₁ < W - 1) = true then 1 else 0)
        + (if decide (l₁ = 1 ∧ l₂ = 1 ∧ i₁ = i₂ ∧ j₁ = j₂ + 1 ∧ 1 ≤ i₁ ∧ i₁ < H ∧ j₂ < W - 1) = true then 1 else 0)
        + (if decide (l₁ = 1 ∧ l₂ = 1 ∧ i₁ = i₂ + 1 ∧ j₁ = j₂ ∧ i₂ < H - 1 ∧ j₁ < W - 1) = true then 1 else 0) := by
  have hsplit : dirEdges ((List.range (H - 1)).flatMap fun i => (List.range (W - 1)).flatMap fun j =>
      [(bv i j, bv i (j + 1), bv (i + 1) (j + 1)),
       (bv i j, bv (i + 1) (j + 1), bv (i + 1) j)])
      = (List.range (H - 1)).flatMap fun i => (List.range (W - 1)).flatMap fun j =>
      [(bv i j, bv i (j + 1)),
       (bv i (j + 1), bv (i + 1) (j + 1)),
       (bv (i + 1) (j + 1), bv i j),
       (bv i j, bv (i + 1) (j + 1)),
       (bv (i + 1) (j + 1), bv (i + 1) j),
       (bv (i + 1) j, bv i j)] := by
    simp [dirEdges, List.flatMap_assoc]
  rw [hsplit, count_block6 (List.range (H - 1)) (List.range (W - 1))
      (fun i j => (bv i j, bv i (j + 1)))
      (fun i j => (bv i (j + 1), bv (i + 1) (j + 1)))
      (fun i j => (bv (i + 1) (j + 1), bv i j))
      (fun i j => (bv i j, bv (i + 1) (j + 1)))
      (fun i j => (bv (i + 1) (j + 1), bv (i + 1) j))
      (fun i j => (bv (i + 1) j, bv i j))
      ((l₁, i₁, j₁), (l₂, i₂, j₂))]
  rw [count_slot2 (H - 1) (W - 1) (fun i j => (bv i j, bv i (j + 1)))
      ((l₁, i₁, j₁), (l₂, i₂, j₂))
      (decide (l₁ = 1 ∧ l₂ = 1 ∧ i₂ = i₁ ∧ j₂ = j₁ + 1 ∧ i₁ < H - 1 ∧ j₁ < W - 1))
      (by intro a b c d h; simp [tv, bv, Prod.mk.injEq] at h; omega)
      (by
        simp only [tv, bv, Prod.mk.injEq, decide_eq_true_eq]
        constructor
        · rintro ⟨i, j, h⟩; omega
        · intro h; exact ⟨i₁, j₁, by omega⟩)]
  rw [count_slot2 (H - 1) (W - 1) (fun i j => (bv i (j + 1), bv (i + 1) (j + 1)))
      ((l₁, i₁, j₁), (l₂, i₂, j₂))
      (decide (l₁ = 1 ∧ l₂ = 1 ∧ i₂ = i₁ + 1 ∧ j₂ = j₁ ∧ i₁ < H - 1 ∧ 1 ≤ j₁ ∧ j₁ < W))
      (by intro a b c d h; simp [tv, bv, Prod.mk.injEq] at h; omega)
      (by
        simp only [tv, bv, Prod.mk.injEq, decide_eq_true_eq]
        constructor
        · rintro ⟨i, j, h⟩; omega
        · intro h; exact ⟨i₁, j₁ - 1, by omega⟩)]
  rw [count_slot2 (H - 1) (W - 1) (fun i j => (bv (i + 1) (j + 1), bv i j))
      ((l₁, i₁, j₁), (l₂, i₂, j₂))
      (decide (l₁ = 1 ∧ l₂ = 1 ∧ i₁ = i₂ + 1 ∧ j₁ = j₂ + 1 ∧ i₂ < H - 1 ∧ j₂ < W - 1))
      (by intro a b c d h; simp [tv, bv, Prod.mk.injEq] at h; omega)
      (by
        simp only [tv, bv, Prod.mk.injEq, decide_eq_true_eq]
        constructor
        · rintro ⟨i, j, h⟩; omega
        · intro h; exact ⟨i₂, j₂, by omega⟩)]
  rw [count_slot2 (H - 1) (W - 1) (fun i j => (bv i j, bv (i + 1) (j + 1)))
      ((l₁, i₁, j₁), (l₂, i₂, j₂))
      (decide (l₁ = 1 ∧ l₂ = 1 ∧ i₂ = i₁ + 1 ∧ j₂ = j₁ + 1 ∧ i₁ < H - 1 ∧ j₁ < W - 1))
      (by intro a b c d h; simp [tv, bv, Prod.mk.injEq] at h; omega)
      (by
        simp only [tv, bv, Prod.mk.injEq, decide_eq_true_eq]
        constructor
        · rintro ⟨i, j, h⟩; omega
        · intro h; exact ⟨i₁, j₁, by omega⟩)]
  rw [count_slot2 (H - 1) (W - 1) (fun i j => (bv (i + 1) (j + 1), bv (i + 1) j))
      ((l₁, i₁, j₁), (l₂, i₂, j₂))
      (decide (l₁ = 1 ∧ l₂ = 1 ∧ i₁ = i₂ ∧ j₁ = j₂ + 1 ∧ 1 ≤ i₁ ∧ i₁ < H ∧ j₂ < W - 1))
      (by intro a b c d h; simp [tv, bv, Prod.mk.injEq] at h; omega)
      (by
        simp only [tv, bv, Prod.mk.injEq, decide_eq_true_eq]
        constructor
        · rintro ⟨i, j, h⟩; omega
        · intro h; exact ⟨i₁ - 1, j₂, by omega⟩)]
  rw [count_slot2 (H - 1) (W - 1) (fun i j => (bv (i + 1) j, bv i j))
      ((l₁, i₁, j₁), (l₂, i₂, j₂))
      (decide (l₁ = 1 ∧ l₂ = 1 ∧ i₁ = i₂ + 1 ∧ j₁ = j₂ ∧ i₂ < H - 1 ∧ j₁ < W - 1))
      (by intro a b c d h; simp [tv, bv, Prod.mk.injEq] at h; omega)
      (by
        simp only [tv, bv, Prod.mk.injEq, decide_eq_true_eq]
        constructor
        · rintro ⟨i, j, h⟩; omega
        · intro h; exact ⟨i₂, j₁, by omega⟩)]

theorem count_nsChunk1 (W H l₁ i₁ j₁ l₂ i₂ j₂ : ℕ) :
    ((dirEdges ((List.range (W - 1)).flatMap fun j =>
      [(tv 0 j, tv 0 (j + 1), bv 0 (j + 1)),
       (tv 0 j, bv 0 (j + 1), bv 0 j),
       (tv (H - 1) j, bv (H - 1) j, bv (H - 1) (j + 1)),
       (tv (H - 1) j, bv (H - 1) (j + 1), tv (H - 1) (j + 1))])).count
        ((l₁, i₁, j₁), (l₂, i₂, j₂)))
      = (if decide (l₁ = 0 ∧ l₂ = 0 ∧ i₁ = 0 ∧ i₂ = 0 ∧ j₂ = j₁ + 1 ∧ j₁ < W - 1) = true then 1 else 0)
        + (if decide (l₁ = 0 ∧ l₂ = 1 ∧ i₁ = 0 ∧ i₂ = 0 ∧ j₂ = j₁ ∧ 1 ≤ j₁ ∧ j₁ < W) = true then 1 else 0)
        + (if decide (l₁ = 1 ∧ l₂ = 0 ∧ i₁ = 0 ∧ i₂ = 0 ∧ j₁ = j₂ + 1 ∧ j₂ < W - 1) = true then 1 else 0)
        + (if decide (l₁ = 0 ∧ l₂ = 1 ∧ i₁ = 0 ∧ i₂ = 0 ∧ j₂ = j₁ + 1 ∧ j₁ < W - 1) = true then 1 else 0)
        + (if decide (l₁ = 1 ∧ l₂ = 1 ∧ i₁ = 0 ∧ i₂ = 0 ∧ j₁ = j₂ + 1 ∧ j₂ < W - 1) = true then 1 else 0)
        + (if decide (l₁ = 1 ∧ l₂ = 0 ∧ i₁ = 0 ∧ i₂ = 0 ∧ j₁ = j₂ ∧ j₁ < W - 1) = true then 1 else 0)
        + (if decide (l₁ = 0 ∧ l₂ = 1 ∧ i₁ = H - 1 ∧ i₂ = H - 1 ∧ j₁ = j₂ ∧ j₁ < W - 1) = true then 1 else 0)
        + (if decide (l₁ = 1 ∧ l₂ = 1 ∧ i₁ = H - 1 ∧ i₂ = H - 1 ∧ j₂ = j₁ + 1 ∧ j₁ < W - 1) = true then 1 else 0)
        + (if decide (l₁ = 1 ∧ l₂ = 0 ∧ i₁ = H - 1 ∧ i₂ = H - 1 ∧ j₁ = j₂ + 1 ∧ j₂ < W - 1) = true then 1 else 0)
        + (if decide (l₁ = 0 ∧ l₂ = 1 ∧ i₁ = H - 1 ∧ i₂ = H - 1 ∧ j₂ = j₁ + 1 ∧ j₁ < W - 1) = true then 1 else 0)
        + (if decide (l₁ = 1 ∧ l₂ = 0 ∧ i₁ = H - 1 ∧ i₂ = H - 1 ∧ j₁ = j₂ ∧ 1 ≤ j₁ ∧ j₁ < W) = true then 1 else 0)
        + (if decide (l₁ = 0 ∧ l₂ = 0 ∧ i₁ = H - 1 ∧ i₂ = H - 1 ∧ j₁ = j₂ + 1 ∧ j₂ < W - 1) = true then 1 else 0) := by
  have hsplit : dirEdges ((List.range (W - 1)).flatMap fun j =>
      [(tv 0 j, tv 0 (j + 1), bv 0 (j + 1)),
       (tv 0 j, bv 0 (j + 1), bv 0 j),
       (tv (H - 1) j, bv (H - 1) j, bv (H - 1) (j + 1)),
       (tv (H - 1) j, bv (H - 1) (j + 1), tv (H - 1) (j + 1))])
      = (List.range (W - 1)).flatMap fun j =>
      [(tv 0 j, tv 0 (j + 1)),
       (tv 0 (j + 1), bv 0 (j + 1)),
       (bv 0 (j + 1), tv 0 j),
       (tv 0 j, bv 0 (j + 1)),
       (bv 0 (j + 1), bv 0 j),
       (bv 0 j, tv 0 j),
       (tv (H - 1) j, bv (H - 1) j),
       (bv (H - 1) j, bv (H - 1) (j + 1)),
       (bv (H - 1) (j + 1), tv (H - 1) j),
       (tv (H - 1) j, bv (H - 1) (j + 1)),
       (bv (H - 1) (j + 1), tv (H - 1) (j + 1)),
       (tv (H - 1) (j + 1), tv (H - 1) j)] := by
    simp [dirEdges, List.flatMap_assoc]
  rw [hsplit, count_block12_single (List.range (W - 1))
      (fun j => (tv 0 j, tv 0 (j + 1)))
      (fun j => (tv 0 (j + 1), bv 0 (j + 1)))
      (fun j => (bv 0 (j + 1), tv 0 j))
      (fun j => (tv 0 j, bv 0 (j + 1)))
      (fun j => (bv 0 (j + 1), bv 0 j))
      (fun j => (bv 0 j, tv 0 j))
      (fun j => (tv (H - 1) j, bv (H - 1) j))
      (fun j => (bv (H - 1) j, bv (H - 1) (j + 1)))
      (fun j => (bv (H - 1) (j + 1), tv (H - 1) j))
      (fun j => (tv (H - 1) j, bv (H - 1) (j + 1)))
      (fun j => (bv (H - 1) (j + 1), tv (H - 1) (j + 1)))
      (fun j => (tv (H - 1) (j + 1), tv (H - 1) j))
      ((l₁, i₁, j₁), (l₂, i₂, j₂))]
  rw [count_slot1 (W - 1) (fun j => (tv 0 j, tv 0 (j + 1)))
      ((l₁, i₁, j₁), (l₂, i₂, j₂))
      (decide (l₁ = 0 ∧ l₂ = 0 ∧ i₁ = 0 ∧ i₂ = 0 ∧ j₂ = j₁ + 1 ∧ j₁ < W - 1))
      (by intro a b h; simp [tv, bv, Prod.mk.injEq] at h; omega)
      (by
        simp only [tv, bv, Prod.mk.injEq, decide_eq_true_eq]
        constructor
        · rintro ⟨j, h⟩; omega
        · intro h; exact ⟨j₁, by omega⟩)]
  rw [count_slot1 (W - 1) (fun j => (tv 0 (j + 1), bv 0 (j + 1)))
      ((l₁, i₁, j₁), (l₂, i₂, j₂))
      (decide (l₁ = 0 ∧ l₂ = 1 ∧ i₁ = 0 ∧ i₂ = 0 ∧ j₂ = j₁ ∧ 1 ≤ j₁ ∧ j₁ < W))
      (by intro a b h; simp [tv, bv, Prod.mk.injEq] at h; omega)
      (by
        simp only [tv, bv, Prod.mk.injEq, decide_eq_true_eq]
        constructor
        · rintro ⟨j, h⟩; omega
        · intro h; exact ⟨j₁ - 1, by omega⟩)]
  rw [count_slot1 (W - 1) (fun j => (bv 0 (j + 1), tv 0 j))
      ((l₁, i₁, j₁), (l₂, i₂, j₂))
      (decide (l₁ = 1 ∧ l₂ = 0 ∧ i₁ = 0 ∧ i₂ = 0 ∧ j₁ = j₂ + 1 ∧ j₂ < W - 1))
      (by intro a b h; simp [tv, bv, Prod.mk.injEq] at h; omega)
      (by
        simp only [tv, bv, Prod.mk.injEq, decide_eq_true_eq]
        constructor
        · rintro ⟨j, h⟩; omega
        · intro h; exact ⟨j₂, by omega⟩)]
  rw [count_slot1 (W - 1) (fun j => (tv 0 j, bv 0 (j + 1)))
      ((l₁, i₁, j₁), (l₂, i₂, j₂))
      (decide (l₁ = 0 ∧ l₂ = 1 ∧ i₁ = 0 ∧ i₂ = 0 ∧ j₂ = j₁ + 1 ∧ j₁ < W - 1))
      (by intro a b h; simp [tv, bv, Prod.mk.injEq] at h; omega)
      (by
        simp only [tv, bv, Prod.mk.injEq, decide_eq_true_eq]
        constructor
        · rintro ⟨j, h⟩; omega
        · intro h; exact ⟨j₁, by omega⟩)]
  rw [count_slot1 (W - 1) (fun j => (bv 0 (j + 1), bv 0 j))
      ((l₁, i₁, j₁), (l₂, i₂, j₂))
      (decide (l₁ = 1 ∧ l₂ = 1 ∧ i₁ = 0 ∧ i₂ = 0 ∧ j₁ = j₂ + 1 ∧ j₂ < W - 1))
      (by intro a b h; simp [tv, bv, Prod.mk.injEq] at h; omega)
      (by
        simp only [tv, bv, Prod.mk.injEq, decide_eq_true_eq]
        constructor
        · rintro ⟨j, h⟩; omega
        · intro h; exact ⟨j₂, by omega⟩)]
  rw [count_slot1 (W - 1) (fun j => (bv 0 j, tv 0 j))
      ((l₁, i₁, j₁), (l₂, i₂, j₂))
      (decide (l₁ = 1 ∧ l₂ = 0 ∧ i₁ = 0 ∧ i₂ = 0 ∧ j₁ = j₂ ∧ j₁ < W - 1))
      (by intro a b h; simp [tv, bv, Prod.mk.injEq] at h; omega)
      (by
        simp only [tv, bv, Prod.mk.injEq, decide_eq_true_eq]
        constructor
        · rintro ⟨j, h⟩; omega
        · intro h; exact ⟨j₁, by omega⟩)]
  rw [count_slot1 (W - 1) (fun j => (tv (H - 1) j, bv (H - 1) j))
      ((l₁, i₁, j₁), (l₂, i₂, j₂))
      (decide (l₁ = 0 ∧ l₂ = 1 ∧ i₁ = H - 1 ∧ i₂ = H - 1 ∧ j₁ = j₂ ∧ j₁ < W - 1))
      (by intro a b h; simp [tv, bv, Prod.mk.injEq] at h; omega)
      (by
        simp only [tv, bv, Prod.mk.injEq, decide_eq_true_eq]
        constructor
        · rintro ⟨j, h⟩; omega
        · intro h; exact ⟨j₁, by omega⟩)]
  rw [count_slot1 (W - 1) (fun j => (bv (H - 1) j, bv (H - 1) (j + 1)))
      ((l₁, i₁, j₁), (l₂, i₂, j₂))
      (decide (l₁ = 1 ∧ l₂ = 1 ∧ i₁ = H - 1 ∧ i₂ = H - 1 ∧ j₂ = j₁ + 1 ∧ j₁ < W - 1))
      (by intro a b h; simp [tv, bv, Prod.mk.injEq] at h; omega)
      (by
        simp only [tv, bv, Prod.mk.injEq, decide_eq_true_eq]
        constructor
        · rintro ⟨j, h⟩; omega
        · intro h; exact ⟨j₁, by omega⟩)]
  rw [count_slot1 (W - 1) (fun j => (bv (H - 1) (j + 1), tv (H - 1) j))
      ((l₁, i₁, j₁), (l₂, i₂, j₂))
      (decide (l₁ = 1 ∧ l₂ = 0 ∧ i₁ = H - 1 ∧ i₂ = H - 1 ∧ j₁ = j₂ + 1 ∧ j₂ < W - 1))
      (by intro a b h; simp [tv, bv, Prod.mk.injEq] at h; omega)
      (by
        simp only [tv, bv, Prod.mk.injEq, decide_eq_true_eq]
        constructor
        · rintro ⟨j, h⟩; omega
        · intro h; exact ⟨j₂, by omega⟩)]
  rw [count_slot1 (W - 1) (fun j => (tv (H - 1) j, bv (H - 1) (j + 1)))
      ((l₁, i₁, j₁), (l₂, i₂, j₂))
      (decide (l₁ = 0 ∧ l₂ = 1 ∧ i₁ = H - 1 ∧ i₂ = H - 1 ∧ j₂ = j₁ + 1 ∧ j₁ < W - 1))
      (by intro a b h; simp [tv, bv, Prod.mk.injEq] at h; omega)
      (by
        simp only [tv, bv, Prod.mk.injEq, decide_eq_true_eq]
        constructor
        · rintro ⟨j, h⟩; omega
        · intro h; exact ⟨j₁, by omega⟩)]
  rw [count_slot1 (W - 1) (fun j => (bv (H - 1) (j + 1), tv (H - 1) (j + 1)))
      ((l₁, i₁, j₁), (l₂, i₂, j₂))
      (decide (l₁ = 1 ∧ l₂ = 0 ∧ i₁ = H - 1 ∧ i₂ = H - 1 ∧ j₁ = j₂ ∧ 1 ≤ j₁ ∧ j₁ < W))
      (by intro a b h; simp [tv, bv, Prod.mk.injEq] at h; omega)
      (by
        simp only [tv, bv, Prod.mk.injEq, decide_eq_true_eq]
        constructor
        · rintro ⟨j, h⟩; omega
        · intro h; exact ⟨j₁ - 1, by omega⟩)]
  rw [count_slot1 (W - 1) (fun j => (tv (H - 1) (j + 1), tv (H - 1) j))
      ((l₁, i₁, j₁), (l₂, i₂, j₂))
      (decide (l₁ = 0 ∧ l₂ = 0 ∧ i₁ = H - 1 ∧ i₂ = H - 1 ∧ j₁ = j₂ + 1 ∧ j₂ < W - 1))
      (by intro a b h; simp [tv, bv, Prod.mk.injEq] at h; omega)
      (by
        simp only [tv, bv, Prod.mk.injEq, decide_eq_true_eq]
        constructor
        · rintro ⟨j, h⟩; omega
        · intro h; exact ⟨j₂, by omega⟩)]

theorem count_weChunk1 (W H l₁ i₁ j₁ l₂ i₂ j₂ : ℕ) :
    ((dirEdges ((List.range (H - 1)).flatMap fun i =>
      [(tv i 0, bv i 0, bv (i + 1) 0),
       (tv i 0, bv (i + 1) 0, tv (i + 1) 0),
       (tv i (W - 1), tv (i + 1) (W - 1), bv (i + 1) (W - 1)),
       (tv i (W - 1), bv (i + 1) (W - 1), bv i (W - 1))])).count
        ((l₁, i₁, j₁), (l₂, i₂, j₂)))
      = (if decide (l₁ = 0 ∧ l₂ = 1 ∧ j₁ = 0 ∧ j₂ = 0 ∧ i₁ = i₂ ∧ i₁ < H - 1) = true then 1 else 0)
        + (if decide (l₁ = 1 ∧ l₂ = 1 ∧ j₁ = 0 ∧ j₂ = 0 ∧ i₂ = i₁ + 1 ∧ i₁ < H - 1) = true then 1 else 0)
        + (if decide (l₁ = 1 ∧ l₂ = 0 ∧ j₁ = 0 ∧ j₂ = 0 ∧ i₁ = i₂ + 1 ∧ i₂ < H - 1) = true then 1 else 0)
        + (if decide (l₁ = 0 ∧ l₂ = 1 ∧ j₁ = 0 ∧ j₂ = 0 ∧ i₂ = i₁ + 1 ∧ i₁ < H - 1) = true then 1 else 0)
        + (if decide (l₁ = 1 ∧ l₂ = 0 ∧ j₁ = 0 ∧ j₂ = 0 ∧ i₁ = i₂ ∧ 1 ≤ i₁ ∧ i₁ < H) = true then 1 else 0)
        + (if decide (l₁ = 0 ∧ l₂ = 0 ∧ j₁ = 0 ∧ j₂ = 0 ∧ i₁ = i₂ + 1 ∧ i₂ < H - 1) = true then 1 else 0)
        + (if decide (l₁ = 0 ∧ l₂ = 0 ∧ j₁ = W - 1 ∧ j₂ = W - 1 ∧ i₂ = i₁ + 1 ∧ i₁ < H - 1) = true then 1 else 0)
        + (if decide (l₁ = 0 ∧ l₂ = 1 ∧ j₁ = W - 1 ∧ j₂ = W - 1 ∧ i₁ = i₂ ∧ 1 ≤ i₁ ∧ i₁ < H) = true then 1 else 0)
        + (if decide (l₁ = 1 ∧ l₂ = 0 ∧ j₁ = W - 1 ∧ j₂ = W - 1 ∧ i₁ = i₂ + 1 ∧ i₂ < H - 1) = true then 1 else 0)
        + (if decide (l₁ = 0 ∧ l₂ = 1 ∧ j₁ = W - 1 ∧ j₂ = W - 1 ∧ i₂ = i₁ + 1 ∧ i₁ < H - 1) = true then 1 else 0)
        + (if decide (l₁ = 1 ∧ l₂ = 1 ∧ j₁ = W - 1 ∧ j₂ = W - 1 ∧ i₁ = i₂ + 1 ∧ i₂ < H - 1) = true then 1 else 0)
        + (if decide (l₁ = 1 ∧ l₂ = 0 ∧ j₁ = W - 1 ∧ j₂ = W - 1 ∧ i₁ = i₂ ∧ i₁ < H - 1) = true then 1 else 0) := by
  have hsplit : dirEdges ((List.range (H - 1)).flatMap fun i =>
      [(tv i 0, bv i 0, bv (i + 1) 0),
       (tv i 0, bv (i + 1) 0, tv (i + 1) 0),
       (tv i (W - 1), tv (i + 1) (W - 1), bv (i + 1) (W - 1)),
       (tv i (W - 1), bv (i + 1) (W - 1), bv i (W - 1))])
      = (List.range (H - 1)).flatMap fun i =>
      [(tv i 0, bv i 0),
       (bv i 0, bv (i + 1) 0),
       (bv (i + 1) 0, tv i 0),
       (tv i 0, bv (i + 1) 0),
       (bv (i + 1) 0, tv (i + 1) 0),
       (tv (i + 1) 0, tv i 0),
       (tv i (W - 1), tv (i + 1) (W - 1)),
       (tv (i + 1) (W - 1), bv (i + 1) (W - 1)),
       (bv (i + 1) (W - 1), tv i (W - 1)),
       (tv i (W - 1), bv (i + 1) (W - 1)),
       (bv (i + 1) (W - 1), bv i (W - 1)),
       (bv i (W - 1), tv i (W - 1))] := by
    simp [dirEdges, List.flatMap_assoc]
  rw [hsplit, count_block12_single (List.range (H - 1))
      (fun i => (tv i 0, bv i 0))
      (fun i => (bv i 0, bv (i + 1) 0))
      (fun i => (bv (i + 1) 0, tv i 0))
      (fun i => (tv i 0, bv (i + 1) 0))
      (fun i => (bv (i + 1) 0, tv (i + 1) 0))
      (fun i => (tv (i + 1) 0, tv i 0))
      (fun i => (tv i (W - 1), tv (i + 1) (W - 1)))
      (fun i => (tv (i + 1) (W - 1), bv (i + 1) (W - 1)))
      (fun i => (bv (i + 1) (W - 1), tv i (W - 1)))
      (fun i => (tv i (W - 1), bv (i + 1) (W - 1)))
      (fun i => (bv (i + 1) (W - 1), bv i (W - 1)))
      (fun i => (bv i (W - 1), tv i (W - 1)))
      ((l₁, i₁, j₁), (l₂, i₂, j₂))]
  rw [count_slot1 (H - 1) (fun i => (tv i 0, bv i 0))
      ((l₁, i₁, j₁), (l₂, i₂, j₂))
      (decide (l₁ = 0 ∧ l₂ = 1 ∧ j₁ = 0 ∧ j₂ = 0 ∧ i₁ = i₂ ∧ i₁ < H - 1))
      (by intro a b h; simp [tv, bv, Prod.mk.injEq] at h; omega)
      (by
        simp only [tv, bv, Prod.mk.injEq, decide_eq_true_eq]
        constructor
        · rintro ⟨i, h⟩; omega
        · intro h; exact ⟨i₁, by omega⟩)]
  rw [count_slot1 (H - 1) (fun i => (bv i 0, bv (i + 1) 0))
      ((l₁, i₁, j₁), (l₂, i₂, j₂))
      (decide (l₁ = 1 ∧ l₂ = 1 ∧ j₁ = 0 ∧ j₂ = 0 ∧ i₂ = i₁ + 1 ∧ i₁ < H - 1))
      (by intro a b h; simp [tv, bv, Prod.mk.injEq] at h; omega)
      (by
        simp only [tv, bv, Prod.mk.injEq, decide_eq_true_eq]
        constructor
        · rintro ⟨i, h⟩; omega
        · intro h; exact ⟨i₁, by omega⟩)]
  rw [count_slot1 (H - 1) (fun i => (bv (i + 1) 0, tv i 0))
      ((l₁, i₁, j₁), (l₂, i₂, j₂))
      (decide (l₁ = 1 ∧ l₂ = 0 ∧ j₁ = 0 ∧ j₂ = 0 ∧ i₁ = i₂ + 1 ∧ i₂ < H - 1))
      (by intro a b h; simp [tv, bv, Prod.mk.injEq] at h; omega)
      (by
        simp only [tv, bv, Prod.mk.injEq, decide_eq_true_eq]
        constructor
        · rintro ⟨i, h⟩; omega
        · intro h; exact ⟨i₂, by omega⟩)]
  rw [count_slot1 (H - 1) (fun i => (tv i 0, bv (i + 1) 0))
      ((l₁, i₁, j₁), (l₂, i₂, j₂))
      (decide (l₁ = 0 ∧ l₂ = 1 ∧ j₁ = 0 ∧ j₂ = 0 ∧ i₂ = i₁ + 1 ∧ i₁ < H - 1))
      (by intro a b h; simp [tv, bv, Prod.mk.injEq] at h; omega)
      (by
        simp only [tv, bv, Prod.mk.injEq, decide_eq_true_eq]
        constructor
        · rintro ⟨i, h⟩; omega
        · intro h; exact ⟨i₁, by omega⟩)]
  rw [count_slot1 (H - 1) (fun i => (bv (i + 1) 0, tv (i + 1) 0))
      ((l₁, i₁, j₁), (l₂, i₂, j₂))
      (decide (l₁ = 1 ∧ l₂ = 0 ∧ j₁ = 0 ∧ j₂ = 0 ∧ i₁ = i₂ ∧ 1 ≤ i₁ ∧ i₁ < H))
      (by intro a b h; simp [tv, bv, Prod.mk.injEq] at h; omega)
      (by
        simp only [tv, bv, Prod.mk.injEq, decide_eq_true_eq]
        constructor
        · rintro ⟨i, h⟩; omega
        · intro h; exact ⟨i₁ - 1, by omega⟩)]
  rw [count_slot1 (H - 1) (fun i => (tv (i + 1) 0, tv i 0))
      ((l₁, i₁, j₁), (l₂, i₂, j₂))
      (decide (l₁ = 0 ∧ l₂ = 0 ∧ j₁ = 0 ∧ j₂ = 0 ∧ i₁ = i₂ + 1 ∧ i₂ < H - 1))
      (by intro a b h; simp [tv, bv, Prod.mk.injEq] at h; omega)
      (by
        simp only [tv, bv, Prod.mk.injEq, decide_eq_true_eq]
        constructor
        · rintro ⟨i, h⟩; omega
        · intro h; exact ⟨i₂, by omega⟩)]
  rw [count_slot1 (H - 1) (fun i => (tv i (W - 1), tv (i + 1) (W - 1)))
      ((l₁, i₁, j₁), (l₂, i₂, j₂))
      (decide (l₁ = 0 ∧ l₂ = 0 ∧ j₁ = W - 1 ∧ j₂ = W - 1 ∧ i₂ = i₁ + 1 ∧ i₁ < H - 1))
      (by intro a b h; simp [tv, bv, Prod.mk.injEq] at h; omega)
      (by
        simp only [tv, bv, Prod.mk.injEq, decide_eq_true_eq]
        constructor
        · rintro ⟨i, h⟩; omega
        · intro h; exact ⟨i₁, by omega⟩)]
  rw [count_slot1 (H - 1) (fun i => (tv (i + 1) (W - 1), bv (i + 1) (W - 1)))
      ((l₁, i₁, j₁), (l₂, i₂, j₂))
      (decide (l₁ = 0 ∧ l₂ = 1 ∧ j₁ = W - 1 ∧ j₂ = W - 1 ∧ i₁ = i₂ ∧ 1 ≤ i₁ ∧ i₁ < H))
      (by intro a b h; simp [tv, bv, Prod.mk.injEq] at h; omega)
      (by
        simp only [tv, bv, Prod.mk.injEq, decide_eq_true_eq]
        constructor
        · rintro ⟨i, h⟩; omega
        · intro h; exact ⟨i₁ - 1, by omega⟩)]
  rw [count_slot1 (H - 1) (fun i => (bv (i + 1) (W - 1), tv i (W - 1)))
      ((l₁, i₁, j₁), (l₂, i₂, j₂))
      (decide (l₁ = 1 ∧ l₂ = 0 ∧ j₁ = W - 1 ∧ j₂ = W - 1 ∧ i₁ = i₂ + 1 ∧ i₂ < H - 1))
      (by intro a b h; simp [tv, bv, Prod.mk.injEq] at h; omega)
      (by
        simp only [tv, bv, Prod.mk.injEq, decide_eq_true_eq]
        constructor
        · rintro ⟨i, h⟩; omega
        · intro h; exact ⟨i₂, by omega⟩)]
  rw [count_slot1 (H - 1) (fun i => (tv i (W - 1), bv (i + 1) (W - 1)))
      ((l₁, i₁, j₁), (l₂, i₂, j₂))
      (decide (l₁ = 0 ∧ l₂ = 1 ∧ j₁ = W - 1 ∧ j₂ = W - 1 ∧ i₂ = i₁ + 1 ∧ i₁ < H - 1))
      (by intro a b h; simp [tv, bv, Prod.mk.injEq] at h; omega)
      (by
        simp only [tv, bv, Prod.mk.injEq, decide_eq_true_eq]
        constructor
        · rintro ⟨i, h⟩; omega
        · intro h; exact ⟨i₁, by omega⟩)]
  rw [count_slot1 (H - 1) (fun i => (bv (i + 1) (W - 1), bv i (W - 1)))
      ((l₁, i₁, j₁), (l₂, i₂, j₂))
      (decide (l₁ = 1 ∧ l₂ = 1 ∧ j₁ = W - 1 ∧ j₂ = W - 1 ∧ i₁ = i₂ + 1 ∧ i₂ < H - 1))
      (by intro a b h; simp [tv, bv, Prod.mk.injEq] at h; omega)
      (by
        simp only [tv, bv, Prod.mk.injEq, decide_eq_true_eq]
        constructor
        · rintro ⟨i, h⟩; omega
        · intro h; exact ⟨i₂, by omega⟩)]
  rw [count_slot1 (H - 1) (fun i => (bv i (W - 1), tv i (W - 1)))
      ((l₁, i₁, j₁), (l₂, i₂, j₂))
      (decide (l₁ = 1 ∧ l₂ = 0 ∧ j₁ = W - 1 ∧ j₂ = W - 1 ∧ i₁ = i₂ ∧ i₁ < H - 1))
      (by intro a b h; simp [tv, bv, Prod.mk.injEq] at h; omega)
      (by
        simp only [tv, bv, Prod.mk.injEq, decide_eq_true_eq]
        constructor
        · rintro ⟨i, h⟩; omega
        · intro h; exact ⟨i₁, by omega⟩)]

theorem count_topChunk2 (W H l₁ i₁ j₁ l₂ i₂ j₂ : ℕ) :
    ((dirEdges ((List.range (H - 1)).flatMap fun i => (List.range (W - 1)).flatMap fun j =>
      [(tv i j, tv (i + 1) j, tv i (j + 1)),
       (tv i (j + 1), tv (i + 1) j, tv (i + 1) (j + 1))])).count
        ((l₁, i₁, j₁), (l₂, i₂, j₂)))
      = (if decide (l₁ = 0 ∧ l₂ = 0 ∧ i₂ = i₁ + 1 ∧ j₂ = j₁ ∧ i₁ < H - 1 ∧ j₁ < W - 1) = true then 1 else 0)
        + (if decide (l₁ = 0 ∧ l₂ = 0 ∧ i₁ = i₂ + 1 ∧ j₂ = j₁ + 1 ∧ i₂ < H - 1 ∧ j₁ < W - 1) = true then 1 else 0)
        + (if decide (l₁ = 0 ∧ l₂ = 0 ∧ i₁ = i₂ ∧ j₁ = j₂ + 1 ∧ i₁ < H - 1 ∧ j₂ < W - 1) = true then 1 else 0)
        + (if decide (l₁ = 0 ∧ l₂ = 0 ∧ i₂ = i₁ + 1 ∧ j₁ = j₂ + 1 ∧ i₁ < H - 1 ∧ j₂ < W - 1) = true then 1 else 0)
        + (if decide (l₁ = 0 ∧ l₂ = 0 ∧ i₁ = i₂ ∧ 1 ≤ i₁ ∧ i₁ < H ∧ j₂ = j₁ + 1 ∧ j₁ < W - 1) = true then 1 else 0)
        + (if decide (l₁ = 0 ∧ l₂ = 0 ∧ i₁ = i₂ + 1 ∧ j₁ = j₂ ∧ i₂ < H - 1 ∧ 1 ≤ j₁ ∧ j₁ < W) = true then 1 else 0) := by
  have hsplit : dirEdges ((List.range (H - 1)).flatMap fun i => (List.range (W - 1)).flatMap fun j =>
      [(tv i j, tv (i + 1) j, tv i (j + 1)),
       (tv i (j + 1), tv (i + 1) j, tv (i + 1) (j + 1))])
      = (List.range (H - 1)).flatMap fun i => (List.range (W - 1)).flatMap fun j =>
      [(tv i j, tv (i + 1) j),
       (tv (i + 1) j, tv i (j + 1)),
       (tv i (j + 1), tv i j),
       (tv i (j + 1), tv (i + 1) j),
       (tv (i + 1) j, tv (i + 1) (j + 1)),
       (tv (i + 1) (j + 1), tv i (j + 1))] := by
    simp [dirEdges, List.flatMap_assoc]
  rw [hsplit, count_block6 (List.range (H - 1)) (List.range (W - 1))
      (fun i j => (tv i j, tv (i + 1) j))
      (fun i j => (tv (i + 1) j, tv i (j + 1)))
      (fun i j => (tv i (j + 1), tv i j))
      (fun i j => (tv i (j + 1), tv (i + 1) j))
      (fun i j => (tv (i + 1) j, tv (i + 1) (j + 1)))
      (fun i j => (tv (i + 1) (j + 1), tv i (j + 1)))
      ((l₁, i₁, j₁), (l₂, i₂, j₂))]
  rw [count_slot2 (H - 1) (W - 1) (fun i j => (tv i j, tv (i + 1) j))
      ((l₁, i₁, j₁), (l₂, i₂, j₂))
      (decide (l₁ = 0 ∧ l₂ = 0 ∧ i₂ = i₁ + 1 ∧ j₂ = j₁ ∧ i₁ < H - 1 ∧ j₁ < W - 1))
      (by intro a b c d h; simp [tv, bv, Prod.mk.injEq] at h; omega)
      (by
        simp only [tv, bv, Prod.mk.injEq, decide_eq_true_eq]
        constructor
        · rintro ⟨i, j, h⟩; omega
        · intro h; exact ⟨i₁, j₁, by omega⟩)]
  rw [count_slot2 (H - 1) (W - 1) (fun i j => (tv (i + 1) j, tv i (j + 1)))
      ((l₁, i₁, j₁), (l₂, i₂, j₂))
      (decide (l₁ = 0 ∧ l₂ = 0 ∧ i₁ = i₂ + 1 ∧ j₂ = j₁ + 1 ∧ i₂ < H - 1 ∧ j₁ < W - 1))
      (by intro a b c d h; simp [tv, bv, Prod.mk.injEq] at h; omega)
      (by
        simp only [tv, bv, Prod.mk.injEq, decide_eq_true_eq]
        constructor
        · rintro ⟨i, j, h⟩; omega
        · intro h; exact ⟨i₂, j₁, by omega⟩)]
  rw [count_slot2 (H - 1) (W - 1) (fun i j => (tv i (j + 1), tv i j))
      ((l₁, i₁, j₁), (l₂, i₂, j₂))
      (decide (l₁ = 0 ∧ l₂ = 0 ∧ i₁ = i₂ ∧ j₁ = j₂ + 1 ∧ i₁ < H - 1 ∧ j₂ < W - 1))
      (by intro a b c d h; simp [tv, bv, Prod.mk.injEq] at h; omega)
      (by
        simp only [tv, bv, Prod.mk.injEq, decide_eq_true_eq]
        constructor
        · rintro ⟨i, j, h⟩; omega
        · intro h; exact ⟨i₁, j₂, by omega⟩)]
  rw [count_slot2 (H - 1) (W - 1) (fun i j => (tv i (j + 1), tv (i + 1) j))
      ((l₁, i₁, j₁), (l₂, i₂, j₂))
      (decide (l₁ = 0 ∧ l₂ = 0 ∧ i₂ = i₁ + 1 ∧ j₁ = j₂ + 1 ∧ i₁ < H - 1 ∧ j₂ < W - 1))
      (by intro a b c d h; simp [tv, bv, Prod.mk.injEq] at h; omega)
      (by
        simp only [tv, bv, Prod.mk.injEq, decide_eq_true_eq]
        constructor
        · rintro ⟨i, j, h⟩; omega
        · intro h; exact ⟨i₁, j₂, by omega⟩)]
  rw [count_slot2 (H - 1) (W - 1) (fun i j => (tv (i + 1) j, tv (i + 1) (j + 1)))
      ((l₁, i₁, j₁), (l₂, i₂, j₂))
      (decide (l₁ = 0 ∧ l₂ = 0 ∧ i₁ = i₂ ∧ 1 ≤ i₁ ∧ i₁ < H ∧ j₂ = j₁ + 1 ∧ j₁ < W - 1))
      (by intro a b c d h; simp [tv, bv, Prod.mk.injEq] at h; omega)
      (by
        simp only [tv, bv, Prod.mk.injEq, decide_eq_true_eq]
        constructor
        · rintro ⟨i, j, h⟩; omega
        · intro h; exact ⟨i₁ - 1, j₁, by omega⟩)]
  rw [count_slot2 (H - 1) (W - 1) (fun i j => (tv (i + 1) (j + 1), tv i (j + 1)))
      ((l₁, i₁, j₁), (l₂, i₂, j₂))
      (decide (l₁ = 0 ∧ l₂ = 0 ∧ i₁ = i₂ + 1 ∧ j₁ = j₂ ∧ i₂ < H - 1 ∧ 1 ≤ j₁ ∧ j₁ < W))
      (by intro a b c d h; simp [tv, bv, Prod.mk.injEq] at h; omega)
      (by
        simp only [tv, bv, Prod.mk.injEq, decide_eq_true_eq]
        constructor
        · rintro ⟨i, j, h⟩; omega
        · intro h; exact ⟨i₂, j₁ - 1, by omega⟩)]

theorem count_botChunk2 (W H l₁ i₁ j₁ l₂ i₂ j₂ : ℕ) :
    ((dirEdges ((List.range (H - 1)).flatMap fun i => (List.range (W - 1)).flatMap fun j =>
      [(bv i j, bv i (j + 1), bv (i + 1) j),
       (bv i (j + 1), bv (i + 1) (j + 1), bv (i + 1) j)])).count
        ((l₁, i₁, j₁), (l₂, i₂, j₂)))
      = (if decide (l₁ = 1 ∧ l₂ = 1 ∧ i₁ = i₂ ∧ j₂ = j₁ + 1 ∧ i₁ < H - 1 ∧ j₁ < W - 1) = true then 1 else 0)
        + (if decide (l₁ = 1 ∧ l₂ = 1 ∧ i₂ = i₁ + 1 ∧ j₁ = j₂ + 1 ∧ i₁ < H - 1 ∧ j₂ < W - 1) = true then 1 else 0)
        + (if decide (l₁ = 1 ∧ l₂ = 1 ∧ i₁ = i₂ + 1 ∧ j₁ = j₂ ∧ i₂ < H - 1 ∧ j₁ < W - 1) = true then 1 else 0)
        + (if decide (l₁ = 1 ∧ l₂ = 1 ∧ i₂ = i₁ + 1 ∧ j₁ = j₂ ∧ i₁ < H - 1 ∧ 1 ≤ j₁ ∧ j₁ < W) = true then 1 else 0)
        + (if decide (l₁ = 1 ∧ l₂ = 1 ∧ i₁ = i₂ ∧ 1 ≤ i₁ ∧ i₁ < H ∧ j₁ = j₂ + 1 ∧ j₂ < W - 1) = true then 1 else 0)
        + (if decide (l₁ = 1 ∧ l₂ = 1 ∧ i₁ = i₂ + 1 ∧ j₂ = j₁ + 1 ∧ i₂ < H - 1 ∧ j₁ < W - 1) = true then 1 else 0) := by
  have hsplit : dirEdges ((List.range (H - 1)).flatMap fun i => (List.range (W - 1)).flatMap fun j =>
      [(bv i j, bv i (j + 1), bv (i + 1) j),
       (bv i (j + 1), bv (i + 1) (j + 1), bv (i + 1) j)])
      = (List.range (H - 1)).flatMap fun i => (List.range (W - 1)).flatMap fun j =>
      [(bv i j, bv i (j + 1)),
       (bv i (j + 1), bv (i + 1) j),
       (bv (i + 1) j, bv i j),
       (bv i (j + 1), bv (i + 1) (j + 1)),
       (bv (i + 1) (j + 1), bv (i + 1) j),
       (bv (i + 1) j, bv i (j + 1))] := by
    simp [dirEdges, List.flatMap_assoc]
  rw [hsplit, count_block6 (List.range (H - 1)) (List.range (W - 1))
      (fun i j => (bv i j, bv i (j + 1)))
      (fun i j => (bv i (j + 1), bv (i + 1) j))
      (fun i j => (bv (i + 1) j, bv i j))
      (fun i j => (bv i (j + 1), bv (i + 1) (j + 1)))
      (fun i j => (bv (i + 1) (j + 1), bv (i + 1) j))
      (fun i j => (bv (i + 1) j, bv i (j + 1)))
      ((l₁, i₁, j₁), (l₂, i₂, j₂))]
  rw [count_slot2 (H - 1) (W - 1) (fun i j => (bv i j, bv i (j + 1)))
      ((l₁, i₁, j₁), (l₂, i₂, j₂))
      (decide (l₁ = 1 ∧ l₂ = 1 ∧ i₁ = i₂ ∧ j₂ = j₁ + 1 ∧ i₁ < H - 1 ∧ j₁ < W - 1))
      (by intro a b c d h; simp [tv, bv, Prod.mk.injEq] at h; omega)
      (by
        simp only [tv, bv, Prod.mk.injEq, decide_eq_true_eq]
        constructor
        · rintro ⟨i, j, h⟩; omega
        · intro h; exact ⟨i₁, j₁, by omega⟩)]
  rw [count_slot2 (H - 1) (W - 1) (fun i j => (bv i (j + 1), bv (i + 1) j))
      ((l₁, i₁, j₁), (l₂, i₂, j₂))
      (decide (l₁ = 1 ∧ l₂ = 1 ∧ i₂ = i₁ + 1 ∧ j₁ = j₂ + 1 ∧ i₁ < H - 1 ∧ j₂ < W - 1))
      (by intro a b c d h; simp [tv, bv, Prod.mk.injEq] at h; omega)
      (by
        simp only [tv, bv, Prod.mk.injEq, decide_eq_true_eq]
        constructor
        · rintro ⟨i, j, h⟩; omega
        · intro h; exact ⟨i₁, j₂, by omega⟩)]
  rw [count_slot2 (H - 1) (W - 1) (fun i j => (bv (i + 1) j, bv i j))
      ((l₁, i₁, j₁), (l₂, i₂, j₂))
      (decide (l₁ = 1 ∧ l₂ = 1 ∧ i₁ = i₂ + 1 ∧ j₁ = j₂ ∧ i₂ < H - 1 ∧ j₁ < W - 1))
      (by intro a b c d h; simp [tv, bv, Prod.mk.injEq] at h; omega)
      (by
        simp only [tv, bv, Prod.mk.injEq, decide_eq_true_eq]
        constructor
        · rintro ⟨i, j, h⟩; omega
        · intro h; exact ⟨i₂, j₁, by omega⟩)]
  rw [count_slot2 (H - 1) (W - 1) (fun i j => (bv i (j + 1), bv (i + 1) (j + 1)))
      ((l₁, i₁, j₁), (l₂, i₂, j₂))
      (decide (l₁ = 1 ∧ l₂ = 1 ∧ i₂ = i₁ + 1 ∧ j₁ = j₂ ∧ i₁ < H - 1 ∧ 1 ≤ j₁ ∧ j₁ < W))
      (by intro a b c d h; simp [tv, bv, Prod.mk.injEq] at h; omega)
      (by
        simp only [tv, bv, Prod.mk.injEq, decide_eq_true_eq]
        constructor
        · rintro ⟨i, j, h⟩; omega
        · intro h; exact ⟨i₁, j₁ - 1, by omega⟩)]
  rw [count_slot2 (H - 1) (W - 1) (fun i j => (bv (i + 1) (j + 1), bv (i + 1) j))
      ((l₁, i₁, j₁), (l₂, i₂, j₂))
      (decide (l₁ = 1 ∧ l₂ = 1 ∧ i₁ = i₂ ∧ 1 ≤ i₁ ∧ i₁ < H ∧ j₁ = j₂ + 1 ∧ j₂ < W - 1))
      (by intro a b c d h; simp [tv, bv, Prod.mk.injEq] at h; omega)
      (by
        simp only [tv, bv, Prod.mk.injEq, decide_eq_true_eq]
        constructor
        · rintro ⟨i, j, h⟩; omega
        · intro h; exact ⟨i₁ - 1, j₂, by omega⟩)]
  rw [count_slot2 (H - 1) (W - 1) (fun i j => (bv (i + 1) j, bv i (j + 1)))
      ((l₁, i₁, j₁), (l₂, i₂, j₂))
      (decide (l₁ = 1 ∧ l₂ = 1 ∧ i₁ = i₂ + 1 ∧ j₂ = j₁ + 1 ∧ i₂ < H - 1 ∧ j₁ < W - 1))
      (by intro a b c d h; simp [tv, bv, Prod.mk.injEq] at h; omega)
      (by
        simp only [tv, bv, Prod.mk.injEq, decide_eq_true_eq]
        constructor
        · rintro ⟨i, j, h⟩; omega
        · intro h; exact ⟨i₂, j₁, by omega⟩)]

theorem count_leftChunk2 (W H l₁ i₁ j₁ l₂ i₂ j₂ : ℕ) :
    ((dirEdges ((List.range (H - 1)).flatMap fun i =>
      [(tv i 0, bv i 0, tv (i + 1) 0),
       (tv (i + 1) 0, bv i 0, bv (i + 1) 0)])).count
        ((l₁, i₁, j₁), (l₂, i₂, j₂)))
      = (if decide (l₁ = 0 ∧ l₂ = 1 ∧ j₁ = 0 ∧ j₂ = 0 ∧ i₁ = i₂ ∧ i₁ < H - 1) = true then 1 else 0)
        + (if decide (l₁ = 1 ∧ l₂ = 0 ∧ j₁ = 0 ∧ j₂ = 0 ∧ i₂ = i₁ + 1 ∧ i₁ < H - 1) = true then 1 else 0)
        + (if decide (l₁ = 0 ∧ l₂ = 0 ∧ j₁ = 0 ∧ j₂ = 0 ∧ i₁ = i₂ + 1 ∧ i₂ < H - 1) = true then 1 else 0)
        + (if decide (l₁ = 0 ∧ l₂ = 1 ∧ j₁ = 0 ∧ j₂ = 0 ∧ i₁ = i₂ + 1 ∧ i₂ < H - 1) = true then 1 else 0)
        + (if decide (l₁ = 1 ∧ l₂ = 1 ∧ j₁ = 0 ∧ j₂ = 0 ∧ i₂ = i₁ + 1 ∧ i₁ < H - 1) = true then 1 else 0)
        + (if decide (l₁ = 1 ∧ l₂ = 0 ∧ j₁ = 0 ∧ j₂ = 0 ∧ i₁ = i₂ ∧ 1 ≤ i₁ ∧ i₁ < H) = true then 1 else 0) := by
  have hsplit : dirEdges ((List.range (H - 1)).flatMap fun i =>
      [(tv i 0, bv i 0, tv (i + 1) 0),
       (tv (i + 1) 0, bv i 0, bv (i + 1) 0)])
      = (List.range (H - 1)).flatMap fun i =>
      [(tv i 0, bv i 0),
       (bv i 0, tv (i + 1) 0),
       (tv (i + 1) 0, tv i 0),
       (tv (i + 1) 0, bv i 0),
       (bv i 0, bv (i + 1) 0),
       (bv (i + 1) 0, tv (i + 1) 0)] := by
    simp [dirEdges, List.flatMap_assoc]
  rw [hsplit, count_block6_single (List.range (H - 1))
      (fun i => (tv i 0, bv i 0))
      (fun i => (bv i 0, tv (i + 1) 0))
      (fun i => (tv (i + 1) 0, tv i 0))
      (fun i => (tv (i + 1) 0, bv i 0))
      (fun i => (bv i 0, bv (i + 1) 0))
      (fun i => (bv (i + 1) 0, tv (i + 1) 0))
      ((l₁, i₁, j₁), (l₂, i₂, j₂))]
  rw [count_slot1 (H - 1) (fun i => (tv i 0, bv i 0))
      ((l₁, i₁, j₁), (l₂, i₂, j₂))
      (decide (l₁ = 0 ∧ l₂ = 1 ∧ j₁ = 0 ∧ j₂ = 0 ∧ i₁ = i₂ ∧ i₁ < H - 1))
      (by intro a b h; simp [tv, bv, Prod.mk.injEq] at h; omega)
      (by
        simp only [tv, bv, Prod.mk.injEq, decide_eq_true_eq]
        constructor
        · rintro ⟨i, h⟩; omega
        · intro h; exact ⟨i₁, by omega⟩)]
  rw [count_slot1 (H - 1) (fun i => (bv i 0, tv (i + 1) 0))
      ((l₁, i₁, j₁), (l₂, i₂, j₂))
      (decide (l₁ = 1 ∧ l₂ = 0 ∧ j₁ = 0 ∧ j₂ = 0 ∧ i₂ = i₁ + 1 ∧ i₁ < H - 1))
      (by intro a b h; simp [tv, bv, Prod.mk.injEq] at h; omega)
      (by
        simp only [tv, bv, Prod.mk.injEq, decide_eq_true_eq]
        constructor
        · rintro ⟨i, h⟩; omega
        · intro h; exact ⟨i₁, by omega⟩)]
  rw [count_slot1 (H - 1) (fun i => (tv (i + 1) 0, tv i 0))
      ((l₁, i₁, j₁), (l₂, i₂, j₂))
      (decide (l₁ = 0 ∧ l₂ = 0 ∧ j₁ = 0 ∧ j₂ = 0 ∧ i₁ = i₂ + 1 ∧ i₂ < H - 1))
      (by intro a b h; simp [tv, bv, Prod.mk.injEq] at h; omega)
      (by
        simp only [tv, bv, Prod.mk.injEq, decide_eq_true_eq]
        constructor
        · rintro ⟨i, h⟩; omega
        · intro h; exact ⟨i₂, by omega⟩)]
  rw [count_slot1 (H - 1) (fun i => (tv (i + 1) 0, bv i 0))
      ((l₁, i₁, j₁), (l₂, i₂, j₂))
      (decide (l₁ = 0 ∧ l₂ = 1 ∧ j₁ = 0 ∧ j₂ = 0 ∧ i₁ = i₂ + 1 ∧ i₂ < H - 1))
      (by intro a b h; simp [tv, bv, Prod.mk.injEq] at h; omega)
      (by
        simp only [tv, bv, Prod.mk.injEq, decide_eq_true_eq]
        constructor
        · rintro ⟨i, h⟩; omega
        · intro h; exact ⟨i₂, by omega⟩)]
  rw [count_slot1 (H - 1) (fun i => (bv i 0, bv (i + 1) 0))
      ((l₁, i₁, j₁), (l₂, i₂, j₂))
      (decide (l₁ = 1 ∧ l₂ = 1 ∧ j₁ = 0 ∧ j₂ = 0 ∧ i₂ = i₁ + 1 ∧ i₁ < H - 1))
      (by intro a b h; simp [tv, bv, Prod.mk.injEq] at h; omega)
      (by
        simp only [tv, bv, Prod.mk.injEq, decide_eq_true_eq]
        constructor
        · rintro ⟨i, h⟩; omega
        · intro h; exact ⟨i₁, by omega⟩)]
  rw [count_slot1 (H - 1) (fun i => (bv (i + 1) 0, tv (i + 1) 0))
      ((l₁, i₁, j₁), (l₂, i₂, j₂))
      (decide (l₁ = 1 ∧ l₂ = 0 ∧ j₁ = 0 ∧ j₂ = 0 ∧ i₁ = i₂ ∧ 1 ≤ i₁ ∧ i₁ < H))
      (by intro a b h; simp [tv, bv, Prod.mk.injEq] at h; omega)
      (by
        simp only [tv, bv, Prod.mk.injEq, decide_eq_true_eq]
        constructor
        · rintro ⟨i, h⟩; omega
        · intro h; exact ⟨i₁ - 1, by omega⟩)]

theorem count_rightChunk2 (W H l₁ i₁ j₁ l₂ i₂ j₂ : ℕ) :
    ((dirEdges ((List.range (H - 1)).flatMap fun i =>
      [(tv i (W - 1), tv (i + 1) (W - 1), bv i (W - 1)),
       (tv (i + 1) (W - 1), bv (i + 1) (W - 1), bv i (W - 1))])).count
        ((l₁, i₁, j₁), (l₂, i₂, j₂)))
      = (if decide (l₁ = 0 ∧ l₂ = 0 ∧ j₁ = W - 1 ∧ j₂ = W - 1 ∧ i₂ = i₁ + 1 ∧ i₁ < H - 1) = true then 1 else 0)
        + (if decide (l₁ = 0 ∧ l₂ = 1 ∧ j₁ = W - 1 ∧ j₂ = W - 1 ∧ i₁ = i₂ + 1 ∧ i₂ < H - 1) = true then 1 else 0)
        + (if decide (l₁ = 1 ∧ l₂ = 0 ∧ j₁ = W - 1 ∧ j₂ = W - 1 ∧ i₁ = i₂ ∧ i₁ < H - 1) = true then 1 else 0)
        + (if decide (l₁ = 0 ∧ l₂ = 1 ∧ j₁ = W - 1 ∧ j₂ = W - 1 ∧ i₁ = i₂ ∧ 1 ≤ i₁ ∧ i₁ < H) = true then 1 else 0)
        + (if decide (l₁ = 1 ∧ l₂ = 1 ∧ j₁ = W - 1 ∧ j₂ = W - 1 ∧ i₁ = i₂ + 1 ∧ i₂ < H - 1) = true then 1 else 0)
        + (if decide (l₁ = 1 ∧ l₂ = 0 ∧ j₁ = W - 1 ∧ j₂ = W - 1 ∧ i₂ = i₁ + 1 ∧ i₁ < H - 1) = true then 1 else 0) := by
  have hsplit : dirEdges ((List.range (H - 1)).flatMap fun i =>
      [(tv i (W - 1), tv (i + 1) (W - 1), bv i (W - 1)),
       (tv (i + 1) (W - 1), bv (i + 1) (W - 1), bv i (W - 1))])
      = (List.range (H - 1)).flatMap fun i =>
      [(tv i (W - 1), tv (i + 1) (W - 1)),
       (tv (i + 1) (W - 1), bv i (W - 1)),
       (bv i (W - 1), tv i (W - 1)),
       (tv (i + 1) (W - 1), bv (i + 1) (W - 1)),
       (bv (i + 1) (W - 1), bv i (W - 1)),
       (bv i (W - 1), tv (i + 1) (W - 1))] := by
    simp [dirEdges, List.flatMap_assoc]
  rw [hsplit, count_block6_single (List.range (H - 1))
      (fun i => (tv i (W - 1), tv (i + 1) (W - 1)))
      (fun i => (tv (i + 1) (W - 1), bv i (W - 1)))
      (fun i => (bv i (W - 1), tv i (W - 1)))
      (fun i => (tv (i + 1) (W - 1), bv (i + 1) (W - 1)))
      (fun i => (bv (i + 1) (W - 1), bv i (W - 1)))
      (fun i => (bv i (W - 1), tv (i + 1) (W - 1)))
      ((l₁, i₁, j₁), (l₂, i₂, j₂))]
  rw [count_slot1 (H - 1) (fun i => (tv i (W - 1), tv (i + 1) (W - 1)))
      ((l₁, i₁, j₁), (l₂, i₂, j₂))
      (decide (l₁ = 0 ∧ l₂ = 0 ∧ j₁ = W - 1 ∧ j₂ = W - 1 ∧ i₂ = i₁ + 1 ∧ i₁ < H - 1))
      (by intro a b h; simp [tv, bv, Prod.mk.injEq] at h; omega)
      (by
        simp only [tv, bv, Prod.mk.injEq, decide_eq_true_eq]
        constructor
        · rintro ⟨i, h⟩; omega
        · intro h; exact ⟨i₁, by omega⟩)]
  rw [count_slot1 (H - 1) (fun i => (tv (i + 1) (W - 1), bv i (W - 1)))
      ((l₁, i₁, j₁), (l₂, i₂, j₂))
      (decide (l₁ = 0 ∧ l₂ = 1 ∧ j₁ = W - 1 ∧ j₂ = W - 1 ∧ i₁ = i₂ + 1 ∧ i₂ < H - 1))
      (by intro a b h; simp [tv, bv, Prod.mk.injEq] at h; omega)
      (by
        simp only [tv, bv, Prod.mk.injEq, decide_eq_true_eq]
        constructor
        · rintro ⟨i, h⟩; omega
        · intro h; exact ⟨i₂, by omega⟩)]
  rw [count_slot1 (H - 1) (fun i => (bv i (W - 1), tv i (W - 1)))
      ((l₁, i₁, j₁), (l₂, i₂, j₂))
      (decide (l₁ = 1 ∧ l₂ = 0 ∧ j₁ = W - 1 ∧ j₂ = W - 1 ∧ i₁ = i₂ ∧ i₁ < H - 1))
      (by intro a b h; simp [tv, bv, Prod.mk.injEq] at h; omega)
      (by
        simp only [tv, bv, Prod.mk.injEq, decide_eq_true_eq]
        constructor
        · rintro ⟨i, h⟩; omega
        · intro h; exact ⟨i₁, by omega⟩)]
  rw [count_slot1 (H - 1) (fun i => (tv (i + 1) (W - 1), bv (i + 1) (W - 1)))
      ((l₁, i₁, j₁), (l₂, i₂, j₂))
      (decide (l₁ = 0 ∧ l₂ = 1 ∧ j₁ = W - 1 ∧ j₂ = W - 1 ∧ i₁ = i₂ ∧ 1 ≤ i₁ ∧ i₁ < H))
      (by intro a b h; simp [tv, bv, Prod.mk.injEq] at h; omega)
      (by
        simp only [tv, bv, Prod.mk.injEq, decide_eq_true_eq]
        constructor
        · rintro ⟨i, h⟩; omega
        · intro h; exact ⟨i₁ - 1, by omega⟩)]
  rw [count_slot1 (H - 1) (fun i => (bv (i + 1) (W - 1), bv i (W - 1)))
      ((l₁, i₁, j₁), (l₂, i₂, j₂))
      (decide (l₁ = 1 ∧ l₂ = 1 ∧ j₁ = W - 1 ∧ j₂ = W - 1 ∧ i₁ = i₂ + 1 ∧ i₂ < H - 1))
      (by intro a b h; simp [tv, bv, Prod.mk.injEq] at h; omega)
      (by
        simp only [tv, bv, Prod.mk.injEq, decide_eq_true_eq]
        constructor
        · rintro ⟨i, h⟩; omega
        · intro h; exact ⟨i₂, by omega⟩)]
  rw [count_slot1 (H - 1) (fun i => (bv i (W - 1), tv (i + 1) (W - 1)))
      ((l₁, i₁, j₁), (l₂, i₂, j₂))
      (decide (l₁ = 1 ∧ l₂ = 0 ∧ j₁ = W - 1 ∧ j₂ = W - 1 ∧ i₂ = i₁ + 1 ∧ i₁ < H - 1))
      (by intro a b h; simp [tv, bv, Prod.mk.injEq] at h; omega)
      (by
        simp only [tv, bv, Prod.mk.injEq, decide_eq_true_eq]
        constructor
        · rintro ⟨i, h⟩; omega
        · intro h; exact ⟨i₁, by omega⟩)]

theorem count_northChunk2 (W H l₁ i₁ j₁ l₂ i₂ j₂ : ℕ) :
    ((dirEdges ((List.range (W - 1)).flatMap fun j =>
      [(tv 0 j, tv 0 (j + 1), bv 0 j),
       (tv 0 (j + 1), bv 0 (j + 1), bv 0 j)])).count
        ((l₁, i₁, j₁), (l₂, i₂, j₂)))
      = (if decide (l₁ = 0 ∧ l₂ = 0 ∧ i₁ = 0 ∧ i₂ = 0 ∧ j₂ = j₁ + 1 ∧ j₁ < W - 1) = true then 1 else 0)
        + (if decide (l₁ = 0 ∧ l₂ = 1 ∧ i₁ = 0 ∧ i₂ = 0 ∧ j₁ = j₂ + 1 ∧ j₂ < W - 1) = true then 1 else 0)
        + (if decide (l₁ = 1 ∧ l₂ = 0 ∧ i₁ = 0 ∧ i₂ = 0 ∧ j₁ = j₂ ∧ j₁ < W - 1) = true then 1 else 0)
        + (if decide (l₁ = 0 ∧ l₂ = 1 ∧ i₁ = 0 ∧ i₂ = 0 ∧ j₁ = j₂ ∧ 1 ≤ j₁ ∧ j₁ < W) = true then 1 else 0)
        + (if decide (l₁ = 1 ∧ l₂ = 1 ∧ i₁ = 0 ∧ i₂ = 0 ∧ j₁ = j₂ + 1 ∧ j₂ < W - 1) = true then 1 else 0)
        + (if decide (l₁ = 1 ∧ l₂ = 0 ∧ i₁ = 0 ∧ i₂ = 0 ∧ j₂ = j₁ + 1 ∧ j₁ < W - 1) = true then 1 else 0) := by
  have hsplit : dirEdges ((List.range (W - 1)).flatMap fun j =>
      [(tv 0 j, tv 0 (j + 1), bv 0 j),
       (tv 0 (j + 1), bv 0 (j + 1), bv 0 j)])
      = (List.range (W - 1)).flatMap fun j =>
      [(tv 0 j, tv 0 (j + 1)),
       (tv 0 (j + 1), bv 0 j),
       (bv 0 j, tv 0 j),
       (tv 0 (j + 1), bv 0 (j + 1)),
       (bv 0 (j + 1), bv 0 j),
       (bv 0 j, tv 0 (j + 1))] := by
    simp [dirEdges, List.flatMap_assoc]
  rw [hsplit, count_block6_single (List.range (W - 1))
      (fun j => (tv 0 j, tv 0 (j + 1)))
      (fun j => (tv 0 (j + 1), bv 0 j))
      (fun j => (bv 0 j, tv 0 j))
      (fun j => (tv 0 (j + 1), bv 0 (j + 1)))
      (fun j => (bv 0 (j + 1), bv 0 j))
      (fun j => (bv 0 j, tv 0 (j + 1)))
      ((l₁, i₁, j₁), (l₂, i₂, j₂))]
  rw [count_slot1 (W - 1) (fun j => (tv 0 j, tv 0 (j + 1)))
      ((l₁, i₁, j₁), (l₂, i₂, j₂))
      (decide (l₁ = 0 ∧ l₂ = 0 ∧ i₁ = 0 ∧ i₂ = 0 ∧ j₂ = j₁ + 1 ∧ j₁ < W - 1))
      (by intro a b h; simp [tv, bv, Prod.mk.injEq] at h; omega)
      (by
        simp only [tv, bv, Prod.mk.injEq, decide_eq_true_eq]
        constructor
        · rintro ⟨j, h⟩; omega
        · intro h; exact ⟨j₁, by omega⟩)]
  rw [count_slot1 (W - 1) (fun j => (tv 0 (j + 1), bv 0 j))
      ((l₁, i₁, j₁), (l₂, i₂, j₂))
      (decide (l₁ = 0 ∧ l₂ = 1 ∧ i₁ = 0 ∧ i₂ = 0 ∧ j₁ = j₂ + 1 ∧ j₂ < W - 1))
      (by intro a b h; simp [tv, bv, Prod.mk.injEq] at h; omega)
      (by
        simp only [tv, bv, Prod.mk.injEq, decide_eq_true_eq]
        constructor
        · rintro ⟨j, h⟩; omega
        · intro h; exact ⟨j₂, by omega⟩)]
  rw [count_slot1 (W - 1) (fun j => (bv 0 j, tv 0 j))
      ((l₁, i₁, j₁), (l₂, i₂, j₂))
      (decide (l₁ = 1 ∧ l₂ = 0 ∧ i₁ = 0 ∧ i₂ = 0 ∧ j₁ = j₂ ∧ j₁ < W - 1))
      (by intro a b h; simp [tv, bv, Prod.mk.injEq] at h; omega)
      (by
        simp only [tv, bv, Prod.mk.injEq, decide_eq_true_eq]
        constructor
        · rintro ⟨j, h⟩; omega
        · intro h; exact ⟨j₁, by omega⟩)]
  rw [count_slot1 (W - 1) (fun j => (tv 0 (j + 1), bv 0 (j + 1)))
      ((l₁, i₁, j₁), (l₂, i₂, j₂))
      (decide (l₁ = 0 ∧ l₂ = 1 ∧ i₁ = 0 ∧ i₂ = 0 ∧ j₁ = j₂ ∧ 1 ≤ j₁ ∧ j₁ < W))
      (by intro a b h; simp [tv, bv, Prod.mk.injEq] at h; omega)
      (by
        simp only [tv, bv, Prod.mk.injEq, decide_eq_true_eq]
        constructor
        · rintro ⟨j, h⟩; omega
        · intro h; exact ⟨j₁ - 1, by omega⟩)]
  rw [count_slot1 (W - 1) (fun j => (bv 0 (j + 1), bv 0 j))
      ((l₁, i₁, j₁), (l₂, i₂, j₂))
      (decide (l₁ = 1 ∧ l₂ = 1 ∧ i₁ = 0 ∧ i₂ = 0 ∧ j₁ = j₂ + 1 ∧ j₂ < W - 1))
      (by intro a b h; simp [tv, bv, Prod.mk.injEq] at h; omega)
      (by
        simp only [tv, bv, Prod.mk.injEq, decide_eq_true_eq]
        constructor
        · rintro ⟨j, h⟩; omega
        · intro h; exact ⟨j₂, by omega⟩)]
  rw [count_slot1 (W - 1) (fun j => (bv 0 j, tv 0 (j + 1)))
      ((l₁, i₁, j₁), (l₂, i₂, j₂))
      (decide (l₁ = 1 ∧ l₂ = 0 ∧ i₁ = 0 ∧ i₂ = 0 ∧ j₂ = j₁ + 1 ∧ j₁ < W - 1))
      (by intro a b h; simp [tv, bv, Prod.mk.injEq] at h; omega)
      (by
        simp only [tv, bv, Prod.mk.injEq, decide_eq_true_eq]
        constructor
        · rintro ⟨j, h⟩; omega
        · intro h; exact ⟨j₁, by omega⟩)]

theorem count_southChunk2 (W H l₁ i₁ j₁ l₂ i₂ j₂ : ℕ) :
    ((dirEdges ((List.range (W - 1)).flatMap fun j =>
      [(tv (H - 1) j, bv (H - 1) j, tv (H - 1) (j + 1)),
       (tv (H - 1) (j + 1), bv (H - 1) j, bv (H - 1) (j + 1))])).count
        ((l₁, i₁, j₁), (l₂, i₂, j₂)))
      = (if decide (l₁ = 0 ∧ l₂ = 1 ∧ i₁ = H - 1 ∧ i₂ = H - 1 ∧ j₁ = j₂ ∧ j₁ < W - 1) = true then 1 else 0)
        + (if decide (l₁ = 1 ∧ l₂ = 0 ∧ i₁ = H - 1 ∧ i₂ = H - 1 ∧ j₂ = j₁ + 1 ∧ j₁ < W - 1) = true then 1 else 0)
        + (if decide (l₁ = 0 ∧ l₂ = 0 ∧ i₁ = H - 1 ∧ i₂ = H - 1 ∧ j₁ = j₂ + 1 ∧ j₂ < W - 1) = true then 1 else 0)
        + (if decide (l₁ = 0 ∧ l₂ = 1 ∧ i₁ = H - 1 ∧ i₂ = H - 1 ∧ j₁ = j₂ + 1 ∧ j₂ < W - 1) = true then 1 else 0)
        + (if decide (l₁ = 1 ∧ l₂ = 1 ∧ i₁ = H - 1 ∧ i₂ = H - 1 ∧ j₂ = j₁ + 1 ∧ j₁ < W - 1) = true then 1 else 0)
        + (if decide (l₁ = 1 ∧ l₂ = 0 ∧ i₁ = H - 1 ∧ i₂ = H - 1 ∧ j₁ = j₂ ∧ 1 ≤ j₁ ∧ j₁ < W) = true then 1 else 0) := by
  have hsplit : dirEdges ((List.range (W - 1)).flatMap fun j =>
      [(tv (H - 1) j, bv (H - 1) j, tv (H - 1) (j + 1)),
       (tv (H - 1) (j + 1), bv (H - 1) j, bv (H - 1) (j + 1))])
      = (List.range (W - 1)).flatMap fun j =>
      [(tv (H - 1) j, bv (H - 1) j),
       (bv (H - 1) j, tv (H - 1) (j + 1)),
       (tv (H - 1) (j + 1), tv (H - 1) j),
       (tv (H - 1) (j + 1), bv (H - 1) j),
       (bv (H - 1) j, bv (H - 1) (j + 1)),
       (bv (H - 1) (j + 1), tv (H - 1) (j + 1))] := by
    simp [dirEdges, List.flatMap_assoc]
  rw [hsplit, count_block6_single (List.range (W - 1))
      (fun j => (tv (H - 1) j, bv (H - 1) j))
      (fun j => (bv (H - 1) j, tv (H - 1) (j + 1)))
      (fun j => (tv (H - 1) (j + 1), tv (H - 1) j))
      (fun j => (tv (H - 1) (j + 1), bv (H - 1) j))
      (fun j => (bv (H - 1) j, bv (H - 1) (j + 1)))
      (fun j => (bv (H - 1) (j + 1), tv (H - 1) (j + 1)))
      ((l₁, i₁, j₁), (l₂, i₂, j₂))]
  rw [count_slot1 (W - 1) (fun j => (tv (H - 1) j, bv (H - 1) j))
      ((l₁, i₁, j₁), (l₂, i₂, j₂))
      (decide (l₁ = 0 ∧ l₂ = 1 ∧ i₁ = H - 1 ∧ i₂ = H - 1 ∧ j₁ = j₂ ∧ j₁ < W - 1))
      (by intro a b h; simp [tv, bv, Prod.mk.injEq] at h; omega)
      (by
        simp only [tv, bv, Prod.mk.injEq, decide_eq_true_eq]
        constructor
        · rintro ⟨j, h⟩; omega
        · intro h; exact ⟨j₁, by omega⟩)]
  rw [count_slot1 (W - 1) (fun j => (bv (H - 1) j, tv (H - 1) (j + 1)))
      ((l₁, i₁, j₁), (l₂, i₂, j₂))
      (decide (l₁ = 1 ∧ l₂ = 0 ∧ i₁ = H - 1 ∧ i₂ = H - 1 ∧ j₂ = j₁ + 1 ∧ j₁ < W - 1))
      (by intro a b h; simp [tv, bv, Prod.mk.injEq] at h; omega)
      (by
        simp only [tv, bv, Prod.mk.injEq, decide_eq_true_eq]
        constructor
        · rintro ⟨j, h⟩; omega
        · intro h; exact ⟨j₁, by omega⟩)]
  rw [count_slot1 (W - 1) (fun j => (tv (H - 1) (j + 1), tv (H - 1) j))
      ((l₁, i₁, j₁), (l₂, i₂, j₂))
      (decide (l₁ = 0 ∧ l₂ = 0 ∧ i₁ = H - 1 ∧ i₂ = H - 1 ∧ j₁ = j₂ + 1 ∧ j₂ < W - 1))
      (by intro a b h; simp [tv, bv, Prod.mk.injEq] at h; omega)
      (by
        simp only [tv, bv, Prod.mk.injEq, decide_eq_true_eq]
        constructor
        · rintro ⟨j, h⟩; omega
        · intro h; exact ⟨j₂, by omega⟩)]
  rw [count_slot1 (W - 1) (fun j => (tv (H - 1) (j + 1), bv (H - 1) j))
      ((l₁, i₁, j₁), (l₂, i₂, j₂))
      (decide (l₁ = 0 ∧ l₂ = 1 ∧ i₁ = H - 1 ∧ i₂ = H - 1 ∧ j₁ = j₂ + 1 ∧ j₂ < W - 1))
      (by intro a b h; simp [tv, bv, Prod.mk.injEq] at h; omega)
      (by
        simp only [tv, bv, Prod.mk.injEq, decide_eq_true_eq]
        constructor
        · rintro ⟨j, h⟩; omega
        · intro h; exact ⟨j₂, by omega⟩)]
  rw [count_slot1 (W - 1) (fun j => (bv (H - 1) j, bv (H - 1) (j + 1)))
      ((l₁, i₁, j₁), (l₂, i₂, j₂))
      (decide (l₁ = 1 ∧ l₂ = 1 ∧ i₁ = H - 1 ∧ i₂ = H - 1 ∧ j₂ = j₁ + 1 ∧ j₁ < W - 1))
      (by intro a b h; simp [tv, bv, Prod.mk.injEq] at h; omega)
      (by
        simp only [tv, bv, Prod.mk.injEq, decide_eq_true_eq]
        constructor
        · rintro ⟨j, h⟩; omega
        · intro h; exact ⟨j₁, by omega⟩)]
  rw [count_slot1 (W - 1) (fun j => (bv (H - 1) (j + 1), tv (H - 1) (j + 1)))
      ((l₁, i₁, j₁), (l₂, i₂, j₂))
      (decide (l₁ = 1 ∧ l₂ = 0 ∧ i₁ = H - 1 ∧ i₂ = H - 1 ∧ j₁ = j₂ ∧ 1 ≤ j₁ ∧ j₁ < W))
      (by intro a b h; simp [tv, bv, Prod.mk.injEq] at h; omega)
      (by
        simp only [tv, bv, Prod.mk.injEq, decide_eq_true_eq]
        constructor
        · rintro ⟨j, h⟩; omega
        · intro h; exact ⟨j₁ - 1, by omega⟩)]

theorem count_gridDirEdges (W H l₁ i₁ j₁ l₂ i₂ j₂ : ℕ) (hW : 2 ≤ W) (hH : 2 ≤ H) :
    ((dirEdges (gridFaces W H)).count ((l₁, i₁, j₁), (l₂, i₂, j₂)))
      = if isEdgeB1 W H l₁ i₁ j₁ l₂ i₂ j₂ = true then 1 else 0 := by
  unfold gridFaces
  rw [dirEdges_append, dirEdges_append, dirEdges_append,
    List.count_append, List.count_append, List.count_append,
    count_topChunk1 W H l₁ i₁ j₁ l₂ i₂ j₂, count_botChunk1 W H l₁ i₁ j₁ l₂ i₂ j₂, count_nsChunk1 W H l₁ i₁ j₁ l₂ i₂ j₂, count_weChunk1 W H l₁ i₁ j₁ l₂ i₂ j₂]
  iterate 35 rw [indicator_bool_or (by
    rintro ⟨ha, hb⟩
    simp only [Bool.or_eq_true, decide_eq_true_eq] at ha hb
    omega)]

theorem count_gridDirEdges2 (W H l₁ i₁ j₁ l₂ i₂ j₂ : ℕ) (hW : 2 ≤ W) (hH : 2 ≤ H) :
    ((dirEdges (gridFaces2 W H)).count ((l₁, i₁, j₁), (l₂, i₂, j₂)))
      = if isEdgeB2 W H l₁ i₁ j₁ l₂ i₂ j₂ = true then 1 else 0 := by
  unfold gridFaces2
  rw [dirEdges_append, dirEdges_append, dirEdges_append, dirEdges_append,
    dirEdges_append, List.count_append, List.count_append, List.count_append,
    List.count_append, List.count_append,
    count_topChunk2 W H l₁ i₁ j₁ l₂ i₂ j₂, count_botChunk2 W H l₁ i₁ j₁ l₂ i₂ j₂, count_leftChunk2 W H l₁ i₁ j₁ l₂ i₂ j₂, count_rightChunk2 W H l₁ i₁ j₁ l₂ i₂ j₂,
    count_northChunk2 W H l₁ i₁ j₁ l₂ i₂ j₂, count_southChunk2 W H l₁ i₁ j₁ l₂ i₂ j₂]
  iterate 35 rw [indicator_bool_or (by
    rintro ⟨ha, hb⟩
    simp only [Bool.or_eq_true, decide_eq_true_eq] at ha hb
    omega)]

set_option maxHeartbeats 1600000 in
theorem isEdgeB1_swap (W H l₁ i₁ j₁ l₂ i₂ j₂ : ℕ) (hW : 2 ≤ W) (hH : 2 ≤ H)
    (h : isEdgeB1 W H l₁ i₁ j₁ l₂ i₂ j₂ = true) :
    isEdgeB1 W H l₂ i₂ j₂ l₁ i₁ j₁ = true := by
  simp only [isEdgeB1, Bool.or_eq_true, decide_eq_true_eq] at h ⊢
  rcases h with ((((((((h | h) | h) | h) | h) | h) | (((((h | h) | h) | h) | h) | h)) | (((((((((((h | h) | h) | h) | h) | h) | h) | h) | h) | h) | h) | h)) | (((((((((((h | h) | h) | h) | h) | h) | h) | h) | h) | h) | h) | h))
  · have hx : (l₂ = 0 ∧ l₁ = 0 ∧ i₂ = i₁ + 1 ∧ j₂ = j₁ ∧ i₁ < H - 1 ∧ 1 ≤ j₂ ∧ j₂ < W) ∨ (l₂ = 0 ∧ l₁ = 0 ∧ j₂ = 0 ∧ j₁ = 0 ∧ i₂ = i₁ + 1 ∧ i₁ < H - 1) := by omega
    rcases hx with hx | hx
    · exact Or.inl (Or.inl (Or.inl (Or.inl (Or.inr (hx)))))
    · exact Or.inr (Or.inl (Or.inl (Or.inl (Or.inl (Or.inl (Or.inl (Or.inr (hx))))))))
  · have hx : (l₂ = 0 ∧ l₁ = 0 ∧ i₂ = i₁ ∧ j₂ = j₁ + 1 ∧ i₂ < H - 1 ∧ j₁ < W - 1) ∨ (l₂ = 0 ∧ l₁ = 0 ∧ i₂ = H - 1 ∧ i₁ = H - 1 ∧ j₂ = j₁ + 1 ∧ j₁ < W - 1) := by omega
    rcases hx with hx | hx
    · exact Or.inl (Or.inl (Or.inl (Or.inr (hx))))
    · exact Or.inl (Or.inr (Or.inr (hx)))
  · exact Or.inl (Or.inl (Or.inl (Or.inl (Or.inl (Or.inr (by omega))))))
  · exact Or.inl (Or.inl (Or.inl (Or.inl (Or.inl (Or.inl (Or.inr (by omega)))))))
  · have hx : (l₂ = 0 ∧ l₁ = 0 ∧ i₁ = i₂ + 1 ∧ j₁ = j₂ ∧ i₂ < H - 1 ∧ j₂ < W - 1) ∨ (l₂ = 0 ∧ l₁ = 0 ∧ j₂ = W - 1 ∧ j₁ = W - 1 ∧ i₁ = i₂ + 1 ∧ i₂ < H - 1) := by omega
    rcases hx with hx | hx
    · exact Or.inl (Or.inl (Or.inl (Or.inl (Or.inl (Or.inl (Or.inl (Or.inl (hx))))))))
    · exact Or.inr (Or.inl (Or.inl (Or.inl (Or.inl (Or.inl (Or.inr (hx)))))))
  · have hx : (l₂ = 0 ∧ l₁ = 0 ∧ i₁ = i₂ ∧ j₁ = j₂ + 1 ∧ 1 ≤ i₂ ∧ i₂ < H ∧ j₂ < W - 1) ∨ (l₂ = 0 ∧ l₁ = 0 ∧ i₂ = 0 ∧ i₁ = 0 ∧ j₁ = j₂ + 1 ∧ j₂ < W - 1) := by omega
    rcases hx with hx | hx
    · exact Or.inl (Or.inl (Or.inl (Or.inl (Or.inl (Or.inl (Or.inl (Or.inr (hx))))))))
    · exact Or.inl (Or.inr (Or.inl (Or.inl (Or.inl (Or.inl (Or.inl (Or.inl (Or.inl (Or.inl (Or.inl (Or.inl (Or.inl (hx)))))))))))))
  · have hx : (l₂ = 1 ∧ l₁ = 1 ∧ i₂ = i₁ ∧ j₂ = j₁ + 1 ∧ 1 ≤ i₂ ∧ i₂ < H ∧ j₁ < W - 1) ∨ (l₂ = 1 ∧ l₁ = 1 ∧ i₂ = 0 ∧ i₁ = 0 ∧ j₂ = j₁ + 1 ∧ j₁ < W - 1) := by omega
    rcases hx with hx | hx
    · exact Or.inl (Or.inl (Or.inr (Or.inl (Or.inr (hx)))))
    · exact Or.inl (Or.inr (Or.inl (Or.inl (Or.inl (Or.inl (Or.inl (Or.inl (Or.inl (Or.inr (hx))))))))))
  · have hx : (l₂ = 1 ∧ l₁ = 1 ∧ i₂ = i₁ + 1 ∧ j₂ = j₁ ∧ i₁ < H - 1 ∧ j₂ < W - 1) ∨ (l₂ = 1 ∧ l₁ = 1 ∧ j₂ = W - 1 ∧ j₁ = W - 1 ∧ i₂ = i₁ + 1 ∧ i₁ < H - 1) := by omega
    rcases hx with hx | hx
    · exact Or.inl (Or.inl (Or.inr (Or.inr (hx))))
    · exact Or.inr (Or.inl (Or.inr (hx)))
  · exact Or.inl (Or.inl (Or.inr (Or.inl (Or.inl (Or.inr (by omega))))))
  · exact Or.inl (Or.inl (Or.inr (Or.inl (Or.inl (Or.inl (Or.inr (by omega)))))))
  · have hx : (l₂ = 1 ∧ l₁ = 1 ∧ i₁ = i₂ ∧ j₁ = j₂ + 1 ∧ i₂ < H - 1 ∧ j₂ < W - 1) ∨ (l₂ = 1 ∧ l₁ = 1 ∧ i₂ = H - 1 ∧ i₁ = H - 1 ∧ j₁ = j₂ + 1 ∧ j₂ < W - 1) := by omega
    rcases hx with hx | hx
    · exact Or.inl (Or.inl (Or.inr (Or.inl (Or.inl (Or.inl (Or.inl (Or.inl (hx))))))))
    · exact Or.inl (Or.inr (Or.inl (Or.inl (Or.inl (Or.inl (Or.inr (hx)))))))
  · have hx : (l₂ = 1 ∧ l₁ = 1 ∧ i₁ = i₂ + 1 ∧ j₁ = j₂ ∧ i₂ < H - 1 ∧ 1 ≤ j₂ ∧ j₂ < W) ∨ (l₂ = 1 ∧ l₁ = 1 ∧ j₂ = 0 ∧ j₁ = 0 ∧ i₁ = i₂ + 1 ∧ i₂ < H - 1) := by omega
    rcases hx with hx | hx
    · exact Or.inl (Or.inl (Or.inr (Or.inl (Or.inl (Or.inl (Or.inl (Or.inr (hx))))))))
    · exact Or.inr (Or.inl (Or.inl (Or.inl (Or.inl (Or.inl (Or.inl (Or.inl (Or.inl (Or.inl (Or.inl (Or.inr (hx))))))))))))
  · exact Or.inl (Or.inl (Or.inl (Or.inr (by omega))))
  · have hx : (l₂ = 1 ∧ l₁ = 0 ∧ i₂ = 0 ∧ i₁ = 0 ∧ j₂ = j₁ ∧ j₂ < W - 1) ∨ (l₂ = 1 ∧ l₁ = 0 ∧ j₂ = W - 1 ∧ j₁ = W - 1 ∧ i₂ = i₁ ∧ i₂ < H - 1) := by omega
    rcases hx with hx | hx
    · exact Or.inl (Or.inr (Or.inl (Or.inl (Or.inl (Or.inl (Or.inl (Or.inl (Or.inr (hx)))))))))
    · exact Or.inr (Or.inr (hx))
  · exact Or.inl (Or.inr (Or.inl (Or.inl (Or.inl (Or.inl (Or.inl (Or.inl (Or.inl (Or.inl (Or.inr (by omega)))))))))))
  · exact Or.inl (Or.inr (Or.inl (Or.inl (Or.inl (Or.inl (Or.inl (Or.inl (Or.inl (Or.inl (Or.inl (Or.inr (by omega))))))))))))
  · exact Or.inl (Or.inl (Or.inr (Or.inl (Or.inl (Or.inl (Or.inl (Or.inl (by omega))))))))
  · have hx : (l₂ = 0 ∧ l₁ = 1 ∧ i₂ = 0 ∧ i₁ = 0 ∧ j₁ = j₂ ∧ 1 ≤ j₂ ∧ j₂ < W) ∨ (l₂ = 0 ∧ l₁ = 1 ∧ j₂ = 0 ∧ j₁ = 0 ∧ i₂ = i₁ ∧ i₂ < H - 1) := by omega
    rcases hx with hx | hx
    · exact Or.inl (Or.inr (Or.inl (Or.inl (Or.inl (Or.inl (Or.inl (Or.inl (Or.inl (Or.inl (Or.inl (Or.inl (Or.inr (hx)))))))))))))
    · exact Or.inr (Or.inl (Or.inl (Or.inl (Or.inl (Or.inl (Or.inl (Or.inl (Or.inl (Or.inl (Or.inl (Or.inl (hx))))))))))))
  · have hx : (l₂ = 1 ∧ l₁ = 0 ∧ i₂ = H - 1 ∧ i₁ = H - 1 ∧ j₂ = j₁ ∧ 1 ≤ j₂ ∧ j₂ < W) ∨ (l₂ = 1 ∧ l₁ = 0 ∧ j₂ = 0 ∧ j₁ = 0 ∧ i₂ = i₁ ∧ 1 ≤ i₂ ∧ i₂ < H) := by omega
    rcases hx with hx | hx
    · exact Or.inl (Or.inr (Or.inl (Or.inr (hx))))
    · exact Or.inr (Or.inl (Or.inl (Or.inl (Or.inl (Or.inl (Or.inl (Or.inl (Or.inr (hx)))))))))
  · exact Or.inl (Or.inl (Or.inr (Or.inl (Or.inr (by omega)))))
  · exact Or.inl (Or.inr (Or.inl (Or.inl (Or.inr (by omega)))))
  · exact Or.inl (Or.inr (Or.inl (Or.inl (Or.inl (Or.inr (by omega))))))
  · have hx : (l₂ = 0 ∧ l₁ = 1 ∧ i₂ = H - 1 ∧ i₁ = H - 1 ∧ j₂ = j₁ ∧ j₂ < W - 1) ∨ (l₂ = 0 ∧ l₁ = 1 ∧ j₂ = W - 1 ∧ j₁ = W - 1 ∧ i₂ = i₁ ∧ 1 ≤ i₂ ∧ i₂ < H) := by omega
    rcases hx with hx | hx
    · exact Or.inl (Or.inr (Or.inl (Or.inl (Or.inl (Or.inl (Or.inl (Or.inr (hx))))))))
    · exact Or.inr (Or.inl (Or.inl (Or.inl (Or.inl (Or.inr (hx))))))
  · exact Or.inl (Or.inl (Or.inl (Or.inl (Or.inl (Or.inl (Or.inl (Or.inr (by omega))))))))
  · have hx : (l₂ = 1 ∧ l₁ = 0 ∧ i₂ = 0 ∧ i₁ = 0 ∧ j₂ = j₁ ∧ j₂ < W - 1) ∨ (l₂ = 1 ∧ l₁ = 0 ∧ j₂ = 0 ∧ j₁ = 0 ∧ i₂ = i₁ ∧ 1 ≤ i₂ ∧ i₂ < H) := by omega
    rcases hx with hx | hx
    · exact Or.inl (Or.inr (Or.inl (Or.inl (Or.inl (Or.inl (Or.inl (Or.inl (Or.inr (hx)))))))))
    · exact Or.inr (Or.inl (Or.inl (Or.inl (Or.inl (Or.inl (Or.inl (Or.inl (Or.inr (hx)))))))))
  · exact Or.inl (Or.inl (Or.inr (Or.inr (by omega))))
  · exact Or.inr (Or.inl (Or.inl (Or.inl (Or.inl (Or.inl (Or.inl (Or.inl (Or.inl (Or.inr (by omega))))))))))
  · exact Or.inr (Or.inl (Or.inl (Or.inl (Or.inl (Or.inl (Or.inl (Or.inl (Or.inl (Or.inl (Or.inr (by omega)))))))))))
  · have hx : (l₂ = 0 ∧ l₁ = 1 ∧ i₂ = H - 1 ∧ i₁ = H - 1 ∧ j₂ = j₁ ∧ j₂ < W - 1) ∨ (l₂ = 0 ∧ l₁ = 1 ∧ j₂ = 0 ∧ j₁ = 0 ∧ i₂ = i₁ ∧ i₂ < H - 1) := by omega
    rcases hx with hx | hx
    · exact Or.inl (Or.inr (Or.inl (Or.inl (Or.inl (Or.inl (Or.inl (Or.inr (hx))))))))
    · exact Or.inr (Or.inl (Or.inl (Or.inl (Or.inl (Or.inl (Or.inl (Or.inl (Or.inl (Or.inl (Or.inl (Or.inl (hx))))))))))))
  · exact Or.inl (Or.inl (Or.inl (Or.inl (Or.inl (Or.inl (Or.inl (Or.inl (by omega))))))))
  · exact Or.inl (Or.inl (Or.inl (Or.inl (Or.inr (by omega)))))
  · have hx : (l₂ = 1 ∧ l₁ = 0 ∧ i₂ = H - 1 ∧ i₁ = H - 1 ∧ j₂ = j₁ ∧ 1 ≤ j₂ ∧ j₂ < W) ∨ (l₂ = 1 ∧ l₁ = 0 ∧ j₂ = W - 1 ∧ j₁ = W - 1 ∧ i₂ = i₁ ∧ i₂ < H - 1) := by omega
    rcases hx with hx | hx
    · exact Or.inl (Or.inr (Or.inl (Or.inr (hx))))
    · exact Or.inr (Or.inr (hx))
  · exact Or.inr (Or.inl (Or.inl (Or.inr (by omega))))
  · exact Or.inr (Or.inl (Or.inl (Or.inl (Or.inr (by omega)))))
  · exact Or.inl (Or.inl (Or.inr (Or.inl (Or.inl (Or.inl (Or.inl (Or.inr (by omega))))))))
  · have hx : (l₂ = 0 ∧ l₁ = 1 ∧ i₂ = 0 ∧ i₁ = 0 ∧ j₁ = j₂ ∧ 1 ≤ j₂ ∧ j₂ < W) ∨ (l₂ = 0 ∧ l₁ = 1 ∧ j₂ = W - 1 ∧ j₁ = W - 1 ∧ i₂ = i₁ ∧ 1 ≤ i₂ ∧ i₂ < H) := by omega
    rcases hx with hx | hx
    · exact Or.inl (Or.inr (Or.inl (Or.inl (Or.inl (Or.inl (Or.inl (Or.inl (Or.inl (Or.inl (Or.inl (Or.inl (Or.inr (hx)))))))))))))
    · exact Or.inr (Or.inl (Or.inl (Or.inl (Or.inl (Or.inr (hx))))))

theorem isEdgeB1_ne (W H l i j : ℕ)
    (h : isEdgeB1 W H l i j l i j = true) : False := by
  simp only [isEdgeB1, Bool.or_eq_true, decide_eq_true_eq] at h
  omega

theorem isEdgeB1_bounds (W H l₁ i₁ j₁ l₂ i₂ j₂ : ℕ) (hW : 2 ≤ W) (hH : 2 ≤ H)
    (h : isEdgeB1 W H l₁ i₁ j₁ l₂ i₂ j₂ = true) :
    l₁ ≤ 1 ∧ i₁ < H ∧ j₁ < W ∧ l₂ ≤ 1 ∧ i₂ < H ∧ j₂ < W := by
  simp only [isEdgeB1, Bool.or_eq_true, decide_eq_true_eq] at h
  omega

set_option maxHeartbeats 1600000 in
theorem isEdgeB2_swap (W H l₁ i₁ j₁ l₂ i₂ j₂ : ℕ) (hW : 2 ≤ W) (hH : 2 ≤ H)
    (h : isEdgeB2 W H l₁ i₁ j₁ l₂ i₂ j₂ = true) :
    isEdgeB2 W H l₂ i₂ j₂ l₁ i₁ j₁ = true := by
  simp only [isEdgeB2, Bool.or_eq_true, decide_eq_true_eq] at h ⊢
  rcases h with ((((((((((h | h) | h) | h) | h) | h) | (((((h | h) | h) | h) | h) | h)) | (((((h | h) | h) | h) | h) | h)) | (((((h | h) | h) | h) | h) | h)) | (((((h | h) | h) | h) | h) | h)) | (((((h | h) | h) | h) | h) | h))
  · have hx : (l₂ = 0 ∧ l₁ = 0 ∧ i₂ = i₁ + 1 ∧ j₂ = j₁ ∧ i₁ < H - 1 ∧ 1 ≤ j₂ ∧ j₂ < W) ∨ (l₂ = 0 ∧ l₁ = 0 ∧ j₂ = 0 ∧ j₁ = 0 ∧ i₂ = i₁ + 1 ∧ i₁ < H - 1) := by omega
    rcases hx with hx | hx
    · exact Or.inl (Or.inl (Or.inl (Or.inl (Or.inl (Or.inr (hx))))))
    · exact Or.inl (Or.inl (Or.inl (Or.inr (Or.inl (Or.inl (Or.inl (Or.inr (hx))))))))
  · exact Or.inl (Or.inl (Or.inl (Or.inl (Or.inl (Or.inl (Or.inl (Or.inr (by omega))))))))
  · have hx : (l₂ = 0 ∧ l₁ = 0 ∧ i₂ = i₁ ∧ 1 ≤ i₂ ∧ i₂ < H ∧ j₁ = j₂ + 1 ∧ j₂ < W - 1) ∨ (l₂ = 0 ∧ l₁ = 0 ∧ i₂ = 0 ∧ i₁ = 0 ∧ j₁ = j₂ + 1 ∧ j₂ < W - 1) := by omega
    rcases hx with hx | hx
    · exact Or.inl (Or.inl (Or.inl (Or.inl (Or.inl (Or.inl (Or.inr (hx)))))))
    · exact Or.inl (Or.inr (Or.inl (Or.inl (Or.inl (Or.inl (Or.inl (hx)))))))
  · exact Or.inl (Or.inl (Or.inl (Or.inl (Or.inl (Or.inl (Or.inl (Or.inl (Or.inl (Or.inr (by omega))))))))))
  · have hx : (l₂ = 0 ∧ l₁ = 0 ∧ i₂ = i₁ ∧ j₂ = j₁ + 1 ∧ i₂ < H - 1 ∧ j₁ < W - 1) ∨ (l₂ = 0 ∧ l₁ = 0 ∧ i₂ = H - 1 ∧ i₁ = H - 1 ∧ j₂ = j₁ + 1 ∧ j₁ < W - 1) := by omega
    rcases hx with hx | hx
    · exact Or.inl (Or.inl (Or.inl (Or.inl (Or.inl (Or.inl (Or.inl (Or.inl (Or.inr (hx)))))))))
    · exact Or.inr (Or.inl (Or.inl (Or.inl (Or.inr (hx)))))
  · have hx : (l₂ = 0 ∧ l₁ = 0 ∧ i₁ = i₂ + 1 ∧ j₁ = j₂ ∧ i₂ < H - 1 ∧ j₂ < W - 1) ∨ (l₂ = 0 ∧ l₁ = 0 ∧ j₂ = W - 1 ∧ j₁ = W - 1 ∧ i₁ = i₂ + 1 ∧ i₂ < H - 1) := by omega
    rcases hx with hx | hx
    · exact Or.inl (Or.inl (Or.inl (Or.inl (Or.inl (Or.inl (Or.inl (Or.inl (Or.inl (Or.inl (hx))))))))))
    · exact Or.inl (Or.inl (Or.inr (Or.inl (Or.inl (Or.inl (Or.inl (Or.inl (hx))))))))
  · have hx : (l₂ = 1 ∧ l₁ = 1 ∧ i₂ = i₁ ∧ 1 ≤ i₂ ∧ i₂ < H ∧ j₂ = j₁ + 1 ∧ j₁ < W - 1) ∨ (l₂ = 1 ∧ l₁ = 1 ∧ i₂ = 0 ∧ i₁ = 0 ∧ j₂ = j₁ + 1 ∧ j₁ < W - 1) := by omega
    rcases hx with hx | hx
    · exact Or.inl (Or.inl (Or.inl (Or.inl (Or.inr (Or.inl (Or.inr (hx)))))))
    · exact Or.inl (Or.inr (Or.inl (Or.inr (hx))))
  · exact Or.inl (Or.inl (Or.inl (Or.inl (Or.inr (Or.inr (by omega))))))
  · have hx : (l₂ = 1 ∧ l₁ = 1 ∧ i₁ = i₂ + 1 ∧ j₂ = j₁ ∧ i₂ < H - 1 ∧ 1 ≤ j₂ ∧ j₂ < W) ∨ (l₂ = 1 ∧ l₁ = 1 ∧ j₂ = 0 ∧ j₁ = 0 ∧ i₁ = i₂ + 1 ∧ i₂ < H - 1) := by omega
    rcases hx with hx | hx
    · exact Or.inl (Or.inl (Or.inl (Or.inl (Or.inr (Or.inl (Or.inl (Or.inr (hx))))))))
    · exact Or.inl (Or.inl (Or.inl (Or.inr (Or.inl (Or.inr (hx))))))
  · have hx : (l₂ = 1 ∧ l₁ = 1 ∧ i₂ = i₁ + 1 ∧ j₂ = j₁ ∧ i₁ < H - 1 ∧ j₂ < W - 1) ∨ (l₂ = 1 ∧ l₁ = 1 ∧ j₂ = W - 1 ∧ j₁ = W - 1 ∧ i₂ = i₁ + 1 ∧ i₁ < H - 1) := by omega
    rcases hx with hx | hx
    · exact Or.inl (Or.inl (Or.inl (Or.inl (Or.inr (Or.inl (Or.inl (Or.inl (Or.inr (hx)))))))))
    · exact Or.inl (Or.inl (Or.inr (Or.inl (Or.inr (hx)))))
  · have hx : (l₂ = 1 ∧ l₁ = 1 ∧ i₂ = i₁ ∧ j₁ = j₂ + 1 ∧ i₂ < H - 1 ∧ j₂ < W - 1) ∨ (l₂ = 1 ∧ l₁ = 1 ∧ i₂ = H - 1 ∧ i₁ = H - 1 ∧ j₁ = j₂ + 1 ∧ j₂ < W - 1) := by omega
    rcases hx with hx | hx
    · exact Or.inl (Or.inl (Or.inl (Or.inl (Or.inr (Or.inl (Or.inl (Or.inl (Or.inl (Or.inl (hx))))))))))
    · exact Or.inr (Or.inl (Or.inr (hx)))
  · exact Or.inl (Or.inl (Or.inl (Or.inl (Or.inr (Or.inl (Or.inl (Or.inl (Or.inl (Or.inr (by omega))))))))))
  · have hx : (l₂ = 1 ∧ l₁ = 0 ∧ j₂ = 0 ∧ j₁ = 0 ∧ i₂ = i₁ ∧ 1 ≤ i₂ ∧ i₂ < H) ∨ (l₂ = 1 ∧ l₁ = 0 ∧ i₂ = 0 ∧ i₁ = 0 ∧ j₂ = j₁ ∧ j₂ < W - 1) := by omega
    rcases hx with hx | hx
    · exact Or.inl (Or.inl (Or.inl (Or.inr (Or.inr (hx)))))
    · exact Or.inl (Or.inr (Or.inl (Or.inl (Or.inl (Or.inr (hx))))))
  · exact Or.inl (Or.inl (Or.inl (Or.inr (Or.inl (Or.inl (Or.inr (by omega)))))))
  · exact Or.inl (Or.inl (Or.inl (Or.inl (Or.inl (Or.inl (Or.inl (Or.inl (Or.inl (Or.inl (by omega))))))))))
  · exact Or.inl (Or.inl (Or.inl (Or.inr (Or.inl (Or.inl (Or.inl (Or.inl (Or.inr (by omega)))))))))
  · exact Or.inl (Or.inl (Or.inl (Or.inl (Or.inr (Or.inl (Or.inl (Or.inl (Or.inr (by omega)))))))))
  · have hx : (l₂ = 0 ∧ l₁ = 1 ∧ j₂ = 0 ∧ j₁ = 0 ∧ i₂ = i₁ ∧ i₂ < H - 1) ∨ (l₂ = 0 ∧ l₁ = 1 ∧ i₂ = H - 1 ∧ i₁ = H - 1 ∧ j₂ = j₁ ∧ j₂ < W - 1) := by omega
    rcases hx with hx | hx
    · exact Or.inl (Or.inl (Or.inl (Or.inr (Or.inl (Or.inl (Or.inl (Or.inl (Or.inl (hx)))))))))
    · exact Or.inr (Or.inl (Or.inl (Or.inl (Or.inl (Or.inl (hx))))))
  · exact Or.inl (Or.inl (Or.inl (Or.inl (Or.inl (Or.inr (by omega))))))
  · exact Or.inl (Or.inl (Or.inr (Or.inr (by omega))))
  · have hx : (l₂ = 0 ∧ l₁ = 1 ∧ j₂ = W - 1 ∧ j₁ = W - 1 ∧ i₂ = i₁ ∧ 1 ≤ i₂ ∧ i₂ < H) ∨ (l₂ = 0 ∧ l₁ = 1 ∧ i₂ = 0 ∧ i₁ = 0 ∧ j₂ = j₁ ∧ 1 ≤ j₂ ∧ j₂ < W) := by omega
    rcases hx with hx | hx
    · exact Or.inl (Or.inl (Or.inr (Or.inl (Or.inl (Or.inr (hx))))))
    · exact Or.inl (Or.inr (Or.inl (Or.inl (Or.inr (hx)))))
  · have hx : (l₂ = 1 ∧ l₁ = 0 ∧ j₂ = W - 1 ∧ j₁ = W - 1 ∧ i₂ = i₁ ∧ i₂ < H - 1) ∨ (l₂ = 1 ∧ l₁ = 0 ∧ i₂ = H - 1 ∧ i₁ = H - 1 ∧ j₂ = j₁ ∧ 1 ≤ j₂ ∧ j₂ < W) := by omega
    rcases hx with hx | hx
    · exact Or.inl (Or.inl (Or.inr (Or.inl (Or.inl (Or.inl (Or.inr (hx)))))))
    · exact Or.inr (Or.inr (hx))
  · exact Or.inl (Or.inl (Or.inl (Or.inl (Or.inr (Or.inl (Or.inl (Or.inr (by omega))))))))
  · exact Or.inl (Or.inl (Or.inr (Or.inl (Or.inl (Or.inl (Or.inl (Or.inr (by omega))))))))
  · exact Or.inl (Or.inl (Or.inl (Or.inl (Or.inl (Or.inl (Or.inl (Or.inl (Or.inr (by omega)))))))))
  · exact Or.inl (Or.inr (Or.inr (by omega)))
  · have hx : (l₂ = 0 ∧ l₁ = 1 ∧ j₂ = 0 ∧ j₁ = 0 ∧ i₂ = i₁ ∧ i₂ < H - 1) ∨ (l₂ = 0 ∧ l₁ = 1 ∧ i₂ = 0 ∧ i₁ = 0 ∧ j₂ = j₁ ∧ 1 ≤ j₂ ∧ j₂ < W) := by omega
    rcases hx with hx | hx
    · exact Or.inl (Or.inl (Or.inl (Or.inr (Or.inl (Or.inl (Or.inl (Or.inl (Or.inl (hx)))))))))
    · exact Or.inl (Or.inr (Or.inl (Or.inl (Or.inr (hx)))))
  · have hx : (l₂ = 1 ∧ l₁ = 0 ∧ j₂ = W - 1 ∧ j₁ = W - 1 ∧ i₂ = i₁ ∧ i₂ < H - 1) ∨ (l₂ = 1 ∧ l₁ = 0 ∧ i₂ = 0 ∧ i₁ = 0 ∧ j₂ = j₁ ∧ j₂ < W - 1) := by omega
    rcases hx with hx | hx
    · exact Or.inl (Or.inl (Or.inr (Or.inl (Or.inl (Or.inl (Or.inr (hx)))))))
    · exact Or.inl (Or.inr (Or.inl (Or.inl (Or.inl (Or.inr (hx))))))
  · exact Or.inl (Or.inl (Or.inl (Or.inl (Or.inr (Or.inl (Or.inl (Or.inl (Or.inl (Or.inl (by omega))))))))))
  · exact Or.inl (Or.inr (Or.inl (Or.inl (Or.inl (Or.inl (Or.inr (by omega)))))))
  · have hx : (l₂ = 1 ∧ l₁ = 0 ∧ j₂ = 0 ∧ j₁ = 0 ∧ i₂ = i₁ ∧ 1 ≤ i₂ ∧ i₂ < H) ∨ (l₂ = 1 ∧ l₁ = 0 ∧ i₂ = H - 1 ∧ i₁ = H - 1 ∧ j₂ = j₁ ∧ 1 ≤ j₂ ∧ j₂ < W) := by omega
    rcases hx with hx | hx
    · exact Or.inl (Or.inl (Or.inl (Or.inr (Or.inr (hx)))))
    · exact Or.inr (Or.inr (hx))
  · exact Or.inr (Or.inl (Or.inl (Or.inr (by omega))))
  · exact Or.inl (Or.inl (Or.inl (Or.inl (Or.inl (Or.inl (Or.inr (by omega)))))))
  · exact Or.inr (Or.inl (Or.inl (Or.inl (Or.inl (Or.inr (by omega))))))
  · exact Or.inl (Or.inl (Or.inl (Or.inl (Or.inr (Or.inl (Or.inr (by omega)))))))
  · have hx : (l₂ = 0 ∧ l₁ = 1 ∧ j₂ = W - 1 ∧ j₁ = W - 1 ∧ i₂ = i₁ ∧ 1 ≤ i₂ ∧ i₂ < H) ∨ (l₂ = 0 ∧ l₁ = 1 ∧ i₂ = H - 1 ∧ i₁ = H - 1 ∧ j₂ = j₁ ∧ j₂ < W - 1) := by omega
    rcases hx with hx | hx
    · exact Or.inl (Or.inl (Or.inr (Or.inl (Or.inl (Or.inr (hx))))))
    · exact Or.inr (Or.inl (Or.inl (Or.inl (Or.inl (Or.inl (hx))))))

theorem isEdgeB2_ne (W H l i j : ℕ)
    (h : isEdgeB2 W H l i j l i j = true) : False := by
  simp only [isEdgeB2, Bool.or_eq_true, decide_eq_true_eq] at h
  omega

theorem isEdgeB2_bounds (W H l₁ i₁ j₁ l₂ i₂ j₂ : ℕ) (hW : 2 ≤ W) (hH : 2 ≤ H)
    (h : isEdgeB2 W H l₁ i₁ j₁ l₂ i₂ j₂ = true) :
    l₁ ≤ 1 ∧ i₁ < H ∧ j₁ < W ∧ l₂ ≤ 1 ∧ i₂ < H ∧ j₂ < W := by
  simp only [isEdgeB2, Bool.or_eq_true, decide_eq_true_eq] at h
  omega

/-! ## Vertex-encoding injectivity and count transfer -/

theorem idx_lt (W H i j : ℕ) (hi : i < H) (hj : j < W) : idx W i j < W * H := by
  unfold idx
  have h1 : (i + 1) * W ≤ H * W := Nat.mul_le_mul_right W hi
  have h2 : (i + 1) * W = i * W + W := by ring
  have h3 : W * H = H * W := Nat.mul_comm W H
  omega

theorem idx_inj (W i₁ j₁ i₂ j₂ : ℕ) (hj₁ : j₁ < W) (hj₂ : j₂ < W)
    (h : idx W i₁ j₁ = idx W i₂ j₂) : i₁ = i₂ ∧ j₁ = j₂ := by
  unfold idx at h
  rcases Nat.lt_trichotomy i₁ i₂ with hlt | heq | hgt
  · have h1 : (i₁ + 1) * W ≤ i₂ * W := Nat.mul_le_mul_right W hlt
    have h2 : (i₁ + 1) * W = i₁ * W + W := by ring
    omega
  · subst heq
    omega
  · have h1 : (i₂ + 1) * W ≤ i₁ * W := Nat.mul_le_mul_right W hgt
    have h2 : (i₂ + 1) * W = i₂ * W + W := by ring
    omega

theorem encV_inj (W H l₁ i₁ j₁ l₂ i₂ j₂ : ℕ)
    (hl₁ : l₁ ≤ 1) (hi₁ : i₁ < H) (hj₁ : j₁ < W)
    (hl₂ : l₂ ≤ 1) (hi₂ : i₂ < H) (hj₂ : j₂ < W)
    (h : encV W H (l₁, i₁, j₁) = encV W H (l₂, i₂, j₂)) :
    l₁ = l₂ ∧ i₁ = i₂ ∧ j₁ = j₂ := by
  simp only [encV] at h
  have hb₁ := idx_lt W H i₁ j₁ hi₁ hj₁
  have hb₂ := idx_lt W H i₂ j₂ hi₂ hj₂
  have hl : l₁ = l₂ := by
    rcases Nat.le_one_iff_eq_zero_or_eq_one.mp hl₁ with rfl | rfl <;>
      rcases Nat.le_one_iff_eq_zero_or_eq_one.mp hl₂ with rfl | rfl <;>
      simp only [Nat.zero_mul, Nat.one_mul, Nat.zero_add] at h <;> omega
  subst hl
  have hidx : idx W i₁ j₁ = idx W i₂ j₂ := by omega
  obtain ⟨h1, h2⟩ := idx_inj W i₁ j₁ i₂ j₂ hj₁ hj₂ hidx
  exact ⟨rfl, h1, h2⟩

theorem count_map_of_injOn {α β : Type} [BEq α] [LawfulBEq α] [BEq β] [LawfulBEq β]
    (f : α → β) (P : α → Prop) (a : α) (hP : P a)
    (hinj : ∀ x y, P x → P y → f x = f y → x = y) :
    ∀ l : List α, (∀ x ∈ l, P x) → (l.map f).count (f a) = l.count a := by
  intro l
  induction l with
  | nil => intro _; rfl
  | cons x xs ih =>
    intro hl
    simp only [List.map_cons, List.count_cons]
    rw [ih (fun y hy => hl y (List.mem_cons_of_mem x hy))]
    have hx : (f x == f a) = (x == a) := by
      by_cases hxa : x = a
      · subst hxa; simp
      · have hne : ¬ f x = f a := fun hf => hxa (hinj x a (hl x (List.mem_cons_self x xs)) hP hf)
        simp [hxa, hne]
    rw [hx]

theorem dirEdges_map_encF (W H : ℕ) (fs : List (GVert × GVert × GVert)) :
    dirEdges (fs.map (encF W H)) = (dirEdges fs).map (encE W H) := by
  simp [dirEdges, encF, encE, List.flatMap_map, List.map_flatMap, Function.comp_def]

theorem watertight_of_isEdge (W H : ℕ) (hW : 2 ≤ W) (hH : 2 ≤ H)
    (G : List (GVert × GVert × GVert)) (B : ℕ → ℕ → ℕ → ℕ → ℕ → ℕ → Bool)
    (hcount : ∀ l₁ i₁ j₁ l₂ i₂ j₂ : ℕ,
      (dirEdges G).count ((l₁, i₁, j₁), (l₂, i₂, j₂)) =
        if B l₁ i₁ j₁ l₂ i₂ j₂ = true then 1 else 0)
    (hswap : ∀ l₁ i₁ j₁ l₂ i₂ j₂, B l₁ i₁ j₁ l₂ i₂ j₂ = true → B l₂ i₂ j₂ l₁ i₁ j₁ = true)
    (hne : ∀ l i j, B l i j l i j = true → False)
    (hbounds : ∀ l₁ i₁ j₁ l₂ i₂ j₂, B l₁ i₁ j₁ l₂ i₂ j₂ = true →
      l₁ ≤ 1 ∧ i₁ < H ∧ j₁ < W ∧ l₂ ≤ 1 ∧ i₂ < H ∧ j₂ < W)
    (a b : ℕ) (hab : (a, b) ∈ dirEdges (G.map (encF W H))) :
    a ≠ b ∧ (dirEdges (G.map (encF W H))).count (a, b) = 1 ∧
      (dirEdges (G.map (encF W H))).count (b, a) = 1 := by
  have hBof : ∀ e : GVert × GVert, e ∈ dirEdges G →
      B e.1.1 e.1.2.1 e.1.2.2 e.2.1 e.2.2.1 e.2.2.2 = true := by
    rintro ⟨⟨l₁, i₁, j₁⟩, l₂, i₂, j₂⟩ he
    have hpos : 0 < (dirEdges G).count ((l₁, i₁, j₁), (l₂, i₂, j₂)) :=
      List.count_pos_iff.mpr he
    by_contra hf
    rw [Bool.not_eq_true] at hf
    rw [hcount] at hpos
    simp [hf] at hpos
  have hall : ∀ e : GVert × GVert, e ∈ dirEdges G →
      (e.1.1 ≤ 1 ∧ e.1.2.1 < H ∧ e.1.2.2 < W) ∧ (e.2.1 ≤ 1 ∧ e.2.2.1 < H ∧ e.2.2.2 < W) := by
    rintro ⟨⟨l₁, i₁, j₁⟩, l₂, i₂, j₂⟩ he
    have hb := hbounds l₁ i₁ j₁ l₂ i₂ j₂ (hBof _ he)
    exact ⟨⟨hb.1, hb.2.1, hb.2.2.1⟩, hb.2.2.2.1, hb.2.2.2.2.1, hb.2.2.2.2.2⟩
  have hinj : ∀ x y : GVert × GVert,
      ((x.1.1 ≤ 1 ∧ x.1.2.1 < H ∧ x.1.2.2 < W) ∧ (x.2.1 ≤ 1 ∧ x.2.2.1 < H ∧ x.2.2.2 < W)) →
      ((y.1.1 ≤ 1 ∧ y.1.2.1 < H ∧ y.1.2.2 < W) ∧ (y.2.1 ≤ 1 ∧ y.2.2.1 < H ∧ y.2.2.2 < W)) →
      encE W H x = encE W H y → x = y := by
    rintro ⟨⟨xl₁, xi₁, xj₁⟩, xl₂, xi₂, xj₂⟩ ⟨⟨yl₁, yi₁, yj₁⟩, yl₂, yi₂, yj₂⟩ hx hy hxy
    simp only [encE, Prod.mk.injEq] at hxy
    obtain ⟨h1, h2⟩ := hxy
    obtain ⟨e1, e2, e3⟩ := encV_inj W H xl₁ xi₁ xj₁ yl₁ yi₁ yj₁
      hx.1.1 hx.1.2.1 hx.1.2.2 hy.1.1 hy.1.2.1 hy.1.2.2 h1
    obtain ⟨e4, e5, e6⟩ := encV_inj W H xl₂ xi₂ xj₂ yl₂ yi₂ yj₂
      hx.2.1 hx.2.2.1 hx.2.2.2 hy.2.1 hy.2.2.1 hy.2.2.2 h2
    simp only [Prod.mk.injEq]
    exact ⟨⟨e1, e2, e3⟩, e4, e5, e6⟩
  rw [dirEdges_map_encF] at hab ⊢
  obtain ⟨e, he, heq⟩ := List.mem_map.mp hab
  obtain ⟨⟨l₁, i₁, j₁⟩, l₂, i₂, j₂⟩ := e
  have hB := hBof _ he
  have hbnd := hbounds l₁ i₁ j₁ l₂ i₂ j₂ hB
  simp only [encE, Prod.mk.injEq] at heq
  obtain ⟨ha, hb⟩ := heq
  subst ha
  subst hb
  refine ⟨?_, ?_, ?_⟩
  · intro hcontra
    obtain ⟨e1, e2, e3⟩ := encV_inj W H l₁ i₁ j₁ l₂ i₂ j₂
      hbnd.1 hbnd.2.1 hbnd.2.2.1 hbnd.2.2.2.1 hbnd.2.2.2.2.1 hbnd.2.2.2.2.2 hcontra
    subst e1
    subst e2
    subst e3
    exact hne l₁ i₁ j₁ hB
  · have hcm := count_map_of_injOn (encE W H) _ ((l₁, i₁, j₁), (l₂, i₂, j₂))
      ⟨⟨hbnd.1, hbnd.2.1, hbnd.2.2.1⟩, hbnd.2.2.2.1, hbnd.2.2.2.2.1, hbnd.2.2.2.2.2⟩
      hinj (dirEdges G) hall
    have hEe : encE W H ((l₁, i₁, j₁), (l₂, i₂, j₂))
        = (encV W H (l₁, i₁, j₁), encV W H (l₂, i₂, j₂)) := rfl
    rw [hEe] at hcm
    rw [hcm, hcount]
    simp [hB]
  · have hB2 := hswap l₁ i₁ j₁ l₂ i₂ j₂ hB
    have hcm := count_map_of_injOn (encE W H) _ ((l₂, i₂, j₂), (l₁, i₁, j₁))
      ⟨⟨hbnd.2.2.2.1, hbnd.2.2.2.2.1, hbnd.2.2.2.2.2⟩, hbnd.1, hbnd.2.1, hbnd.2.2.1⟩
      hinj (dirEdges G) hall
    have hEe : encE W H ((l₂, i₂, j₂), (l₁, i₁, j₁))
        = (encV W H (l₂, i₂, j₂), encV W H (l₁, i₁, j₁)) := rfl
    rw [hEe] at hcm
    rw [hcm, hcount]
    simp [hB2]

/-! ## Watertightness (claim C1) -/

/-- C1: for all grid dimensions `W, H ≥ 2`, the meshes built by
`image_to_stl_heightmap` (converters.py) and `create_heightmap_mesh`
(heightmap_to_stl.py) are watertight: every directed edge `(a, b)` of
the triangle list joins two distinct vertices, occurs in exactly one
triangle, and its reversal `(b, a)` also occurs in exactly one
triangle — i.e. every undirected edge lies in exactly two
oppositely-wound triangles.  This holds for every height assignment,
since the face lists do not depend on the height values. -/
theorem heightmap_mesh_watertight (W H : ℕ) (hW : 2 ≤ W) (hH : 2 ≤ H) :
    (∀ a b : ℕ, (a, b) ∈ dirEdges (heightmapFaces W H) →
      a ≠ b ∧ (dirEdges (heightmapFaces W H)).count (a, b) = 1 ∧
        (dirEdges (heightmapFaces W H)).count (b, a) = 1) ∧
    (∀ a b : ℕ, (a, b) ∈ dirEdges (createHeightmapFaces W H) →
      a ≠ b ∧ (dirEdges (createHeightmapFaces W H)).count (a, b) = 1 ∧
        (dirEdges (createHeightmapFaces W H)).count (b, a) = 1) := by
  constructor
  · intro a b hab
    rw [heightmapFaces_eq_map] at hab ⊢
    exact watertight_of_isEdge W H hW hH (gridFaces W H) (isEdgeB1 W H)
      (fun l₁ i₁ j₁ l₂ i₂ j₂ => count_gridDirEdges W H l₁ i₁ j₁ l₂ i₂ j₂ hW hH)
      (fun l₁ i₁ j₁ l₂ i₂ j₂ h => isEdgeB1_swap W H l₁ i₁ j₁ l₂ i₂ j₂ hW hH h)
      (fun l i j h => isEdgeB1_ne W H l i j h)
      (fun l₁ i₁ j₁ l₂ i₂ j₂ h => isEdgeB1_bounds W H l₁ i₁ j₁ l₂ i₂ j₂ hW hH h)
      a b hab
  · intro a b hab
    rw [createHeightmapFaces_eq_map] at hab ⊢
    exact watertight_of_isEdge W H hW hH (gridFaces2 W H) (isEdgeB2 W H)
      (fun l₁ i₁ j₁ l₂ i₂ j₂ => count_gridDirEdges2 W H l₁ i₁ j₁ l₂ i₂ j₂ hW hH)
      (fun l₁ i₁ j₁ l₂ i₂ j₂ h => isEdgeB2_swap W H l₁ i₁ j₁ l₂ i₂ j₂ hW hH h)
      (fun l i j h => isEdgeB2_ne W H l i j h)
      (fun l₁ i₁ j₁ l₂ i₂ j₂ h => isEdgeB2_bounds W H l₁ i₁ j₁ l₂ i₂ j₂ hW hH h)
      a b hab

/-- Witness for `heightmap_mesh_watertight` at `W = H = 2` and the
directed edge `(0, 2)` of the first builder's mesh. -/
theorem heightmap_mesh_watertight_witness :
    (0, 2) ∈ dirEdges (heightmapFaces 2 2) ∧
    (0 ≠ 2 ∧ (dirEdges (heightmapFaces 2 2)).count (0, 2) = 1 ∧
      (dirEdges (heightmapFaces 2 2)).count (2, 0) = 1) :=
  ⟨by decide,
   (heightmap_mesh_watertight 2 2 (by decide) (by decide)).1 0 2 (by decide)⟩

/-! ## Heightmap extruder geometry (claims C3, C4)

`image_to_stl_heightmap` (converters.py lines 277-341) loads a
grayscale raster (modelled as `img : ℕ → ℕ → ℕ` with intensities
`0-255` on a `H × W` grid), maps coordinates `x = j / 2 · scale`,
`y = i / 2 · scale` (the source's `pixels_per_mm = 2.0`), heights
`Z = img/255 · max_height + base`, and builds the grid solid with
`heightmapFaces`.  It performs no dimension check of any kind: the only
exception it can raise is `FileNotFoundError` for an unreadable path,
before any geometry is touched.  The subsequent in-place translations
(Y flip, centroid shift, drop to `Z = 0`) are rigid motions that leave
the vertical extent unchanged and are not modelled here. -/

/-- Vertex list built by `image_to_stl_heightmap` (converters.py lines
295-318): one top vertex per pixel at `Z = img/255·maxh + base`, then
one bottom vertex per pixel at `Z = 0`, both in row-major order. -/
def heightmapVertices (W H : ℕ) (img : ℕ → ℕ → ℕ) (maxh base scale : ℚ) :
    List (ℚ × ℚ × ℚ) :=
  ((List.range H).flatMap fun i : ℕ => (List.range W).map fun j : ℕ =>
    ((j : ℚ) / 2 * scale, (i : ℚ) / 2 * scale, (img i j : ℚ) / 255 * maxh + base))
  ++ ((List.range H).flatMap fun i : ℕ => (List.range W).map fun j : ℕ =>
    ((j : ℚ) / 2 * scale, (i : ℚ) / 2 * scale, 0))

/-- Mesh-construction stage of `image_to_stl_heightmap`: the source
builds the vertex and face lists unconditionally, with no resolution
or height-value validation, so the (string-error) failure channel is
never used. -/
def imageToStlHeightmap (W H : ℕ) (img : ℕ → ℕ → ℕ) (maxh base scale : ℚ) :
    Except String (List (ℚ × ℚ × ℚ) × List (ℕ × ℕ × ℕ)) :=
  Except.ok (heightmapVertices W H img maxh base scale, heightmapFaces W H)

/-- Z coordinates of a vertex list. -/
def zCoords (vs : List (ℚ × ℚ × ℚ)) : List ℚ := vs.map fun v => v.2.2

/-- Vertical extent (max Z minus min Z), trimesh
`bounds[1,2] - bounds[0,2]`. -/
def zExtent (vs : List (ℚ × ℚ × ℚ)) : ℚ := listMax (zCoords vs) - listMin (zCoords vs)

/-- Maximum intensity of the raster over the `H × W` grid. -/
def maxIntensity (W H : ℕ) (img : ℕ → ℕ → ℕ) : ℕ :=
  listMax ((List.range H).flatMap fun i => (List.range W).map fun j => img i j)

theorem flatMap_map_ne_nil {α : Type} (W H : ℕ) (hW : 1 ≤ W) (hH : 1 ≤ H)
    (g : ℕ → ℕ → α) :
    ((List.range H).flatMap fun i => (List.range W).map fun j => g i j) ≠ [] := by
  apply List.ne_nil_of_length_pos
  have hrep : (List.range H).map (fun _ => W) = List.replicate H W := by
    simp [List.map_const]
  simp only [List.length_flatMap, Function.comp_def, List.length_map,
    List.length_range, hrep, List.sum_replicate, smul_eq_mul]
  exact Nat.mul_pos hH hW

/-- Claim C3 counterexample: on a `2 × 1` raster (width 1 < 2) the
heightmap extruder does not fail with any error: it returns a mesh,
consisting of the four degenerate wall triangles of the single-column
grid. -/
theorem heightmap_no_resolution_check :
    (imageToStlHeightmap 1 2 (fun _ _ => 100) 10 2 1).isOk = true ∧
    (heightmapFaces 1 2).length = 4 := by
  constructor
  · rfl
  · rfl

/-- Claim C3 (amended): for a raster with width < 2 or height < 2 the
heightmap extruder does not fail; it returns a degenerate wall-only
mesh with `4·(W-1) + 4·(H-1)` triangles (and no top or bottom
surface). -/
theorem heightmap_small_raster_returns_mesh (W H : ℕ) (img : ℕ → ℕ → ℕ)
    (maxh base scale : ℚ) (h : W < 2 ∨ H < 2) :
    (imageToStlHeightmap W H img maxh base scale).isOk = true ∧
    (heightmapFaces W H).length = 4 * (W - 1) + 4 * (H - 1) := by
  refine ⟨rfl, ?_⟩
  have hlen : (heightmapFaces W H).length
      = 4 * (W - 1) * (H - 1) + 4 * (W - 1) + 4 * (H - 1) := by
    simp [heightmapFaces, List.length_flatMap, Function.comp_def]
    ring
  rw [hlen]
  rcases h with h | h
  · have hw : W - 1 = 0 := by omega
    rw [hw]
    ring_nf
  · have hh : H - 1 = 0 := by omega
    rw [hh]
    ring_nf

/-- Witness for `heightmap_small_raster_returns_mesh` on a `2 × 1`
raster. -/
theorem heightmap_small_raster_returns_mesh_witness :
    ((1 : ℕ) < 2 ∨ (2 : ℕ) < 2) ∧
    ((imageToStlHeightmap 1 2 (fun _ _ => 100) 10 2 1).isOk = true ∧
     (heightmapFaces 1 2).length = 4 * (1 - 1) + 4 * (2 - 1)) :=
  ⟨Or.inl (by decide),
   heightmap_small_raster_returns_mesh 1 2 (fun _ _ => 100) 10 2 1 (Or.inl (by decide))⟩

/-- Claim C4 counterexample: the 2×2 raster with intensities 0 and 51
is non-constant, yet with base 0 and max_height 5 the constructed mesh
has vertical extent `51/255·5 = 1`, not 5. -/
theorem heightmap_extent_counterexample :
    ((fun (_ j : ℕ) => if j = 0 then 0 else 51) 0 0
       ≠ (fun (_ j : ℕ) => if j = 0 then (0 : ℕ) else 51) 0 1) ∧
    zExtent (heightmapVertices 2 2 (fun _ j => if j = 0 then 0 else 51) 5 0 1) = 1 ∧
    (1 : ℚ) ≠ 5 := by
  refine ⟨by decide, ?_, by norm_num⟩
  norm_num [heightmapVertices, zExtent, zCoords, listMax, listMin,
    List.range_succ, max_def, min_def]

/-- Claim C4 (amended): with base_height 0 the vertical extent of the
constructed heightmap mesh equals `(max intensity)/255 · max_height`:
it is `max_height` exactly when the raster attains intensity 255, and
strictly smaller otherwise, whether or not the raster is constant. -/
theorem heightmap_extent_eq (W H : ℕ) (hW : 1 ≤ W) (hH : 1 ≤ H)
    (img : ℕ → ℕ → ℕ) (maxh scale : ℚ) (hmaxh : 0 ≤ maxh) :
    zExtent (heightmapVertices W H img maxh 0 scale)
      = (maxIntensity W H img : ℚ) / 255 * maxh := by
  have hz : zCoords (heightmapVertices W H img maxh 0 scale)
      = (((List.range H).flatMap fun i : ℕ => (List.range W).map fun j : ℕ =>
            ((img i j : ℚ) / 255 * maxh))
        ++ ((List.range H).flatMap fun i : ℕ => (List.range W).map fun j : ℕ =>
            (0 : ℚ))) := by
    simp [zCoords, heightmapVertices, List.map_flatMap, Function.comp_def]
  have htop : ((List.range H).flatMap fun i : ℕ => (List.range W).map fun j : ℕ =>
        ((img i j : ℚ) / 255 * maxh))
      = ((List.range H).flatMap fun i : ℕ => (List.range W).map fun j : ℕ =>
          img i j).map (fun t : ℕ => (t : ℚ) / 255 * maxh) := by
    simp [List.map_flatMap, List.map_map, Function.comp_def]
  have hne1 : ((List.range H).flatMap fun i : ℕ => (List.range W).map fun j : ℕ =>
      img i j) ≠ [] := flatMap_map_ne_nil W H hW hH _
  have hne2 : ((List.range H).flatMap fun i : ℕ => (List.range W).map fun j : ℕ =>
      (0 : ℚ)) ≠ [] := flatMap_map_ne_nil W H hW hH _
  have htopne : (((List.range H).flatMap fun i : ℕ => (List.range W).map fun j : ℕ =>
      img i j).map (fun t : ℕ => (t : ℚ) / 255 * maxh)) ≠ [] := by
    intro hc
    exact hne1 (List.map_eq_nil_iff.mp hc)
  have hallzero : ∀ x ∈ ((List.range H).flatMap fun i : ℕ =>
      (List.range W).map fun j : ℕ => (0 : ℚ)), x = 0 := by
    intro x hx
    simp only [List.mem_flatMap, List.mem_map] at hx
    obtain ⟨i, _, j, _, hxx⟩ := hx
    exact hxx.symm
  have hzeroMax : listMax ((List.range H).flatMap fun i : ℕ =>
      (List.range W).map fun j : ℕ => (0 : ℚ)) = 0 :=
    hallzero _ (listMax_mem hne2)
  have hzeroMin : listMin ((List.range H).flatMap fun i : ℕ =>
      (List.range W).map fun j : ℕ => (0 : ℚ)) = 0 :=
    hallzero _ (listMin_mem hne2)
  have hdivmul : ∀ x : ℚ, x / 255 * maxh = x * (maxh / 255) := fun x => by ring
  have hc255 : (0 : ℚ) ≤ maxh / 255 := by positivity
  have hfmax : ∀ a b : ℕ, ((max a b : ℕ) : ℚ) / 255 * maxh
      = max ((a : ℚ) / 255 * maxh) ((b : ℚ) / 255 * maxh) := by
    intro a b
    rw [Nat.cast_max, hdivmul, hdivmul, hdivmul, max_mul_of_nonneg _ _ hc255]
  have hfmin : ∀ a b : ℕ, ((min a b : ℕ) : ℚ) / 255 * maxh
      = min ((a : ℚ) / 255 * maxh) ((b : ℚ) / 255 * maxh) := by
    intro a b
    rw [Nat.cast_min, hdivmul, hdivmul, hdivmul, min_mul_of_nonneg _ _ hc255]
  have hgpos : ∀ n : ℕ, (0 : ℚ) ≤ (n : ℚ) / 255 * maxh := by
    intro n
    exact mul_nonneg (div_nonneg (Nat.cast_nonneg _) (by norm_num)) hmaxh
  simp only [zExtent, hz, htop]
  rw [listMax_append htopne hne2, listMin_append htopne hne2,
    listMax_map_hom _ hfmax hne1, listMin_map_hom _ hfmin hne1,
    hzeroMax, hzeroMin, max_eq_left (hgpos _), min_eq_right (hgpos _),
    sub_zero, maxIntensity]

/-- Witness for `heightmap_extent_eq` at a 1×1 raster of intensity 255
with max_height 5: the extent is exactly 5. -/
theorem heightmap_extent_eq_witness :
    ((1 : ℕ) ≤ 1) ∧ ((0 : ℚ) ≤ 5) ∧
    zExtent (heightmapVertices 1 1 (fun _ _ => 255) 5 0 1)
      = ((maxIntensity 1 1 fun _ _ => 255 : ℕ) : ℚ) / 255 * 5 :=
  ⟨le_rfl, by norm_num,
   heightmap_extent_eq 1 1 le_rfl le_rfl (fun _ _ => 255) 5 1 (by norm_num)⟩

/-! ## Contour-extrusion error paths (claim C5)

`image_to_stl_contour` (converters.py lines 187-236) and `png_to_stl`
(png_to_stl.py lines 179-242) extract contours, convert them to
polygons, and fail early when no valid polygon remains; otherwise they
extrude every polygon and fail when no component mesh was produced.
The polygon list and the per-polygon extrusion are parameters here (the
sources call OpenCV / shapely / trimesh for them); the control flow and
error strings are the sources'.  The intermediate `unary_union` merge
step cannot fail (its exceptions are swallowed) and maps a nonempty
polygon list to a nonempty one; the post-merge list is the `polygons`
consumed below. -/

/-- Error-path skeleton of `image_to_stl_contour` (converters.py). -/
def contourPipeline {P M : Type} (polygons : List P) (extrude : P → List M) :
    Except String (List M) :=
  if polygons.isEmpty then
    Except.error ("No valid contours found. Try adjusting threshold or use invert=True")
  else
    let meshes := polygons.flatMap extrude
    if meshes.isEmpty then Except.error ("Failed to create any valid meshes")
    else Except.ok meshes

/-- Error-path skeleton of `png_to_stl` (png_to_stl.py): identical
logic, slightly different first message. -/
def pngToStlPipeline {P M : Type} (polygons : List P) (extrude : P → List M) :
    Except String (List M) :=
  if polygons.isEmpty then
    Except.error ("No valid contours found in image. Try adjusting --threshold or use --invert")
  else
    let meshes := polygons.flatMap extrude
    if meshes.isEmpty then Except.error ("Failed to create any valid meshes")
    else Except.ok meshes

/-- Claim C5: with zero valid polygons both contour pipelines fail with
the no-extractable-shape error carrying the threshold/invert guidance,
and any `ok` result of either pipeline carries a nonempty mesh list —
an empty mesh is never returned. -/
theorem contour_zero_polygons_fails {P M : Type} (extrude : P → List M) :
    (contourPipeline ([] : List P) extrude
      = Except.error ("No valid contours found. Try adjusting threshold or use invert=True")) ∧
    (pngToStlPipeline ([] : List P) extrude
      = Except.error ("No valid contours found in image. Try adjusting --threshold or use --invert")) ∧
    (∀ (polygons : List P) (ms : List M),
      contourPipeline polygons extrude = Except.ok ms → ms ≠ []) ∧
    (∀ (polygons : List P) (ms : List M),
      pngToStlPipeline polygons extrude = Except.ok ms → ms ≠ []) := by
  refine ⟨rfl, rfl, ?_, ?_⟩
  · intro polygons ms h
    simp only [contourPipeline] at h
    by_cases h1 : polygons.isEmpty = true
    · rw [if_pos h1] at h
      cases h
    · rw [if_neg h1] at h
      by_cases h2 : (polygons.flatMap extrude).isEmpty = true
      · rw [if_pos h2] at h
        cases h
      · rw [if_neg h2] at h
        injection h with h
        subst h
        exact fun hc => h2 (by simp [hc])
  · intro polygons ms h
    simp only [pngToStlPipeline] at h
    by_cases h1 : polygons.isEmpty = true
    · rw [if_pos h1] at h
      cases h
    · rw [if_neg h1] at h
      by_cases h2 : (polygons.flatMap extrude).isEmpty = true
      · rw [if_pos h2] at h
        cases h
      · rw [if_neg h2] at h
        injection h with h
        subst h
        exact fun hc => h2 (by simp [hc])

/-- Witness for `contour_zero_polygons_fails` at `P = M = ℕ` with the
singleton extrusion: a run with one polygon yields the nonempty mesh
list `[2]`. -/
theorem contour_zero_polygons_fails_witness :
    (contourPipeline ([] : List ℕ) (fun p => [p])
      = Except.error ("No valid contours found. Try adjusting threshold or use invert=True")) ∧
    ([2] ≠ ([] : List ℕ)) :=
  ⟨(contour_zero_polygons_fails (fun p : ℕ => [p])).1,
   (contour_zero_polygons_fails (fun p : ℕ => [p])).2.2.1 [2] [2] rfl⟩

/-! ## Scale-to-target-height (claim C6) -/

/-- Uniform scaling of a vertex list: trimesh `apply_scale` with a
scalar factor multiplies every coordinate. -/
def applyScale (s : ℚ) (vs : List (ℚ × ℚ × ℚ)) : List (ℚ × ℚ × ℚ) :=
  vs.map fun v => (s * v.1, s * v.2.1, s * v.2.2)

/-- Scale-to-target-height stage of `fix_model` (fix_model.py lines
161-166): `scale_factor = target_height_mm / current_height` with
`current_height` the vertical extent, then `apply_scale`. -/
def scaleToTargetHeight (target : ℚ) (vs : List (ℚ × ℚ × ℚ)) : List (ℚ × ℚ × ℚ) :=
  applyScale (target / zExtent vs) vs

/-- Claim C6: for every mesh with nonzero vertical extent and
nonnegative requested height, scaling to the target height and
re-measuring the vertical extent yields exactly the target. -/
theorem scale_to_target_height_exact (target : ℚ) (vs : List (ℚ × ℚ × ℚ))
    (hne : vs ≠ []) (hz : zExtent vs ≠ 0) (ht : 0 ≤ target) :
    zExtent (scaleToTargetHeight target vs) = target := by
  have hzne : zCoords vs ≠ [] := by
    intro hc
    exact hne (List.map_eq_nil_iff.mp hc)
  have hext : 0 ≤ zExtent vs := sub_nonneg.mpr (listMin_le_listMax hzne)
  have hpos : 0 < zExtent vs := lt_of_le_of_ne hext (Ne.symm hz)
  have hs : 0 ≤ target / zExtent vs := div_nonneg ht (le_of_lt hpos)
  have hmap : zCoords (scaleToTargetHeight target vs)
      = (zCoords vs).map (fun z => target / zExtent vs * z) := by
    simp [zCoords, scaleToTargetHeight, applyScale, List.map_map, Function.comp_def]
  have hfmax : ∀ a b : ℚ, target / zExtent vs * max a b
      = max (target / zExtent vs * a) (target / zExtent vs * b) := by
    intro a b
    rw [mul_comm, max_mul_of_nonneg _ _ hs, mul_comm a _, mul_comm b _]
  have hfmin : ∀ a b : ℚ, target / zExtent vs * min a b
      = min (target / zExtent vs * a) (target / zExtent vs * b) := by
    intro a b
    rw [mul_comm, min_mul_of_nonneg _ _ hs, mul_comm a _, mul_comm b _]
  unfold zExtent
  rw [hmap, listMax_map_hom _ hfmax hzne, listMin_map_hom _ hfmin hzne]
  have hE : listMax (zCoords vs) - listMin (zCoords vs) = zExtent vs := rfl
  calc target / zExtent vs * listMax (zCoords vs)
        - target / zExtent vs * listMin (zCoords vs)
      = target / zExtent vs * (listMax (zCoords vs) - listMin (zCoords vs)) := by ring
    _ = target / zExtent vs * zExtent vs := by rw [hE]
    _ = target := div_mul_cancel₀ target hz

/-- Witness for `scale_to_target_height_exact` at a two-vertex mesh of
extent 2 and target 7. -/
theorem scale_to_target_height_exact_witness :
    ([((0 : ℚ), (0 : ℚ), (0 : ℚ)), (0, 0, 2)] ≠ []) ∧
    (zExtent [((0 : ℚ), (0 : ℚ), (0 : ℚ)), (0, 0, 2)] ≠ 0) ∧
    ((0 : ℚ) ≤ 7) ∧
    zExtent (scaleToTargetHeight 7 [((0 : ℚ), (0 : ℚ), (0 : ℚ)), (0, 0, 2)]) = 7 :=
  ⟨by simp, by norm_num [zExtent, zCoords, listMax, listMin, max_def, min_def],
   by norm_num,
   scale_to_target_height_exact 7 _ (by simp)
     (by norm_num [zExtent, zCoords, listMax, listMin, max_def, min_def]) (by norm_num)⟩

/-! ## Build-volume fit (claim C7)

Both `scale_to_fit` implementations read only the bounding-box size of
the mesh and multiply the mesh by a scalar, so they are modelled as the
scalar factor each one chooses for a given size triple
`(sx, sy, sz)`.  converters.py (lines 26-43) collects one candidate
`220/size` per axis that exceeds its bound and applies the minimum
whenever a candidate exists; utils.py (lines 128-168) collects one
candidate per axis of positive size and applies the minimum only when
it is `< 1`. -/

/-- Build volume bound per axis (FlashForge Adventurer 5M, 220 mm). -/
def MAX_BUILD : ℚ := 220

/-- Scale factor applied by `scale_to_fit` in converters.py; factor `1`
when no axis exceeds the bound (the source then leaves the mesh
untouched). -/
def scaleToFitFactorC (sx sy sz : ℚ) : ℚ :=
  let factors := (if MAX_BUILD < sx then [MAX_BUILD / sx] else [])
    ++ (if MAX_BUILD < sy then [MAX_BUILD / sy] else [])
    ++ (if MAX_BUILD < sz then [MAX_BUILD / sz] else [])
  if factors.isEmpty then 1 else listMin factors

/-- Scale factor applied by `scale_to_fit` in utils.py; factor `1` when
no candidate exists or the minimal candidate is at least `1` (the
source then leaves the mesh untouched). -/
def scaleToFitFactorU (sx sy sz : ℚ) : ℚ :=
  let factors := (if 0 < sx then [MAX_BUILD / sx] else [])
    ++ (if 0 < sy then [MAX_BUILD / sy] else [])
    ++ (if 0 < sz then [MAX_BUILD / sz] else [])
  if factors.isEmpty then 1
  else if listMin factors < 1 then listMin factors else 1

theorem listMin_le_of_mem {α : Type} [LinearOrder α] [Zero α] {x : α}
    {l : List α} (h : x ∈ l) : listMin l ≤ x := listMin_le h

theorem scaleToFitFactorC_le_one (sx sy sz : ℚ) : scaleToFitFactorC sx sy sz ≤ 1 := by
  unfold scaleToFitFactorC
  by_cases hE : ((if MAX_BUILD < sx then [MAX_BUILD / sx] else [])
      ++ (if MAX_BUILD < sy then [MAX_BUILD / sy] else [])
      ++ (if MAX_BUILD < sz then [MAX_BUILD / sz] else [])).isEmpty = true
  · rw [if_pos hE]
  · rw [if_neg hE]
    have hne : ((if MAX_BUILD < sx then [MAX_BUILD / sx] else [])
        ++ (if MAX_BUILD < sy then [MAX_BUILD / sy] else [])
        ++ (if MAX_BUILD < sz then [MAX_BUILD / sz] else [])) ≠ [] := by
      intro hc
      exact hE (by simp [hc])
    have hmem := listMin_mem hne
    have hall : ∀ x ∈ ((if MAX_BUILD < sx then [MAX_BUILD / sx] else [])
        ++ (if MAX_BUILD < sy then [MAX_BUILD / sy] else [])
        ++ (if MAX_BUILD < sz then [MAX_BUILD / sz] else [])), x ≤ 1 := by
      intro x hx
      simp only [List.mem_append] at hx
      have hMB : (0 : ℚ) < MAX_BUILD := by norm_num [MAX_BUILD]
      rcases hx with (hx | hx) | hx <;>
        [skip; skip; skip] <;>
        · split_ifs at hx with hc
          · rcases List.mem_singleton.mp hx with rfl
            exact le_of_lt ((div_lt_one (lt_trans hMB hc)).mpr hc)
          · cases hx
    exact hall _ hmem

theorem scaleToFitFactorU_le_one (sx sy sz : ℚ) : scaleToFitFactorU sx sy sz ≤ 1 := by
  unfold scaleToFitFactorU
  by_cases hE : ((if 0 < sx then [MAX_BUILD / sx] else [])
      ++ (if 0 < sy then [MAX_BUILD / sy] else [])
      ++ (if 0 < sz then [MAX_BUILD / sz] else [])).isEmpty = true
  · rw [if_pos hE]
  · rw [if_neg hE]
    by_cases hlt : listMin ((if 0 < sx then [MAX_BUILD / sx] else [])
        ++ (if 0 < sy then [MAX_BUILD / sy] else [])
        ++ (if 0 < sz then [MAX_BUILD / sz] else [])) < 1
    · rw [if_pos hlt]
      exact le_of_lt hlt
    · rw [if_neg hlt]

theorem scaleToFitFactorC_le_factor (sx sy sz : ℚ) :
    (MAX_BUILD < sx → scaleToFitFactorC sx sy sz ≤ MAX_BUILD / sx) ∧
    (MAX_BUILD < sy → scaleToFitFactorC sx sy sz ≤ MAX_BUILD / sy) ∧
    (MAX_BUILD < sz → scaleToFitFactorC sx sy sz ≤ MAX_BUILD / sz) := by
  refine ⟨?_, ?_, ?_⟩
  · intro hc
    unfold scaleToFitFactorC
    have hmem : MAX_BUILD / sx ∈ ((if MAX_BUILD < sx then [MAX_BUILD / sx] else [])
        ++ (if MAX_BUILD < sy then [MAX_BUILD / sy] else [])
        ++ (if MAX_BUILD < sz then [MAX_BUILD / sz] else [])) := by
      simp [hc]
    rw [if_neg (by simpa [List.isEmpty_iff] using List.ne_nil_of_mem hmem)]
    exact listMin_le hmem
  · intro hc
    unfold scaleToFitFactorC
    have hmem : MAX_BUILD / sy ∈ ((if MAX_BUILD < sx then [MAX_BUILD / sx] else [])
        ++ (if MAX_BUILD < sy then [MAX_BUILD / sy] else [])
        ++ (if MAX_BUILD < sz then [MAX_BUILD / sz] else [])) := by
      simp [hc]
    rw [if_neg (by simpa [List.isEmpty_iff] using List.ne_nil_of_mem hmem)]
    exact listMin_le hmem
  · intro hc
    unfold scaleToFitFactorC
    have hmem : MAX_BUILD / sz ∈ ((if MAX_BUILD < sx then [MAX_BUILD / sx] else [])
        ++ (if MAX_BUILD < sy then [MAX_BUILD / sy] else [])
        ++ (if MAX_BUILD < sz then [MAX_BUILD / sz] else [])) := by
      simp [hc]
    rw [if_neg (by simpa [List.isEmpty_iff] using List.ne_nil_of_mem hmem)]
    exact listMin_le hmem

theorem scaleToFitFactorU_le_factor (sx sy sz : ℚ) :
    (MAX_BUILD < sx → scaleToFitFactorU sx sy sz ≤ MAX_BUILD / sx) ∧
    (MAX_BUILD < sy → scaleToFitFactorU sx sy sz ≤ MAX_BUILD / sy) ∧
    (MAX_BUILD < sz → scaleToFitFactorU sx sy sz ≤ MAX_BUILD / sz) := by
  have hMB : (0 : ℚ) < MAX_BUILD := by norm_num [MAX_BUILD]
  refine ⟨?_, ?_, ?_⟩
  · intro hc
    have h0 : 0 < sx := lt_trans hMB hc
    unfold scaleToFitFactorU
    have hmem : MAX_BUILD / sx ∈ ((if 0 < sx then [MAX_BUILD / sx] else [])
        ++ (if 0 < sy then [MAX_BUILD / sy] else [])
        ++ (if 0 < sz then [MAX_BUILD / sz] else [])) := by
      simp [h0]
    have hminle := listMin_le hmem
    have hlt1 : MAX_BUILD / sx < 1 := (div_lt_one h0).mpr hc
    rw [if_neg (by simpa [List.isEmpty_iff] using List.ne_nil_of_mem hmem),
      if_pos (lt_of_le_of_lt hminle hlt1)]
    exact hminle
  · intro hc
    have h0 : 0 < sy := lt_trans hMB hc
    unfold scaleToFitFactorU
    have hmem : MAX_BUILD / sy ∈ ((if 0 < sx then [MAX_BUILD / sx] else [])
        ++ (if 0 < sy then [MAX_BUILD / sy] else [])
        ++ (if 0 < sz then [MAX_BUILD / sz] else [])) := by
      simp [h0]
    have hminle := listMin_le hmem
    have hlt1 : MAX_BUILD / sy < 1 := (div_lt_one h0).mpr hc
    rw [if_neg (by simpa [List.isEmpty_iff] using List.ne_nil_of_mem hmem),
      if_pos (lt_of_le_of_lt hminle hlt1)]
    exact hminle
  · intro hc
    have h0 : 0 < sz := lt_trans hMB hc
    unfold scaleToFitFactorU
    have hmem : MAX_BUILD / sz ∈ ((if 0 < sx then [MAX_BUILD / sx] else [])
        ++ (if 0 < sy then [MAX_BUILD / sy] else [])
        ++ (if 0 < sz then [MAX_BUILD / sz] else [])) := by
      simp [h0]
    have hminle := listMin_le hmem
    have hlt1 : MAX_BUILD / sz < 1 := (div_lt_one h0).mpr hc
    rw [if_neg (by simpa [List.isEmpty_iff] using List.ne_nil_of_mem hmem),
      if_pos (lt_of_le_of_lt hminle hlt1)]
    exact hminle

theorem scaleToFitFactorC_eq_one (sx sy sz : ℚ) (hx : sx ≤ MAX_BUILD)
    (hy : sy ≤ MAX_BUILD) (hz : sz ≤ MAX_BUILD) :
    scaleToFitFactorC sx sy sz = 1 := by
  simp [scaleToFitFactorC, not_lt.mpr hx, not_lt.mpr hy, not_lt.mpr hz]

theorem scaleToFitFactorU_eq_one (sx sy sz : ℚ) (hx : sx ≤ MAX_BUILD)
    (hy : sy ≤ MAX_BUILD) (hz : sz ≤ MAX_BUILD) :
    scaleToFitFactorU sx sy sz = 1 := by
  unfold scaleToFitFactorU
  by_cases hE : ((if 0 < sx then [MAX_BUILD / sx] else [])
      ++ (if 0 < sy then [MAX_BUILD / sy] else [])
      ++ (if 0 < sz then [MAX_BUILD / sz] else [])).isEmpty = true
  · rw [if_pos hE]
  · rw [if_neg hE]
    have hne : ((if 0 < sx then [MAX_BUILD / sx] else [])
        ++ (if 0 < sy then [MAX_BUILD / sy] else [])
        ++ (if 0 < sz then [MAX_BUILD / sz] else [])) ≠ [] := by
      intro hc
      exact hE (by simp [hc])
    have hall : ∀ x ∈ ((if 0 < sx then [MAX_BUILD / sx] else [])
        ++ (if 0 < sy then [MAX_BUILD / sy] else [])
        ++ (if 0 < sz then [MAX_BUILD / sz] else [])), (1 : ℚ) ≤ x := by
      intro x hx'
      simp only [List.mem_append] at hx'
      rcases hx' with (h | h) | h
      · split_ifs at h with hc
        · rcases List.mem_singleton.mp h with rfl
          exact (one_le_div hc).mpr hx
        · cases h
      · split_ifs at h with hc
        · rcases List.mem_singleton.mp h with rfl
          exact (one_le_div hc).mpr hy
        · cases h
      · split_ifs at h with hc
        · rcases List.mem_singleton.mp h with rfl
          exact (one_le_div hc).mpr hz
        · cases h
    rw [if_neg (not_lt.mpr (le_listMin hne hall))]

theorem axis_fits {s f : ℚ} (hs : 0 ≤ s) (hf1 : f ≤ 1)
    (hf : MAX_BUILD < s → f ≤ MAX_BUILD / s) : f * s ≤ MAX_BUILD := by
  have hMB : (0 : ℚ) < MAX_BUILD := by norm_num [MAX_BUILD]
  by_cases hc : MAX_BUILD < s
  · have h0 : 0 < s := lt_trans hMB hc
    calc f * s ≤ MAX_BUILD / s * s := mul_le_mul_of_nonneg_right (hf hc) hs
      _ = MAX_BUILD := div_mul_cancel₀ MAX_BUILD (ne_of_gt h0)
  · push_neg at hc
    calc f * s ≤ 1 * s := mul_le_mul_of_nonneg_right hf1 hs
      _ = s := one_mul s
      _ ≤ MAX_BUILD := hc

/-- Claim C7: both `scale_to_fit` implementations leave every scaled
axis within the 220 mm build volume, never scale up (factor at most 1),
and apply no scaling at all (factor exactly 1) to a mesh that already
fits. -/
theorem scale_to_fit_within_build_volume (sx sy sz : ℚ)
    (hx : 0 ≤ sx) (hy : 0 ≤ sy) (hz : 0 ≤ sz) :
    (scaleToFitFactorC sx sy sz * sx ≤ MAX_BUILD ∧
     scaleToFitFactorC sx sy sz * sy ≤ MAX_BUILD ∧
     scaleToFitFactorC sx sy sz * sz ≤ MAX_BUILD ∧
     scaleToFitFactorC sx sy sz ≤ 1 ∧
     (sx ≤ MAX_BUILD → sy ≤ MAX_BUILD → sz ≤ MAX_BUILD →
       scaleToFitFactorC sx sy sz = 1)) ∧
    (scaleToFitFactorU sx sy sz * sx ≤ MAX_BUILD ∧
     scaleToFitFactorU sx sy sz * sy ≤ MAX_BUILD ∧
     scaleToFitFactorU sx sy sz * sz ≤ MAX_BUILD ∧
     scaleToFitFactorU sx sy sz ≤ 1 ∧
     (sx ≤ MAX_BUILD → sy ≤ MAX_BUILD → sz ≤ MAX_BUILD →
       scaleToFitFactorU sx sy sz = 1)) := by
  obtain ⟨hcx, hcy, hcz⟩ := scaleToFitFactorC_le_factor sx sy sz
  obtain ⟨hux, huy, huz⟩ := scaleToFitFactorU_le_factor sx sy sz
  refine ⟨⟨?_, ?_, ?_, scaleToFitFactorC_le_one sx sy sz, scaleToFitFactorC_eq_one sx sy sz⟩,
    ⟨?_, ?_, ?_, scaleToFitFactorU_le_one sx sy sz, scaleToFitFactorU_eq_one sx sy sz⟩⟩
  · exact axis_fits hx (scaleToFitFactorC_le_one sx sy sz) hcx
  · exact axis_fits hy (scaleToFitFactorC_le_one sx sy sz) hcy
  · exact axis_fits hz (scaleToFitFactorC_le_one sx sy sz) hcz
  · exact axis_fits hx (scaleToFitFactorU_le_one sx sy sz) hux
  · exact axis_fits hy (scaleToFitFactorU_le_one sx sy sz) huy
  · exact axis_fits hz (scaleToFitFactorU_le_one sx sy sz) huz

/-- Witness for `scale_to_fit_within_build_volume` at the degenerate
size triple `(0, 0, 0)`. -/
theorem scale_to_fit_within_build_volume_witness :
    ((0 : ℚ) ≤ 0) ∧
    ((scaleToFitFactorC 0 0 0 * 0 ≤ MAX_BUILD ∧
      scaleToFitFactorC 0 0 0 * 0 ≤ MAX_BUILD ∧
      scaleToFitFactorC 0 0 0 * 0 ≤ MAX_BUILD ∧
      scaleToFitFactorC 0 0 0 ≤ 1 ∧
      ((0 : ℚ) ≤ MAX_BUILD → (0 : ℚ) ≤ MAX_BUILD → (0 : ℚ) ≤ MAX_BUILD →
        scaleToFitFactorC 0 0 0 = 1)) ∧
     (scaleToFitFactorU 0 0 0 * 0 ≤ MAX_BUILD ∧
      scaleToFitFactorU 0 0 0 * 0 ≤ MAX_BUILD ∧
      scaleToFitFactorU 0 0 0 * 0 ≤ MAX_BUILD ∧
      scaleToFitFactorU 0 0 0 ≤ 1 ∧
      ((0 : ℚ) ≤ MAX_BUILD → (0 : ℚ) ≤ MAX_BUILD → (0 : ℚ) ≤ MAX_BUILD →
        scaleToFitFactorU 0 0 0 = 1))) :=
  ⟨le_rfl, scale_to_fit_within_build_volume 0 0 0 le_rfl le_rfl le_rfl⟩

/-! ## Floating-piece removal (claims C8, C10)

`fix_model` (fix_model.py lines 130-159) splits the mesh into connected
bodies, computes an effective volume per body (absolute mesh volume
when trimesh reports a valid volume, otherwise the bounding-box volume
as fallback), and keeps the bodies whose ratio to the largest effective
volume reaches `min_body_ratio`; when nothing survives the guard
`if kept_bodies:` leaves the mesh unchanged.  The stage is modelled on
the list of split bodies; re-splitting the concatenation of disjoint
kept bodies yields the same body list, so a second run is the same
function applied to the first run's output list. -/

/-- A connected body as the stage reads it: trimesh's signed `volume`,
its `is_volume` validity flag, and the bounding-box volume
`np.prod(bounding_box.extents)` used as fallback. -/
structure Body where
  volume : ℚ
  isVolume : Bool
  bboxVolume : ℚ

/-- Effective volume of a body (fix_model.py lines 139-144):
`abs(volume)` if `is_volume` else `0`, falling back to the bounding-box
volume when that is `0`. -/
def effVol (b : Body) : ℚ :=
  let vol := if b.isVolume then |b.volume| else 0
  if vol = 0 then b.bboxVolume else vol

/-- Keep test of the body loop (fix_model.py lines 148-153):
`ratio = vol / max_vol if max_vol > 0 else 0`, kept iff
`ratio >= min_body_ratio`. -/
def keepPred (r maxv : ℚ) (b : Body) : Bool :=
  decide (r ≤ if 0 < maxv then effVol b / maxv else 0)

/-- Floating-piece removal (fix_model.py lines 135-158): bodies whose
effective-volume ratio to the maximum is below `r` are dropped; with at
most one body, or when no body survives, the mesh is left unchanged.
Returns the new body list and the `removed_bodies` counter. -/
def removeFloating (r : ℚ) (bodies : List Body) : List Body × ℕ :=
  if bodies.length ≤ 1 then (bodies, 0)
  else
    let kept := bodies.filter (keepPred r (listMax (bodies.map effVol)))
    if kept.isEmpty then (bodies, bodies.length - kept.length)
    else (kept, bodies.length - kept.length)

theorem effVol_nonneg (b : Body) (hbb : 0 ≤ b.bboxVolume) : 0 ≤ effVol b := by
  simp only [effVol]
  split_ifs
  · exact hbb
  · exact abs_nonneg _
  · exact hbb
  · exact le_rfl

theorem removeFloating_small (r : ℚ) (bodies : List Body)
    (h : bodies.length ≤ 1) : removeFloating r bodies = (bodies, 0) := by
  simp only [removeFloating]
  rw [if_pos h]

theorem removeFloating_kept (r : ℚ) (bodies : List Body) (h2 : 2 ≤ bodies.length)
    (hk : bodies.filter (keepPred r (listMax (bodies.map effVol))) ≠ []) :
    removeFloating r bodies
      = (bodies.filter (keepPred r (listMax (bodies.map effVol))),
         bodies.length
           - (bodies.filter (keepPred r (listMax (bodies.map effVol)))).length) := by
  simp only [removeFloating]
  rw [if_neg (by omega), if_neg (by simpa [List.isEmpty_iff] using hk)]

theorem removeFloating_none (r : ℚ) (bodies : List Body) (h2 : 2 ≤ bodies.length)
    (hk : bodies.filter (keepPred r (listMax (bodies.map effVol))) = []) :
    removeFloating r bodies = (bodies, bodies.length) := by
  simp only [removeFloating]
  rw [if_neg (by omega), if_pos (by simp [List.isEmpty_iff, hk]), hk]
  simp

theorem max_body_kept (r : ℚ) (bodies : List Body) (hne : bodies ≠ [])
    (hr : r ≤ 1) (hpos : 0 < listMax (bodies.map effVol)) :
    ∃ b ∈ bodies.filter (keepPred r (listMax (bodies.map effVol))),
      effVol b = listMax (bodies.map effVol) := by
  have hmapne : bodies.map effVol ≠ [] := fun hc => hne (List.map_eq_nil_iff.mp hc)
  obtain ⟨b, hb, hbe⟩ := List.mem_map.mp (listMax_mem hmapne)
  refine ⟨b, List.mem_filter.mpr ⟨hb, ?_⟩, hbe⟩
  simp only [keepPred, decide_eq_true_eq]
  rw [if_pos hpos, hbe, div_self (ne_of_gt hpos)]
  exact hr

theorem ratio_le_one_of_kept (r : ℚ) (bodies : List Body)
    (hpos : 0 < listMax (bodies.map effVol))
    (hk : bodies.filter (keepPred r (listMax (bodies.map effVol))) ≠ []) :
    r ≤ 1 := by
  obtain ⟨b, hb⟩ := List.exists_mem_of_ne_nil _ hk
  have hbm := List.mem_of_mem_filter hb
  have hbp := List.of_mem_filter hb
  simp only [keepPred, decide_eq_true_eq] at hbp
  rw [if_pos hpos] at hbp
  have heb : effVol b ≤ listMax (bodies.map effVol) :=
    le_listMax (List.mem_map_of_mem _ hbm)
  exact le_trans hbp ((div_le_one hpos).mpr heb)

theorem removeFloating_fst_idem (r : ℚ) (bodies : List Body) :
    (removeFloating r (removeFloating r bodies).1).1 = (removeFloating r bodies).1 := by
  by_cases hlen : bodies.length ≤ 1
  · rw [removeFloating_small r bodies hlen]
    dsimp only
    rw [removeFloating_small r bodies hlen]
  · push_neg at hlen
    have h2 : 2 ≤ bodies.length := hlen
    by_cases hk : bodies.filter (keepPred r (listMax (bodies.map effVol))) = []
    · rw [removeFloating_none r bodies h2 hk]
      dsimp only
      rw [removeFloating_none r bodies h2 hk]
    · rw [removeFloating_kept r bodies h2 hk]
      dsimp only
      by_cases hklen : (bodies.filter (keepPred r (listMax (bodies.map effVol)))).length ≤ 1
      · rw [removeFloating_small r _ hklen]
      · push_neg at hklen
        by_cases hpos : 0 < listMax (bodies.map effVol)
        · have hr := ratio_le_one_of_kept r bodies hpos hk
          have hne : bodies ≠ [] := by
            intro hc
            rw [hc] at h2
            simp at h2
          obtain ⟨bmax, hbk, hbe⟩ := max_body_kept r bodies hne hr hpos
          have hM' : listMax ((bodies.filter
                (keepPred r (listMax (bodies.map effVol)))).map effVol)
              = listMax (bodies.map effVol) := by
            apply le_antisymm
            · apply listMax_le (fun hc => hk (List.map_eq_nil_iff.mp hc))
              intro x hx
              obtain ⟨b, hb, rfl⟩ := List.mem_map.mp hx
              exact le_listMax (List.mem_map_of_mem _ (List.mem_of_mem_filter hb))
            · have hle := le_listMax (List.mem_map_of_mem effVol hbk)
              rw [hbe] at hle
              exact hle
          have hfself : (bodies.filter (keepPred r (listMax (bodies.map effVol)))).filter
              (keepPred r (listMax ((bodies.filter
                (keepPred r (listMax (bodies.map effVol)))).map effVol)))
              = bodies.filter (keepPred r (listMax (bodies.map effVol))) := by
            rw [hM']
            apply List.filter_eq_self.mpr
            intro b hb
            exact List.of_mem_filter hb
          rw [removeFloating_kept r _ (by omega) (by rw [hfself]; exact hk)]
          dsimp only
          rw [hfself]
        · have hr0 : r ≤ 0 := by
            obtain ⟨b, hb⟩ := List.exists_mem_of_ne_nil _ hk
            have hbp := List.of_mem_filter hb
            simp only [keepPred, decide_eq_true_eq] at hbp
            rw [if_neg hpos] at hbp
            exact hbp
          have hkeq : bodies.filter (keepPred r (listMax (bodies.map effVol)))
              = bodies := by
            apply List.filter_eq_self.mpr
            intro b hb
            simp only [keepPred, decide_eq_true_eq]
            rw [if_neg hpos]
            exact hr0
          rw [hkeq]
          rw [removeFloating_kept r bodies h2 hk]
          dsimp only
          rw [hkeq]

/-- Claim C8: floating-piece removal is idempotent.  For every body
list and threshold, a second run leaves the body list (hence the
mesh's triangles) unchanged; moreover, for a threshold
`min_body_ratio ≤ 1` and positive maximal effective volume the second
run also reports `removed_bodies = 0`. -/
theorem remove_floating_idempotent (r : ℚ) (bodies : List Body)
    (hr : r ≤ 1) (hpos : 0 < listMax (bodies.map effVol)) :
    (removeFloating r (removeFloating r bodies).1
      = ((removeFloating r bodies).1, 0)) ∧
    (∀ (s : ℚ) (bs : List Body),
      (removeFloating s (removeFloating s bs).1).1 = (removeFloating s bs).1) := by
  refine ⟨?_, fun s bs => removeFloating_fst_idem s bs⟩
  by_cases hlen : bodies.length ≤ 1
  · rw [removeFloating_small r bodies hlen]
    exact removeFloating_small r bodies hlen
  · push_neg at hlen
    have h2 : 2 ≤ bodies.length := hlen
    have hne : bodies ≠ [] := by
      intro hc
      rw [hc] at h2
      simp at h2
    obtain ⟨bmax, hbk, hbe⟩ := max_body_kept r bodies hne hr hpos
    have hkne : bodies.filter (keepPred r (listMax (bodies.map effVol))) ≠ [] :=
      List.ne_nil_of_mem hbk
    rw [removeFloating_kept r bodies h2 hkne]
    dsimp only
    by_cases hklen : (bodies.filter (keepPred r (listMax (bodies.map effVol)))).length ≤ 1
    · exact removeFloating_small r _ hklen
    · push_neg at hklen
      have hM' : listMax ((bodies.filter (keepPred r (listMax (bodies.map effVol)))).map effVol)
          = listMax (bodies.map effVol) := by
        apply le_antisymm
        · apply listMax_le (fun hc => hkne (List.map_eq_nil_iff.mp hc))
          intro x hx
          obtain ⟨b, hb, rfl⟩ := List.mem_map.mp hx
          exact le_listMax (List.mem_map_of_mem _ (List.mem_of_mem_filter hb))
        · have hle := le_listMax (List.mem_map_of_mem effVol hbk)
          rw [hbe] at hle
          exact hle
      have hfself : (bodies.filter (keepPred r (listMax (bodies.map effVol)))).filter
          (keepPred r (listMax ((bodies.filter
            (keepPred r (listMax (bodies.map effVol)))).map effVol)))
          = bodies.filter (keepPred r (listMax (bodies.map effVol))) := by
        rw [hM']
        apply List.filter_eq_self.mpr
        intro b hb
        exact List.of_mem_filter hb
      rw [removeFloating_kept r _ (by omega) (by rw [hfself]; exact hkne), hfself]
      simp

/-- Witness for `remove_floating_idempotent` on two unit bodies with
threshold 1/2. -/
theorem remove_floating_idempotent_witness :
    ((1 : ℚ) / 2 ≤ 1) ∧
    (0 < listMax ([Body.mk 1 true 0, Body.mk 2 true 0].map effVol)) ∧
    ((removeFloating (1 / 2)
        (removeFloating (1 / 2) [Body.mk 1 true 0, Body.mk 2 true 0]).1
      = ((removeFloating (1 / 2) [Body.mk 1 true 0, Body.mk 2 true 0]).1, 0)) ∧
     (∀ (s : ℚ) (bs : List Body),
       (removeFloating s (removeFloating s bs).1).1 = (removeFloating s bs).1)) :=
  ⟨by norm_num, by norm_num [listMax, effVol],
   remove_floating_idempotent (1 / 2) [Body.mk 1 true 0, Body.mk 2 true 0]
     (by norm_num) (by norm_num [listMax, effVol])⟩

/-- Claim C10: floating-piece removal never empties the mesh — for any
threshold at most 1 a body of maximal effective volume survives, the
output body list is nonempty — and on a single-body mesh the stage
returns the mesh unchanged with `removed_bodies = 0` for every
threshold. -/
theorem remove_floating_keeps_largest (r : ℚ) (bodies : List Body)
    (hne : bodies ≠ []) (hr : r ≤ 1) :
    (∃ b ∈ (removeFloating r bodies).1,
      effVol b = listMax (bodies.map effVol)) ∧
    (removeFloating r bodies).1 ≠ [] ∧
    (∀ (b₀ : Body) (r' : ℚ), removeFloating r' [b₀] = ([b₀], 0)) := by
  have hmax : ∃ b ∈ bodies, effVol b = listMax (bodies.map effVol) := by
    have hmapne : bodies.map effVol ≠ [] := fun hc => hne (List.map_eq_nil_iff.mp hc)
    obtain ⟨b, hb, hbe⟩ := List.mem_map.mp (listMax_mem hmapne)
    exact ⟨b, hb, hbe⟩
  have key : (∃ b ∈ (removeFloating r bodies).1,
      effVol b = listMax (bodies.map effVol)) ∧ (removeFloating r bodies).1 ≠ [] := by
    by_cases hlen : bodies.length ≤ 1
    · rw [removeFloating_small r bodies hlen]
      exact ⟨hmax, hne⟩
    · push_neg at hlen
      have h2 : 2 ≤ bodies.length := hlen
      by_cases hpos : 0 < listMax (bodies.map effVol)
      · obtain ⟨bmax, hbk, hbe⟩ := max_body_kept r bodies hne hr hpos
        have hkne := List.ne_nil_of_mem hbk
        rw [removeFloating_kept r bodies h2 hkne]
        exact ⟨⟨bmax, hbk, hbe⟩, hkne⟩
      · by_cases hc : r ≤ 0
        · have hkeq : bodies.filter (keepPred r (listMax (bodies.map effVol)))
              = bodies := by
            apply List.filter_eq_self.mpr
            intro b hb
            simp only [keepPred, decide_eq_true_eq]
            rw [if_neg hpos]
            exact hc
          rw [removeFloating_kept r bodies h2 (by rw [hkeq]; exact hne), hkeq]
          exact ⟨hmax, hne⟩
        · have hkeq : bodies.filter (keepPred r (listMax (bodies.map effVol)))
              = [] := by
            apply List.filter_eq_nil_iff.mpr
            intro b hb
            simp only [keepPred, decide_eq_true_eq]
            rw [if_neg hpos]
            exact hc
          rw [removeFloating_none r bodies h2 hkeq]
          exact ⟨hmax, hne⟩
  exact ⟨key.1, key.2, fun b₀ r' => removeFloating_small r' [b₀] (by simp)⟩

/-- Witness for `remove_floating_keeps_largest` on a single unit body
with threshold 1. -/
theorem remove_floating_keeps_largest_witness :
    ([Body.mk 1 true 0] ≠ []) ∧ ((1 : ℚ) ≤ 1) ∧
    ((∃ b ∈ (removeFloating 1 [Body.mk 1 true 0]).1,
        effVol b = listMax ([Body.mk 1 true 0].map effVol)) ∧
     (removeFloating 1 [Body.mk 1 true 0]).1 ≠ [] ∧
     (∀ (b₀ : Body) (r' : ℚ), removeFloating r' [b₀] = ([b₀], 0))) :=
  ⟨by simp, le_rfl,
   remove_floating_keeps_largest 1 [Body.mk 1 true 0] (by simp) le_rfl⟩

/-! ## Mesh validation (claim C9)

Both `validate_mesh` implementations (converters.py lines 46-66,
utils.py lines 85-125) read the watertightness flag and bounding-box
dimensions, collect human-readable problem strings in an `issues` list,
and return a report dict.  Neither contains a `raise` or any other
failure path: they are total functions into the report record, which is
how they are modelled (the numeric interpolation inside utils.py's
issue strings is elided). -/

/-- The facts about a mesh that the validators read. -/
structure MeshInfo where
  watertight : Bool
  dimX : ℚ
  dimY : ℚ
  dimZ : ℚ
  volume : ℚ

/-- The report fields under scrutiny (both sources also return bounds,
dimensions and counts, which carry no claim content). -/
structure Report where
  is_valid : Bool
  is_watertight : Bool
  volume : Option ℚ
  issues : List String

/-- `validate_mesh` of converters.py: one combined build-volume issue,
volume reported only when watertight. -/
def validateMeshC (m : MeshInfo) : Report :=
  let issues := (if m.watertight then [] else ["Mesh is not watertight (may have holes)"])
    ++ (if MAX_BUILD < m.dimX ∨ MAX_BUILD < m.dimY ∨ MAX_BUILD < m.dimZ then
        ["Exceeds build volume (220x220x220mm)"] else [])
  { is_valid := issues.isEmpty
    is_watertight := m.watertight
    volume := if m.watertight then some m.volume else none
    issues := issues }

/-- `validate_mesh` of utils.py: one issue per exceeded axis, volume
reported only when watertight. -/
def validateMeshU (m : MeshInfo) : Report :=
  let issues := (if m.watertight then [] else ["Mesh is not watertight (has holes)"])
    ++ (if MAX_BUILD < m.dimX then ["X dimension exceeds build volume"] else [])
    ++ (if MAX_BUILD < m.dimY then ["Y dimension exceeds build volume"] else [])
    ++ (if MAX_BUILD < m.dimZ then ["Z dimension exceeds build volume"] else [])
  { is_valid := issues.isEmpty
    is_watertight := m.watertight
    volume := if m.watertight then some m.volume else none
    issues := issues }

/-- Claim C9: for every mesh, both validators report the volume exactly
when the mesh is watertight and `none` otherwise, and report
watertightness and build-volume problems solely as entries of the
`issues` list — each problem string is present exactly when the
corresponding condition fails.  Both validators are total functions
into `Report`: like the sources, which contain no `raise`, they cannot
fail. -/
theorem validator_volume_iff_watertight (m : MeshInfo) :
    ((validateMeshC m).volume = some m.volume ↔ m.watertight = true) ∧
    ((validateMeshC m).volume = none ↔ m.watertight = false) ∧
    ((validateMeshU m).volume = some m.volume ↔ m.watertight = true) ∧
    ((validateMeshU m).volume = none ↔ m.watertight = false) ∧
    (("Mesh is not watertight (may have holes)") ∈ (validateMeshC m).issues
      ↔ m.watertight = false) ∧
    (("Exceeds build volume (220x220x220mm)") ∈ (validateMeshC m).issues
      ↔ (MAX_BUILD < m.dimX ∨ MAX_BUILD < m.dimY ∨ MAX_BUILD < m.dimZ)) ∧
    (("Mesh is not watertight (has holes)") ∈ (validateMeshU m).issues
      ↔ m.watertight = false) ∧
    (("X dimension exceeds build volume") ∈ (validateMeshU m).issues
      ↔ MAX_BUILD < m.dimX) ∧
    (("Y dimension exceeds build volume") ∈ (validateMeshU m).issues
      ↔ MAX_BUILD < m.dimY) ∧
    (("Z dimension exceeds build volume") ∈ (validateMeshU m).issues
      ↔ MAX_BUILD < m.dimZ) := by
  cases hw : m.watertight <;>
    simp [validateMeshC, validateMeshU, hw]

end FlashForge
